import Mathlib

/-!
# VEML7700 ambient-light sensor: auto-ranging and configuration

A shallow embedding of `src/src/VEML7700LightSensor.cpp` and
`src/src/VEML7700LightSensor.h`.

* The SparkFun device object (`VEML_sensor`) is a simulated device port: it
  holds the three setting registers, a script of the ambient readings it will
  return next and a script of the results of the setting writes it will
  receive next.
* Every call made on the device port, on `delay` and on the configuration
  store is appended to a log kept next to the sensor object, so that "which
  hardware operations were issued" is a statement about a list.
* `double` values are rationals; every floating-point operation is the exact
  operation followed by a rounding function `rnd` that the definitions take as
  a parameter (`rnd = id` is exact arithmetic).
* Loops take a fuel argument and fail with `Fault.outOfFuel` when it runs out;
  an out-of-range subscript of `gain_array` or `integration_array` (undefined
  behaviour in C++) fails with `Fault.outOfBounds`.
-/

namespace VEML7700LightSensor

/-! ## Device library constants (SparkFun VEML7700 library, not under src) -/

/-- Modelled from the spec: the enum `VEML7700_sensitivity_mode_t` of the device
library is not under src; its code order is x1 = 0, x2 = 1, x1/8 = 2, x1/4 = 3,
the order that the add-2 / subtract-2 conversion of `adjustSensitivity` relies on. -/
def VEML7700_SENSITIVITY_x1 : Nat := 0

/-- Modelled from the spec: device library code of gain 2x. -/
def VEML7700_SENSITIVITY_x2 : Nat := 1

/-- Modelled from the spec: device library code of gain 1/8x. -/
def VEML7700_SENSITIVITY_x1_8 : Nat := 2

/-- Modelled from the spec: device library code of gain 1/4x. -/
def VEML7700_SENSITIVITY_x1_4 : Nat := 3

/-- Modelled from the spec: the enum `VEML7700_integration_time_t` of the device
library is not under src; integration levels are numbered 0..5 in increasing
exposure time (25 ms times two to the index). -/
def VEML7700_INTEGRATION_25ms : Nat := 0

/-- Modelled from the spec: device library code of 50 ms. -/
def VEML7700_INTEGRATION_50ms : Nat := 1

/-- Modelled from the spec: device library code of 100 ms. -/
def VEML7700_INTEGRATION_100ms : Nat := 2

/-- Modelled from the spec: device library code of 200 ms. -/
def VEML7700_INTEGRATION_200ms : Nat := 3

/-- Modelled from the spec: device library code of 400 ms. -/
def VEML7700_INTEGRATION_400ms : Nat := 4

/-- Modelled from the spec: device library code of 800 ms. -/
def VEML7700_INTEGRATION_800ms : Nat := 5

/-- Modelled from the spec: the enum `VEML7700_persistence_protect_t` of the
device library is not under src; the four levels 1, 2, 4, 8 are numbered 0..3. -/
def VEML7700_PERSISTENCE_1 : Nat := 0

/-- Modelled from the spec: device library code of persistence 2. -/
def VEML7700_PERSISTENCE_2 : Nat := 1

/-- Modelled from the spec: device library code of persistence 4. -/
def VEML7700_PERSISTENCE_4 : Nat := 2

/-- Modelled from the spec: device library code of persistence 8. -/
def VEML7700_PERSISTENCE_8 : Nat := 3

/-! ## Tables of the header (VEML7700LightSensor.h, lines 29-38) -/

/-- The subscript operator of `std::map<String, enum>`: the value stored under the
key, or a value-initialised enum (code 0) when the key is absent. The C++ operator
also inserts the absent key with that value; a later subscript with the same key
then returns the same code 0, so the insertion is not observable and not tracked. -/
def mapAt (m : List (String × Nat)) (key : String) : Nat :=
  (m.lookup key).getD 0

/-- Header line 29: translates gain settings to gain values. -/
def gains : List (String × Nat) :=
  [("1x", VEML7700_SENSITIVITY_x1), ("2x", VEML7700_SENSITIVITY_x2),
   ("1/8x", VEML7700_SENSITIVITY_x1_8), ("1/4x", VEML7700_SENSITIVITY_x1_4)]

/-- Header line 32: translates integration settings to integration values
(the fourth key is spelled "200" in the source). -/
def integrations : List (String × Nat) :=
  [("25ms", VEML7700_INTEGRATION_25ms), ("50ms", VEML7700_INTEGRATION_50ms),
   ("100ms", VEML7700_INTEGRATION_100ms), ("200", VEML7700_INTEGRATION_200ms),
   ("400ms", VEML7700_INTEGRATION_400ms), ("800ms", VEML7700_INTEGRATION_800ms)]

/-- Header line 35: translates persistence settings to persistence protect values. -/
def persistenc_values : List (String × Nat) :=
  [("1", VEML7700_PERSISTENCE_1), ("2", VEML7700_PERSISTENCE_2),
   ("4", VEML7700_PERSISTENCE_4), ("8", VEML7700_PERSISTENCE_8)]

/-- Header line 37. -/
def gain_array : List String := ["1/8x", "1/4x", "1x", "2x"]

/-- Header line 38. -/
def integration_array : List String := ["25ms", "50ms", "100ms", "200ms", "400ms", "800ms"]

/-! ## State -/

/-- One call made on the device port, the delay primitive or the configuration
store, with the result it reported. -/
inductive Event where
  | shutdown
  | powerOn
  | delay (ms : Nat)
  | setSensitivityMode (code : Nat) (ok : Bool)
  | setIntegrationTime (code : Nat) (ok : Bool)
  | setPersistenceProtect (code : Nat) (ok : Bool)
  | getAmbientLight (value : Nat)
  | saveConfig (ok : Bool)
  deriving DecidableEq, Repr

/-- The device object `VEML_sensor`, as a simulated device port: the applied setting
registers, the power state, the readings it will return and the results its next
setting writes will report. -/
structure VEML7700 where
  /-- Register read by `getSensitivityMode`. -/
  sensitivityMode : Nat
  /-- Register read by `getIntegrationTime`. -/
  integrationTime : Nat
  /-- Persistence protect register. -/
  persistenceProtect : Nat
  /-- Whether the device is powered on. -/
  powered : Bool
  /-- Script of the ambient readings: `ambientFeed 0` is returned by the next
  `getAmbientLight`, `ambientFeed 1` by the one after, and so on. -/
  ambientFeed : Nat → Nat
  /-- Script of the setting-write results: `acks 0` is whether the next setting
  write succeeds. -/
  acks : Nat → Bool
  /-- Value returned by `getWhiteLevel`. -/
  whiteLevel : Nat
  /-- Value returned by `getLux` (a finite double, as a rational). -/
  lux : ℚ

/-- The anonymous struct `sensor_config` (header lines 42-58) with its defaults. -/
structure SensorConfig where
  autoAdjust : Bool := false
  gain : String := "1/4x"
  integration : String := "100ms"
  persistence : String := "1"
  luxCompensation : Bool := true
  deriving DecidableEq, Repr

/-- The `VEML7700LightSensor` object together with the log of the calls it has made. -/
structure Sensor where
  /-- The field `Description.name` of the base class. -/
  name : String
  sensor_config : SensorConfig
  VEML_sensor : VEML7700
  /-- The vector `values` of the base class (three channels after `begin`). -/
  values : List ℚ
  /-- Whether the configuration store accepts a write (result of `saveConfig`). -/
  storageOk : Bool
  /-- Calls made so far, oldest first. -/
  log : List Event

/-- Ways a run of the model can fail to return. -/
inductive Fault where
  | outOfFuel
  | outOfBounds
  deriving DecidableEq, Repr

/-- One iteration of an inner loop of `adjustSensitivity` that went past the
`maxed` check: the reading that triggered it and the tracked indices before and
after it. -/
structure Step where
  ambient : Nat
  gain : Nat
  integration : Nat
  gainAfter : Nat
  integrationAfter : Nat
  deriving DecidableEq, Repr

/-- The local variables of `adjustSensitivity` (lines 54-57), and the list of the
loop steps taken so far in this call (not a variable of the source: kept to state
properties of the steps). -/
structure Search where
  ambient : Nat
  newIntegration : Nat
  newGain : Nat
  maxed : Bool
  steps : List Step
  deriving DecidableEq, Repr

/-! ## Device port operations -/

/-- Append a call to the log. -/
def emit (e : Event) (s : Sensor) : Sensor :=
  { s with log := s.log ++ [e] }

/-- The call `VEML_sensor.getAmbientLight()`: returns the next scripted reading as a
`uint16_t`. -/
def getAmbientLight (s : Sensor) : Nat × Sensor :=
  let v := s.VEML_sensor.ambientFeed 0 % 65536
  (v, emit (.getAmbientLight v)
    { s with VEML_sensor :=
      { s.VEML_sensor with ambientFeed := fun k => s.VEML_sensor.ambientFeed (k + 1) } })

/-- The call `VEML_sensor.shutdown()`. -/
def shutdown (s : Sensor) : Sensor :=
  emit .shutdown { s with VEML_sensor := { s.VEML_sensor with powered := false } }

/-- The call `VEML_sensor.powerOn()`. -/
def powerOn (s : Sensor) : Sensor :=
  emit .powerOn { s with VEML_sensor := { s.VEML_sensor with powered := true } }

/-- The call `delay(ms)`. -/
def delay (ms : Nat) (s : Sensor) : Sensor :=
  emit (.delay ms) s

/-- The call `VEML_sensor.setSensitivityMode(code)`: consumes one scripted write
result; the register changes only when the write succeeds. Returns whether it
succeeded (`VEML7700_ERROR_SUCCESS`). -/
def setSensitivityMode (code : Nat) (s : Sensor) : Bool × Sensor :=
  let ok := s.VEML_sensor.acks 0
  (ok, emit (.setSensitivityMode code ok)
    { s with VEML_sensor :=
      { s.VEML_sensor with
        sensitivityMode := if ok then code else s.VEML_sensor.sensitivityMode
        acks := fun k => s.VEML_sensor.acks (k + 1) } })

/-- The call `VEML_sensor.setIntegrationTime(code)`. -/
def setIntegrationTime (code : Nat) (s : Sensor) : Bool × Sensor :=
  let ok := s.VEML_sensor.acks 0
  (ok, emit (.setIntegrationTime code ok)
    { s with VEML_sensor :=
      { s.VEML_sensor with
        integrationTime := if ok then code else s.VEML_sensor.integrationTime
        acks := fun k => s.VEML_sensor.acks (k + 1) } })

/-- The call `VEML_sensor.setPersistenceProtect(code)`. -/
def setPersistenceProtect (code : Nat) (s : Sensor) : Bool × Sensor :=
  let ok := s.VEML_sensor.acks 0
  (ok, emit (.setPersistenceProtect code ok)
    { s with VEML_sensor :=
      { s.VEML_sensor with
        persistenceProtect := if ok then code else s.VEML_sensor.persistenceProtect
        acks := fun k => s.VEML_sensor.acks (k + 1) } })

/-- A subscript `array[i]` of one of the two label arrays; out of range is undefined
behaviour in the source and a fault here. -/
def index (array : List String) (i : Nat) : Except Fault String :=
  match array[i]? with
  | some label => .ok label
  | none => .error .outOfBounds

/-! ## adjustSensitivity (VEML7700LightSensor.cpp, lines 51-129) -/

/-- Lines 71-80: the reset trial. Shut down, wait one integration period, force the
integration index to 2, write it, power on, wait two periods, sample again. The
result of the write is not looked at. -/
def resetTrial (s : Sensor) (l : Search) : Except Fault (Sensor × Search) :=
  let s1 := delay (25 * 2 ^ l.newIntegration) (shutdown s)
  match index integration_array 2 with
  | .error e => .error e
  | .ok label =>
    let s2 := (setIntegrationTime (mapAt integrations label) s1).2
    let s3 := delay (25 * 2 ^ (2 + 1)) (powerOn s2)
    let (a, s4) := getAmbientLight s3
    .ok (s4, { l with newIntegration := 2, ambient := a })

/-- Lines 93-99: the setting change of a too-dark step. Gain first, integration only
when the gain index is not below 3. The result of the write is not looked at. -/
def raise (s : Sensor) (l : Search) : Except Fault (Sensor × Search) :=
  if l.newGain < 3 then
    match index gain_array (l.newGain + 1) with
    | .error e => .error e
    | .ok label =>
      .ok ((setSensitivityMode (mapAt gains label) s).2, { l with newGain := l.newGain + 1 })
  else if l.newIntegration < 5 then
    match index integration_array (l.newIntegration + 1) with
    | .error e => .error e
    | .ok label =>
      .ok ((setIntegrationTime (mapAt integrations label) s).2,
        { l with newIntegration := l.newIntegration + 1 })
  else .ok (s, l)

/-- Lines 113-119: the setting change of a too-bright step. -/
def lower (s : Sensor) (l : Search) : Except Fault (Sensor × Search) :=
  if l.newGain > 0 then
    match index gain_array (l.newGain - 1) with
    | .error e => .error e
    | .ok label =>
      .ok ((setSensitivityMode (mapAt gains label) s).2, { l with newGain := l.newGain - 1 })
  else if l.newIntegration > 0 then
    match index integration_array (l.newIntegration - 1) with
    | .error e => .error e
    | .ok label =>
      .ok ((setIntegrationTime (mapAt integrations label) s).2,
        { l with newIntegration := l.newIntegration - 1 })
  else .ok (s, l)

/-- Lines 100-102 and 120-122: power on, wait two integration periods at the new
index, sample again; the step is appended to the list of steps. -/
def resample (before : Search) (s : Sensor) (l : Search) : Sensor × Search :=
  let s1 := delay (25 * 2 ^ (l.newIntegration + 1)) (powerOn s)
  let (a, s2) := getAmbientLight s1
  (s2, { l with
    ambient := a
    steps := l.steps ++ [{ ambient := before.ambient, gain := before.newGain,
                           integration := before.newIntegration, gainAfter := l.newGain,
                           integrationAfter := l.newIntegration }] })

/-- Lines 86-103: the do-while loop of the too-dark case. -/
def tooLowLoop : Nat → Sensor → Search → Except Fault (Sensor × Search)
  | 0, _, _ => .error .outOfFuel
  | fuel + 1, s, l =>
    if l.newIntegration = 5 ∧ l.newGain = 3 then
      .ok (s, { l with maxed := true })
    else
      match raise (delay (25 * 2 ^ l.newIntegration) (shutdown s)) l with
      | .error e => .error e
      | .ok (s1, l1) =>
        let r := resample l s1 l1
        if r.2.ambient ≤ 100 then tooLowLoop fuel r.1 r.2 else .ok r

/-- Lines 106-123: the do-while loop of the too-bright case. -/
def tooHighLoop : Nat → Sensor → Search → Except Fault (Sensor × Search)
  | 0, _, _ => .error .outOfFuel
  | fuel + 1, s, l =>
    if l.newIntegration = 0 ∧ l.newGain = 0 then
      .ok (s, { l with maxed := true })
    else
      match lower (delay (25 * 2 ^ l.newIntegration) (shutdown s)) l with
      | .error e => .error e
      | .ok (s1, l1) =>
        let r := resample l s1 l1
        if r.2.ambient > 10000 then tooHighLoop fuel r.1 r.2 else .ok r

/-- Lines 83-125: the outer while loop. Each iteration runs one of the two inner
loops, chosen by the side of the current reading. -/
def searchLoop : Nat → Sensor → Search → Except Fault (Sensor × Search)
  | 0, s, l =>
    if l.maxed = false ∧ (l.ambient ≤ 100 ∨ l.ambient > 10000) then .error .outOfFuel
    else .ok (s, l)
  | fuel + 1, s, l =>
    if l.maxed = false ∧ (l.ambient ≤ 100 ∨ l.ambient > 10000) then
      match (if l.ambient ≤ 100 then tooLowLoop (fuel + 1) s l
             else tooHighLoop (fuel + 1) s l) with
      | .error e => .error e
      | .ok (s1, l1) => searchLoop fuel s1 l1
    else .ok (s, l)

/-- Lines 58-63: the adjustment of `newGain` right after it is read from the device:
add 2 when it is below 2, subtract 2 otherwise. -/
def gainIndex (newGain : Nat) : Nat :=
  if newGain < 2 then newGain + 2 else newGain - 2

/-- Lines 54-82: the sample and register reads on entry, the adjustment of `newGain`,
the maxed check and the reset trial. -/
def enter (s : Sensor) : Except Fault (Sensor × Search) :=
  let (ambient, s0) := getAmbientLight s
  let newIntegration := s0.VEML_sensor.integrationTime
  let newGain := gainIndex s0.VEML_sensor.sensitivityMode
  let l : Search :=
    { ambient := ambient, newIntegration := newIntegration, newGain := newGain,
      maxed := false, steps := [] }
  if ambient ≤ 100 ∨ ambient > 10000 then
    if (ambient > 10000 ∧ newIntegration = 0 ∧ newGain = 0)
        ∨ (ambient ≤ 100 ∧ newIntegration = 5 ∧ newGain = 3) then
      .ok (s0, { l with maxed := true })
    else resetTrial s0 l
  else .ok (s0, l)

/-- Lines 126-128: update settings. -/
def updateSettings (s : Sensor) (l : Search) : Except Fault (Sensor × Search) :=
  match index integration_array l.newIntegration with
  | .error e => .error e
  | .ok integration =>
    match index gain_array l.newGain with
    | .error e => .error e
    | .ok gain =>
      .ok ({ s with sensor_config :=
              { s.sensor_config with integration := integration, gain := gain } }, l)

/-- The method `adjustSensitivity` (lines 51-129). Returns the sensor object after the
call and the final values of the local variables. -/
def adjustSensitivity (fuel : Nat) (s : Sensor) : Except Fault (Sensor × Search) :=
  match enter s with
  | .error e => .error e
  | .ok (s1, l1) =>
    match searchLoop fuel s1 l1 with
    | .error e => .error e
    | .ok (s2, l2) => updateSettings s2 l2

/-! ## takeMeasurement (VEML7700LightSensor.cpp, lines 34-46) -/

/-- The assignment `values[i] = x` on the vector of the base class; out of range is
undefined behaviour in the source and a fault here. -/
def assignValue (values : List ℚ) (i : Nat) (x : ℚ) : Except Fault (List ℚ) :=
  if i < values.length then .ok (values.set i x) else .error .outOfBounds

/-- Line 41: the condition under which the lux value is compensated. -/
def compensationApplies (c : SensorConfig) (lux : ℚ) : Bool :=
  c.luxCompensation && (decide (lux > 1000) || c.gain == "1/8x" || c.gain == "1/4x")

/-- Line 42: the correction, in the arithmetic of the platform: every literal and
every operation is rounded by `rnd`. -/
def compensate (rnd : ℚ → ℚ) (lux : ℚ) : ℚ :=
  rnd (rnd (rnd (rnd (rnd (rnd (rnd (rnd 6.0135e-13 * lux) - rnd 9.3924e-9) * lux)
    + rnd 8.1488e-5) * lux) + rnd 1.0023) * lux)

/-- Lines 38-45: the part of `takeMeasurement` after the optional adjustment. -/
def readChannels (rnd : ℚ → ℚ) (s : Sensor) : Except Fault (Bool × Sensor) :=
  let (ambient, s1) := getAmbientLight s
  match assignValue s1.values 0 (ambient : ℚ) with
  | .error e => .error e
  | .ok v0 =>
    match assignValue v0 1 ((s1.VEML_sensor.whiteLevel % 65536 : Nat) : ℚ) with
    | .error e => .error e
    | .ok v1 =>
      let lux := s1.VEML_sensor.lux
      let lux := if compensationApplies s1.sensor_config lux then compensate rnd lux else lux
      match assignValue v1 2 lux with
      | .error e => .error e
      | .ok v2 => .ok (true, { s1 with values := v2 })

/-- The method `takeMeasurement` (lines 34-46). -/
def takeMeasurement (rnd : ℚ → ℚ) (fuel : Nat) (s : Sensor) : Except Fault (Bool × Sensor) :=
  if s.sensor_config.autoAdjust then
    match adjustSensitivity fuel s with
    | .error e => .error e
    | .ok (s1, _) => readChannels rnd s1
  else readChannels rnd s

/-! ## Configuration documents (ArduinoJson, not under src) -/

/-- One subscript applied to a JSON document: a member name or an array position. -/
inductive JsonKey where
  | member (name : String)
  | element (i : Nat)
  deriving DecidableEq, Repr

/-- The values this class stores in or reads from a document. -/
inductive JsonValue where
  | bool (b : Bool)
  | string (s : String)
  deriving DecidableEq, Repr

/-- Modelled from the spec: the ArduinoJson document type is not under src. A
document is the structured configuration blob of the spec, held as the list of its
leaves, each under the chain of subscripts that reaches it. -/
abbrev JsonDocument := List (List JsonKey × JsonValue)

/-- An assignment `doc[k1][k2]... = v`: replaces the leaf under that chain of subscripts
or adds it. -/
def JsonDocument.assign : JsonDocument → List JsonKey → JsonValue → JsonDocument
  | [], path, v => [(path, v)]
  | e :: rest, path, v =>
    if e.1 = path then (path, v) :: rest else e :: JsonDocument.assign rest path v

/-- A read `doc[k1][k2]...`: the leaf under that chain of subscripts, if any. -/
def JsonDocument.read (doc : JsonDocument) (path : List JsonKey) : Option JsonValue :=
  doc.lookup path

/-- The conversion `.as<String>()`: a string leaf is returned as it is; other values
are rendered as JSON text. -/
def asString : Option JsonValue → String
  | some (.string s) => s
  | some (.bool true) => "true"
  | some (.bool false) => "false"
  | none => "null"

/-- The conversion `.as<bool>()`: a boolean leaf is returned as it is; anything else
is false. -/
def asBool : Option JsonValue → Bool
  | some (.bool b) => b
  | _ => false

/-- Modelled from the spec: `serializeJson` and `deserializeJson` are not under src. A
configuration string is held as what `deserializeJson` makes of it: the document it
parses to, or a parse failure. `serializeJson doc` is the string `json doc`. -/
inductive JsonText where
  | json (doc : JsonDocument)
  | malformed
  deriving DecidableEq, Repr

/-! ## getConfig and setConfig (VEML7700LightSensor.cpp, lines 133-211) -/

/-- Lines 135-156: the document built by `getConfig`, assignment by assignment. -/
def configDocument (s : Sensor) : JsonDocument :=
  let doc : JsonDocument := []
  let doc := doc.assign [.member "Name"] (.string s.name)
  let doc := doc.assign [.member "autoAdjust"] (.bool s.sensor_config.autoAdjust)
  let doc := doc.assign [.member "Gain", .member "current"] (.string s.sensor_config.gain)
  let doc := doc.assign [.member "Gain", .member "options", .element 0] (.string "1/8x")
  let doc := doc.assign [.member "Gain", .member "options", .element 1] (.string "1/4x")
  let doc := doc.assign [.member "Gain", .member "options", .element 2] (.string "1x")
  let doc := doc.assign [.member "Gain", .member "options", .element 3] (.string "2x")
  let doc := doc.assign [.member "Integration", .member "current"]
    (.string s.sensor_config.integration)
  let doc := doc.assign [.member "Integration", .member "options", .element 0] (.string "25ms")
  let doc := doc.assign [.member "Integration", .member "options", .element 1] (.string "50ms")
  let doc := doc.assign [.member "Integration", .member "options", .element 2] (.string "100ms")
  let doc := doc.assign [.member "Integration", .member "options", .element 3] (.string "200ms")
  let doc := doc.assign [.member "Integration", .member "options", .element 4] (.string "400ms")
  let doc := doc.assign [.member "Integration", .member "options", .element 5] (.string "800ms")
  let doc := doc.assign [.member "Persistence", .member "current"]
    (.string s.sensor_config.persistence)
  let doc := doc.assign [.member "Persistence", .member "options", .element 0] (.string "1")
  let doc := doc.assign [.member "Persistence", .member "options", .element 2] (.string "2")
  let doc := doc.assign [.member "Persistence", .member "options", .element 2] (.string "4")
  let doc := doc.assign [.member "Persistence", .member "options", .element 3] (.string "8")
  doc.assign [.member "luxCompensation"] (.bool s.sensor_config.luxCompensation)

/-- The method `getConfig` (lines 133-163). -/
def getConfig (s : Sensor) : JsonText :=
  .json (configDocument s)

/-- The call `saveConfig(config_path, getConfig())` of the base class: the store
reports whether it accepted the write. -/
def saveConfig (s : Sensor) : Bool × Sensor :=
  (s.storageOk, emit (.saveConfig s.storageOk) s)

/-- Lines 185-203: when `autoAdjust` is off, load gain, integration and persistence
from the document and apply them; false at the first write that fails. -/
def applySettings (doc : JsonDocument) (s : Sensor) : Bool × Sensor :=
  if !s.sensor_config.autoAdjust then
    let s1 := { s with sensor_config :=
      { s.sensor_config with
        gain := asString (doc.read [.member "Gain", .member "current"])
        integration := asString (doc.read [.member "Integration", .member "current"])
        persistence := asString (doc.read [.member "Persistence", .member "current"]) } }
    let (ok, s2) := setSensitivityMode (mapAt gains s1.sensor_config.gain) s1
    if !ok then (false, s2)
    else
      let (ok, s3) := setIntegrationTime (mapAt integrations s2.sensor_config.integration) s2
      if !ok then (false, s3)
      else
        let (ok, s4) :=
          setPersistenceProtect (mapAt persistenc_values s3.sensor_config.persistence) s3
        if !ok then (false, s4) else (true, s4)
  else (true, s)

/-- The method `setConfig` (lines 169-211). -/
def setConfig (config : JsonText) (save : Bool) (s : Sensor) : Bool × Sensor :=
  match config with
  | .malformed => (false, s)
  | .json doc =>
    let s1 := { s with
      name := asString (doc.read [.member "Name"])
      sensor_config :=
        { s.sensor_config with
          autoAdjust := asBool (doc.read [.member "autoAdjust"])
          luxCompensation := asBool (doc.read [.member "luxCompensation"]) } }
    let (ok, s2) := applySettings doc s1
    if !ok then (false, s2)
    else if save then
      let (saved, s3) := saveConfig s2
      if !saved then (false, s3) else (true, s3)
    else (true, s2)

/-! ## Observations on runs -/

/-- The value of the most recent `getAmbientLight` call in a log, if any. -/
def lastReading (log : List Event) : Option Nat :=
  log.reverse.findSome? fun e =>
    match e with
    | .getAmbientLight v => some v
    | _ => none

/-- The reading is inside the band `(100, 10000]`. -/
def inBounds (ambient : Nat) : Prop := 100 < ambient ∧ ambient ≤ 10000

/-- The flag `maxed` is only set at an extreme of the lattice, on a reading of the
matching side. -/
def MaxedAtExtreme (l : Search) : Prop :=
  l.maxed = true →
    (l.ambient ≤ 100 ∧ l.newGain = 3 ∧ l.newIntegration = 5)
      ∨ (10000 < l.ambient ∧ l.newGain = 0 ∧ l.newIntegration = 0)

/-- Whether a logged call is a gain or integration write. -/
def isSettingWrite : Event → Bool
  | .setSensitivityMode _ _ => true
  | .setIntegrationTime _ _ => true
  | _ => false

/-- Number of gain and integration writes in a log. -/
def settingWrites (log : List Event) : Nat :=
  log.countP isSettingWrite

/-- The readings after the entry sample never change side: they are never too dark, or
they are never too bright. -/
def SteadySide (feed : Nat → Nat) : Prop :=
  (∀ k, 100 < feed (k + 1) % 65536) ∨ (∀ k, feed (k + 1) % 65536 ≤ 10000)

/-- The step raised the gain index or the integration index. -/
abbrev Step.increases (t : Step) : Prop :=
  t.gain < t.gainAfter ∨ t.integration < t.integrationAfter

/-- The step lowered the gain index or the integration index. -/
abbrev Step.decreases (t : Step) : Prop :=
  t.gainAfter < t.gain ∨ t.integrationAfter < t.integration

/-- No oscillation: once a step has increased an index no later step decreases one,
and once a step has decreased an index no later step increases one. -/
abbrev OneDirection (steps : List Step) : Prop :=
  steps.Pairwise fun a b =>
    ¬ (a.increases ∧ b.decreases) ∧ ¬ (a.decreases ∧ b.increases)

/-- The call itself, without the result it reported. -/
def Event.call : Event → Event
  | .setSensitivityMode code _ => .setSensitivityMode code true
  | .setIntegrationTime code _ => .setIntegrationTime code true
  | .setPersistenceProtect code _ => .setPersistenceProtect code true
  | e => e

/-- The calls of a log, in order, without their results. -/
def calls (log : List Event) : List Event :=
  log.map Event.call

/-- Two sensor objects that differ at most in what the setting writes did: the device
registers, the script of write results, and the results recorded in the log. -/
def SameUpToWrites (s t : Sensor) : Prop :=
  s.name = t.name ∧ s.sensor_config = t.sensor_config ∧ s.values = t.values
    ∧ s.storageOk = t.storageOk ∧ calls s.log = calls t.log
    ∧ s.VEML_sensor.ambientFeed = t.VEML_sensor.ambientFeed
    ∧ s.VEML_sensor.powered = t.VEML_sensor.powered
    ∧ s.VEML_sensor.whiteLevel = t.VEML_sensor.whiteLevel
    ∧ s.VEML_sensor.lux = t.VEML_sensor.lux

/-- Two runs end the same way: the same fault, or a return with the same local
variables and sensor objects that differ at most in what the setting writes did. -/
def SameOutcome (a b : Except Fault (Sensor × Search)) : Prop :=
  match a, b with
  | .ok (s, l), .ok (t, m) => SameUpToWrites s t ∧ l = m
  | .error e, .error f => e = f
  | _, _ => False

/-- Whether a logged call is a gain or integration write that reported failure. -/
def isFailedWrite : Event → Bool
  | .setSensitivityMode _ false => true
  | .setIntegrationTime _ false => true
  | _ => false

/-- The claim that a failed write aborts the pass: among the calls logged by the pass, no
gain or integration write follows one that reported failure, and when a write reported
failure `sensor_config` keeps the gain and integration it had before the call. -/
def AbortsOnFailedWrite (before after : Sensor) : Prop :=
  ∀ (earlier later : List Event) (e : Event),
    after.log = before.log ++ earlier ++ e :: later → isFailedWrite e = true →
    settingWrites later = 0
      ∧ after.sensor_config.gain = before.sensor_config.gain
      ∧ after.sensor_config.integration = before.sensor_config.integration

/-- A property of the sensor object that every call on the device port and on `delay`
keeps. -/
structure PortInvariant (I : Sensor → Prop) : Prop where
  shutdown : ∀ s, I s → I (shutdown s)
  powerOn : ∀ s, I s → I (powerOn s)
  delay : ∀ ms s, I s → I (delay ms s)
  setSensitivityMode : ∀ code s, I s → I (setSensitivityMode code s).2
  setIntegrationTime : ∀ code s, I s → I (setIntegrationTime code s).2
  getAmbientLight : ∀ s, I s → I (getAmbientLight s).2

/-- The quartic of line 42 in exact arithmetic. -/
def quartic (x : ℚ) : ℚ :=
  (((6.0135e-13 * x - 9.3924e-9) * x + 8.1488e-5) * x + 1.0023) * x

/-- The first `n` entries of the options array that a configuration document offers
under a setting name; an entry that was never assigned reads as absent. -/
def offered (doc : JsonDocument) (setting : String) (n : Nat) : List (Option JsonValue) :=
  (List.range n).map fun i => doc.read [.member setting, .member "options", .element i]

/-- One power cycle as the claim describes it: the integration index before the
change, the one setting write, the integration index after the change, and the reading
sampled at the end. -/
structure Cycle where
  before : Nat
  write : Event
  after : Nat
  sample : Nat

/-- The calls of one power cycle, in order: shutdown, a wait of one integration period
at the index before the change, the setting write, power-on, a wait of two integration
periods at the index after the change, one ambient sample. -/
def Cycle.events (c : Cycle) : List Event :=
  [.shutdown, .delay (25 * 2 ^ c.before), c.write, .powerOn,
   .delay (2 * (25 * 2 ^ c.after)), .getAmbientLight c.sample]

/-- The calls of consecutive power cycles. -/
def cycleEvents : List Cycle → List Event
  | [] => []
  | c :: cs => c.events ++ cycleEvents cs

/-- The cycles are those of the steps: cycle by cycle the integration indices before
and after are those of the step, and the write is a gain or integration write. -/
def Traced (cs : List Cycle) (ts : List Step) : Prop :=
  cs.map (fun c => (c.before, c.after)) = ts.map (fun t => (t.integration, t.integrationAfter))
    ∧ ∀ c ∈ cs, isSettingWrite c.write = true

/-- A too-dark step that adjusts gain before integration: the gain index goes up by one
when it is below 3, and only at gain index 3 the integration index goes up by one. -/
def Step.raisesGainFirst (t : Step) : Prop :=
  (t.gain < 3 ∧ t.gainAfter = t.gain + 1 ∧ t.integrationAfter = t.integration)
    ∨ (t.gain = 3 ∧ t.integration < 5 ∧ t.gainAfter = 3
        ∧ t.integrationAfter = t.integration + 1)

/-- A too-bright step that adjusts gain before integration: the gain index goes down by
one when it is above 0, and only at gain index 0 the integration index goes down by
one. -/
def Step.lowersGainFirst (t : Step) : Prop :=
  (0 < t.gain ∧ t.gainAfter + 1 = t.gain ∧ t.integrationAfter = t.integration)
    ∨ (t.gain = 0 ∧ 0 < t.integration ∧ t.gainAfter = 0
        ∧ t.integrationAfter + 1 = t.integration)

/-- A step taken on an out-of-bounds reading that adjusts gain before integration, in
the direction the reading asks for. -/
def Step.gainFirst (t : Step) : Prop :=
  (t.ambient ≤ 100 ∧ t.raisesGainFirst) ∨ (10000 < t.ambient ∧ t.lowersGainFirst)

/-- All four indices of a step are within the label arrays. -/
def Step.inRange (t : Step) : Prop :=
  t.gain < 4 ∧ t.gainAfter < 4 ∧ t.integration < 6 ∧ t.integrationAfter < 6

/-- What the steps added by a run are, when the run follows readings of `side`. -/
def StepsOf (side : Step → Prop) (ts : List Step) : Prop :=
  ∀ t ∈ ts, side t ∧ t.inRange

/-! ## Scenarios -/

/-- A freshly constructed sensor object (compiled-in defaults, three channels, empty
log) on a simulated device port with the given registers and scripts. -/
def bench (mode integration : Nat) (feed : Nat → Nat) (acks : Nat → Bool) : Sensor :=
  { name := "VEML7700"
    sensor_config := {}
    VEML_sensor :=
      { sensitivityMode := mode, integrationTime := integration, persistenceProtect := 0,
        powered := true, ambientFeed := feed, acks := acks, whiteLevel := 0, lux := 0 }
    values := [0, 0, 0]
    storageOk := true
    log := [] }

/-- A dark room: gain 1/4x, 100 ms, every reading is 50. -/
def darkRoom : Sensor := bench 3 2 (fun _ => 50) (fun _ => true)

/-- A lit room: gain 1x, 200 ms, every reading is 5000. -/
def litRoom : Sensor := bench 0 3 (fun _ => 5000) (fun _ => true)

/-- Gain 2x and 800 ms in the dark: the top of the lattice. -/
def darkAtTop : Sensor := bench 1 5 (fun _ => 50) (fun _ => true)

/-- Gain 1/8x and 25 ms in full light: the bottom of the lattice. -/
def brightAtBottom : Sensor := bench 2 0 (fun _ => 50000) (fun _ => true)

/-- A flickering light at gain 1/4x, 100 ms: the readings alternate between 50 and
20000 for thirty samples and are 5000 from then on. -/
def flicker : Sensor :=
  bench 3 2 (fun k => if k < 30 then (if k % 2 = 0 then 50 else 20000) else 5000)
    (fun _ => true)

/-- A light that is switched on during the search, at gain 1/4x, 100 ms: two readings
of 50, then 20000, then 5000 from then on. -/
def swing : Sensor :=
  bench 3 2 (fun k => if k < 2 then 50 else if k = 2 then 20000 else 5000) (fun _ => true)

/-- A failing light at gain 1/4x, 100 ms, with a bus on which every setting write
fails: readings 50, 50, 50, then 5000. -/
def deadBus : Sensor :=
  bench 3 2 (fun k => if k < 3 then 50 else 5000) (fun _ => false)

/-- A clear day at gain 1x with auto-adjust off and compensation on: the device reports
1500 lx. -/
def clearDay : Sensor :=
  { bench 0 2 (fun _ => 5000) (fun _ => true) with
    sensor_config := { gain := "1x" }
    VEML_sensor := { (bench 0 2 (fun _ => 5000) (fun _ => true)).VEML_sensor with lux := 1500 } }

/-- A dim room at gain 1/8x with auto-adjust off and compensation on: the device
reports 100 lx. -/
def dimRoom : Sensor :=
  { bench 2 2 (fun _ => 5000) (fun _ => true) with
    sensor_config := { gain := "1/8x" }
    VEML_sensor := { (bench 2 2 (fun _ => 5000) (fun _ => true)).VEML_sensor with lux := 100 } }

/-- A sensor left by auto-adjustment at gain 2x, 800 ms, with persistence 8 and
compensation off in its configuration. -/
def autoTuned : Sensor :=
  { bench 1 5 (fun _ => 5000) (fun _ => true) with
    sensor_config :=
      { autoAdjust := true, gain := "2x", integration := "800ms", persistence := "8",
        luxCompensation := false } }

/-- A sensor configured by hand at gain 2x, 800 ms, persistence 8, compensation off. -/
def handTuned : Sensor :=
  { bench 1 5 (fun _ => 5000) (fun _ => true) with
    name := "bench light"
    sensor_config :=
      { autoAdjust := false, gain := "2x", integration := "800ms", persistence := "8",
        luxCompensation := false } }

/-- A freshly constructed sensor whose configuration store refuses every write; all
hardware writes succeed. -/
def fullStore : Sensor :=
  { bench 0 3 (fun _ => 5000) (fun _ => true) with storageOk := false }

/-- A hand-set sensor at gain 1x, 200 ms, autoAdjust off, in a room far too bright for
that setting: every reading is 60000. -/
def handSetInGlare : Sensor := bench 0 3 (fun _ => 60000) (fun _ => true)

/-- The local variables on entry to an inner loop in the dark room after the reset
trial: gain index 1, integration index 2, reading 50. -/
def afterReset : Search :=
  { ambient := 50, newIntegration := 2, newGain := 1, maxed := false, steps := [] }

/-- Dusk at the top gain: gain 2x, 100 ms, two readings of 50 and 5000 from then on;
every write succeeds. -/
def dusk : Sensor := bench 1 2 (fun k => if k < 2 then 50 else 5000) (fun _ => true)

/-! ## Lemmas on the device port and the steps -/

theorem lastReading_append (log more : List Event) :
    lastReading (log ++ more) = (lastReading more).or (lastReading log) := by
  simp [lastReading, List.findSome?_append]

theorem lastReading_sampled (log : List Event) (v : Nat) :
    lastReading (log ++ [.getAmbientLight v]) = some v := by
  simp [lastReading]

theorem lastReading_setSensitivityMode (log : List Event) (code : Nat) (ok : Bool) :
    lastReading (log ++ [.setSensitivityMode code ok]) = lastReading log := by
  simp [lastReading]

theorem lastReading_setIntegrationTime (log : List Event) (code : Nat) (ok : Bool) :
    lastReading (log ++ [.setIntegrationTime code ok]) = lastReading log := by
  simp [lastReading]

theorem raise_ok {s s1 : Sensor} {l l1 : Search} (h : raise s l = .ok (s1, l1)) :
    (l.newGain < 3 ∧ (∃ code, s1 = (setSensitivityMode code s).2)
        ∧ l1 = { l with newGain := l.newGain + 1 })
    ∨ (¬ l.newGain < 3 ∧ l.newIntegration < 5 ∧ (∃ code, s1 = (setIntegrationTime code s).2)
        ∧ l1 = { l with newIntegration := l.newIntegration + 1 })
    ∨ (¬ l.newGain < 3 ∧ ¬ l.newIntegration < 5 ∧ s1 = s ∧ l1 = l) := by
  unfold raise at h
  split at h
  · rename_i hg
    split at h
    · cases h
    · rename_i label _
      injection h with h
      injection h with h1 h2
      exact Or.inl ⟨hg, ⟨_, h1.symm⟩, h2.symm⟩
  · rename_i hg
    split at h
    · rename_i hi
      split at h
      · cases h
      · injection h with h
        injection h with h1 h2
        exact Or.inr (Or.inl ⟨hg, hi, ⟨_, h1.symm⟩, h2.symm⟩)
    · rename_i hi
      injection h with h
      injection h with h1 h2
      exact Or.inr (Or.inr ⟨hg, hi, h1.symm, h2.symm⟩)


theorem lower_ok {s s1 : Sensor} {l l1 : Search} (h : lower s l = .ok (s1, l1)) :
    (l.newGain > 0 ∧ (∃ code, s1 = (setSensitivityMode code s).2)
        ∧ l1 = { l with newGain := l.newGain - 1 })
    ∨ (¬ l.newGain > 0 ∧ l.newIntegration > 0 ∧ (∃ code, s1 = (setIntegrationTime code s).2)
        ∧ l1 = { l with newIntegration := l.newIntegration - 1 })
    ∨ (¬ l.newGain > 0 ∧ ¬ l.newIntegration > 0 ∧ s1 = s ∧ l1 = l) := by
  unfold lower at h
  split at h
  · rename_i hg
    split at h
    · cases h
    · injection h with h
      injection h with h1 h2
      exact Or.inl ⟨hg, ⟨_, h1.symm⟩, h2.symm⟩
  · rename_i hg
    split at h
    · rename_i hi
      split at h
      · cases h
      · injection h with h
        injection h with h1 h2
        exact Or.inr (Or.inl ⟨hg, hi, ⟨_, h1.symm⟩, h2.symm⟩)
    · rename_i hi
      injection h with h
      injection h with h1 h2
      exact Or.inr (Or.inr ⟨hg, hi, h1.symm, h2.symm⟩)

@[simp] theorem emit_log (e : Event) (s : Sensor) : (emit e s).log = s.log ++ [e] := rfl

@[simp] theorem shutdown_log (s : Sensor) : (shutdown s).log = s.log ++ [.shutdown] := rfl

@[simp] theorem powerOn_log (s : Sensor) : (powerOn s).log = s.log ++ [.powerOn] := rfl

@[simp] theorem delay_log (ms : Nat) (s : Sensor) : (delay ms s).log = s.log ++ [.delay ms] := rfl

@[simp] theorem setSensitivityMode_log (code : Nat) (s : Sensor) :
    (setSensitivityMode code s).2.log
      = s.log ++ [.setSensitivityMode code (s.VEML_sensor.acks 0)] := rfl

@[simp] theorem setIntegrationTime_log (code : Nat) (s : Sensor) :
    (setIntegrationTime code s).2.log
      = s.log ++ [.setIntegrationTime code (s.VEML_sensor.acks 0)] := rfl

@[simp] theorem getAmbientLight_log (s : Sensor) :
    (getAmbientLight s).2.log = s.log ++ [.getAmbientLight (getAmbientLight s).1] := rfl

/-- A setting change leaves the last reading of the log as it was. -/
theorem raise_lastReading {s s1 : Sensor} {l l1 : Search} (h : raise s l = .ok (s1, l1)) :
    lastReading s1.log = lastReading s.log := by
  rcases raise_ok h with ⟨_, ⟨c, rfl⟩, _⟩ | ⟨_, _, ⟨c, rfl⟩, _⟩ | ⟨_, _, rfl, _⟩
  · simp [lastReading_setSensitivityMode]
  · simp [lastReading_setIntegrationTime]
  · rfl

theorem lower_lastReading {s s1 : Sensor} {l l1 : Search} (h : lower s l = .ok (s1, l1)) :
    lastReading s1.log = lastReading s.log := by
  rcases lower_ok h with ⟨_, ⟨c, rfl⟩, _⟩ | ⟨_, _, ⟨c, rfl⟩, _⟩ | ⟨_, _, rfl, _⟩
  · simp [lastReading_setSensitivityMode]
  · simp [lastReading_setIntegrationTime]
  · rfl

theorem resample_lastReading (b : Search) (s : Sensor) (l : Search) :
    lastReading (resample b s l).1.log = some (resample b s l).2.ambient := by
  simp only [resample, getAmbientLight_log]
  exact lastReading_sampled _ _

@[simp] theorem resample_maxed (b : Search) (s : Sensor) (l : Search) :
    (resample b s l).2.maxed = l.maxed := rfl

@[simp] theorem resample_newGain (b : Search) (s : Sensor) (l : Search) :
    (resample b s l).2.newGain = l.newGain := rfl

@[simp] theorem resample_newIntegration (b : Search) (s : Sensor) (l : Search) :
    (resample b s l).2.newIntegration = l.newIntegration := rfl

theorem raise_maxed {s s1 : Sensor} {l l1 : Search} (h : raise s l = .ok (s1, l1)) :
    l1.maxed = l.maxed := by
  rcases raise_ok h with ⟨_, _, rfl⟩ | ⟨_, _, _, rfl⟩ | ⟨_, _, _, rfl⟩ <;> rfl

theorem lower_maxed {s s1 : Sensor} {l l1 : Search} (h : lower s l = .ok (s1, l1)) :
    l1.maxed = l.maxed := by
  rcases lower_ok h with ⟨_, _, rfl⟩ | ⟨_, _, _, rfl⟩ | ⟨_, _, _, rfl⟩ <;> rfl

/-! ## C1: where the search settles -/

/-- What a run of the too-dark loop leaves behind: either `maxed` at the top of the
lattice on a too-dark reading, or a reading that is no longer too dark. -/
theorem tooLowLoop_exit (fuel : Nat) : ∀ {s s' : Sensor} {l l' : Search},
    tooLowLoop fuel s l = .ok (s', l') → l.ambient ≤ 100 →
    lastReading s.log = some l.ambient →
    lastReading s'.log = some l'.ambient ∧
      ((l'.maxed = true ∧ l'.ambient ≤ 100 ∧ l'.newGain = 3 ∧ l'.newIntegration = 5)
        ∨ (l'.maxed = l.maxed ∧ 100 < l'.ambient)) := by
  induction fuel with
  | zero => intro s s' l l' h; simp [tooLowLoop] at h
  | succ n ih =>
    intro s s' l l' h hdark hlast
    unfold tooLowLoop at h
    split at h
    · rename_i htop
      injection h with h
      injection h with h1 h2
      subst h1 h2
      exact ⟨hlast, Or.inl ⟨rfl, hdark, htop.2, htop.1⟩⟩
    · split at h
      · cases h
      · rename_i s1 l1 hr
        simp only at h
        split at h
        · rename_i hagain
          have := ih h hagain (resample_lastReading l s1 l1)
          refine ⟨this.1, ?_⟩
          rcases this.2 with h3 | h3
          · exact Or.inl h3
          · refine Or.inr ⟨?_, h3.2⟩
            rw [h3.1, resample_maxed, raise_maxed hr]
        · rename_i hstop
          injection h with h
          have h1 : s' = (resample l s1 l1).1 := by rw [h]
          have h2 : l' = (resample l s1 l1).2 := by rw [h]
          subst h1 h2
          refine ⟨resample_lastReading l s1 l1, Or.inr ⟨?_, by omega⟩⟩
          rw [resample_maxed, raise_maxed hr]

theorem tooHighLoop_exit (fuel : Nat) : ∀ {s s' : Sensor} {l l' : Search},
    tooHighLoop fuel s l = .ok (s', l') → 10000 < l.ambient →
    lastReading s.log = some l.ambient →
    lastReading s'.log = some l'.ambient ∧
      ((l'.maxed = true ∧ 10000 < l'.ambient ∧ l'.newGain = 0 ∧ l'.newIntegration = 0)
        ∨ (l'.maxed = l.maxed ∧ l'.ambient ≤ 10000)) := by
  induction fuel with
  | zero => intro s s' l l' h; simp [tooHighLoop] at h
  | succ n ih =>
    intro s s' l l' h hbright hlast
    unfold tooHighLoop at h
    split at h
    · rename_i hbot
      injection h with h
      injection h with h1 h2
      subst h1 h2
      exact ⟨hlast, Or.inl ⟨rfl, hbright, hbot.2, hbot.1⟩⟩
    · split at h
      · cases h
      · rename_i s1 l1 hr
        simp only at h
        split at h
        · rename_i hagain
          have := ih h hagain (resample_lastReading l s1 l1)
          refine ⟨this.1, ?_⟩
          rcases this.2 with h3 | h3
          · exact Or.inl h3
          · refine Or.inr ⟨?_, h3.2⟩
            rw [h3.1, resample_maxed, lower_maxed hr]
        · rename_i hstop
          injection h with h
          have h1 : s' = (resample l s1 l1).1 := by rw [h]
          have h2 : l' = (resample l s1 l1).2 := by rw [h]
          subst h1 h2
          refine ⟨resample_lastReading l s1 l1, Or.inr ⟨?_, by omega⟩⟩
          rw [resample_maxed, lower_maxed hr]

theorem searchLoop_exit (fuel : Nat) : ∀ {s s' : Sensor} {l l' : Search},
    searchLoop fuel s l = .ok (s', l') → MaxedAtExtreme l →
    lastReading s.log = some l.ambient →
    lastReading s'.log = some l'.ambient ∧ MaxedAtExtreme l'
      ∧ (l'.maxed = true ∨ inBounds l'.ambient) := by
  induction fuel with
  | zero =>
    intro s s' l l' h hinv hlast
    unfold searchLoop at h
    split at h
    · cases h
    · rename_i hc
      injection h with h
      injection h with h1 h2
      subst h1 h2
      refine ⟨hlast, hinv, ?_⟩
      unfold inBounds
      cases hm : l.maxed
      · simp [hm] at hc; right; omega
      · left; rfl
  | succ n ih =>
    intro s s' l l' h hinv hlast
    unfold searchLoop at h
    split at h
    · rename_i hc
      split at h
      · cases h
      · rename_i s1 l1 hrun
        split at hrun
        · rename_i hdark
          have h1 := tooLowLoop_exit _ hrun hdark hlast
          refine ih h ?_ h1.1
          intro hm
          rcases h1.2 with h2 | h2
          · exact Or.inl h2.2
          · rw [h2.1, hc.1] at hm; cases hm
        · rename_i hdark
          have hbright : 10000 < l.ambient := by omega
          have h1 := tooHighLoop_exit _ hrun hbright hlast
          refine ih h ?_ h1.1
          intro hm
          rcases h1.2 with h2 | h2
          · exact Or.inr h2.2
          · rw [h2.1, hc.1] at hm; cases hm
    · rename_i hc
      injection h with h
      injection h with h1 h2
      subst h1 h2
      refine ⟨hlast, hinv, ?_⟩
      unfold inBounds
      cases hm : l.maxed
      · simp [hm] at hc; right; omega
      · left; rfl

theorem resetTrial_ok {s s1 : Sensor} {l l1 : Search} (h : resetTrial s l = .ok (s1, l1)) :
    lastReading s1.log = some l1.ambient ∧ l1.maxed = l.maxed ∧ l1.newIntegration = 2
      ∧ l1.newGain = l.newGain ∧ l1.steps = l.steps := by
  unfold resetTrial at h
  simp only [index, integration_array] at h
  simp at h
  obtain ⟨h1, h2⟩ := h
  subst h1 h2
  refine ⟨?_, rfl, rfl, rfl, rfl⟩
  simp only [getAmbientLight_log]
  exact lastReading_sampled _ _

theorem enter_exit {s s1 : Sensor} {l1 : Search} (h : enter s = .ok (s1, l1)) :
    lastReading s1.log = some l1.ambient ∧ MaxedAtExtreme l1 := by
  unfold enter at h
  simp only at h
  split at h
  · split at h
    · rename_i hx
      injection h with h
      injection h with h1 h2
      subst h1 h2
      refine ⟨lastReading_sampled _ _, ?_⟩
      intro _
      rcases hx with hx | hx
      · exact Or.inr ⟨hx.1, hx.2.2, hx.2.1⟩
      · exact Or.inl ⟨hx.1, hx.2.2, hx.2.1⟩
    · have := resetTrial_ok h
      refine ⟨this.1, ?_⟩
      intro hm
      rw [this.2.1] at hm
      cases hm
  · injection h with h
    injection h with h1 h2
    subst h1 h2
    refine ⟨lastReading_sampled _ _, ?_⟩
    intro hm
    cases hm

theorem updateSettings_ok {s s' : Sensor} {l l' : Search}
    (h : updateSettings s l = .ok (s', l')) :
    l' = l ∧ s'.log = s.log ∧ s'.VEML_sensor = s.VEML_sensor
      ∧ index integration_array l.newIntegration = .ok s'.sensor_config.integration
      ∧ index gain_array l.newGain = .ok s'.sensor_config.gain
      ∧ s'.sensor_config.autoAdjust = s.sensor_config.autoAdjust
      ∧ s'.sensor_config.persistence = s.sensor_config.persistence
      ∧ s'.sensor_config.luxCompensation = s.sensor_config.luxCompensation
      ∧ s'.name = s.name ∧ s'.values = s.values ∧ s'.storageOk = s.storageOk := by
  unfold updateSettings at h
  split at h
  · cases h
  · rename_i hi
    split at h
    · cases h
    · rename_i hg
      injection h with h
      injection h with h1 h2
      subst h1 h2
      simp [hi, hg]

/-- C1. Whenever `adjustSensitivity` returns, the last ambient reading it sampled is
the final value of `ambient`, and either that reading is in bounds
(100 < ambient <= 10000), or it is too dark (<= 100) and the tracked state is gain
index 3 with integration index 5, or it is too bright (> 10000) and the tracked
state is gain index 0 with integration index 0. Holds for every starting state, every
script of readings and every script of write results. -/
theorem adjustSensitivity_settles_in_bounds_or_at_extreme (fuel : Nat) (s s' : Sensor)
    (l : Search) (h : adjustSensitivity fuel s = .ok (s', l)) :
    lastReading s'.log = some l.ambient ∧
      (inBounds l.ambient
        ∨ (l.ambient ≤ 100 ∧ l.newGain = 3 ∧ l.newIntegration = 5)
        ∨ (10000 < l.ambient ∧ l.newGain = 0 ∧ l.newIntegration = 0)) := by
  unfold adjustSensitivity at h
  split at h
  · cases h
  · rename_i s1 l1 he
    split at h
    · cases h
    · rename_i s2 l2 hs
      have h1 := enter_exit he
      have h2 := searchLoop_exit fuel hs h1.2 h1.1
      have h3 := updateSettings_ok h
      rw [h3.1, h3.2.1]
      refine ⟨h2.1, ?_⟩
      rcases h2.2.2 with hm | hb
      · exact Or.inr (h2.2.1 hm)
      · exact Or.inl hb


/-- In the dark room the call returns, too dark, at gain index 3 and integration index 5. -/
theorem adjustSensitivity_settles_witness :
    ∃ s' l, adjustSensitivity 8 darkRoom = .ok (s', l) ∧
      (lastReading s'.log = some l.ambient ∧
        (inBounds l.ambient
          ∨ (l.ambient ≤ 100 ∧ l.newGain = 3 ∧ l.newIntegration = 5)
          ∨ (10000 < l.ambient ∧ l.newGain = 0 ∧ l.newIntegration = 0))) :=
  ⟨_, _, rfl, adjustSensitivity_settles_in_bounds_or_at_extreme 8 darkRoom _ _ rfl⟩

/-! ## C2: no-op inside the band -/

theorem index_ok_of_lt {array : List String} {i : Nat} (h : i < array.length) :
    index array i = .ok (array.get ⟨i, h⟩) := by
  unfold index
  rw [List.getElem?_eq_getElem h]
  rfl

/-- The outer loop does nothing once `maxed` is set or the reading is in bounds. -/
theorem searchLoop_done (fuel : Nat) (s : Sensor) (l : Search)
    (h : l.maxed = true ∨ inBounds l.ambient) : searchLoop fuel s l = .ok (s, l) := by
  have hc : ¬ (l.maxed = false ∧ (l.ambient ≤ 100 ∨ l.ambient > 10000)) := by
    unfold inBounds at h
    rintro ⟨hm, ho⟩
    rcases h with h | h
    · rw [hm] at h; cases h
    · omega
  cases fuel <;> simp [searchLoop, hc]

theorem updateSettings_eq (s : Sensor) {l : Search} {integration gain : String}
    (hi : integration_array[l.newIntegration]? = some integration)
    (hg : gain_array[l.newGain]? = some gain) :
    updateSettings s l = .ok ({ s with sensor_config :=
      { s.sensor_config with integration := integration, gain := gain } }, l) := by
  simp only [updateSettings, index, hi, hg]

theorem gains_at_gainIndex {mode : Nat} (h : mode < 4) :
    ∃ label, gain_array[gainIndex mode]? = some label ∧ mapAt gains label = mode := by
  interval_cases mode
  · exact ⟨"1x", by decide, by decide⟩
  · exact ⟨"2x", by decide, by decide⟩
  · exact ⟨"1/8x", by decide, by decide⟩
  · exact ⟨"1/4x", by decide, by decide⟩

/-- C2. For every entry reading a with 100 < a <= 10000 and every applied state (gain
code 0..3, integration code 0..5), `adjustSensitivity` returns for any fuel, logs
nothing but the entry sample (no shutdown, power-on, delay or setting write), leaves
the device registers and power state as they were, takes no step, and stores in
`sensor_config` the labels of the state applied on entry: the gain label is the entry
of `gain_array` at the gain index of the applied sensitivity code and maps back to that
code through `gains`, the integration label is the entry of `integration_array` at the
applied integration code. -/
theorem adjustSensitivity_in_bounds_is_noop (fuel : Nat) (s : Sensor)
    (hin : inBounds (s.VEML_sensor.ambientFeed 0 % 65536))
    (hg : s.VEML_sensor.sensitivityMode < 4) (hi : s.VEML_sensor.integrationTime < 6) :
    ∃ s' l, adjustSensitivity fuel s = .ok (s', l)
      ∧ s'.log = s.log ++ [.getAmbientLight (s.VEML_sensor.ambientFeed 0 % 65536)]
      ∧ s'.VEML_sensor.sensitivityMode = s.VEML_sensor.sensitivityMode
      ∧ s'.VEML_sensor.integrationTime = s.VEML_sensor.integrationTime
      ∧ s'.VEML_sensor.persistenceProtect = s.VEML_sensor.persistenceProtect
      ∧ s'.VEML_sensor.powered = s.VEML_sensor.powered
      ∧ l.maxed = false ∧ l.steps = []
      ∧ l.newGain = gainIndex s.VEML_sensor.sensitivityMode
      ∧ l.newIntegration = s.VEML_sensor.integrationTime
      ∧ gain_array[gainIndex s.VEML_sensor.sensitivityMode]? = some s'.sensor_config.gain
      ∧ mapAt gains s'.sensor_config.gain = s.VEML_sensor.sensitivityMode
      ∧ integration_array[s.VEML_sensor.integrationTime]? = some s'.sensor_config.integration := by
  obtain ⟨glabel, hgl, hgm⟩ := gains_at_gainIndex hg
  have hi' : s.VEML_sensor.integrationTime < integration_array.length := hi
  have hil := List.getElem?_eq_getElem hi'
  have hnot : ¬ (s.VEML_sensor.ambientFeed 0 % 65536 ≤ 100
      ∨ s.VEML_sensor.ambientFeed 0 % 65536 > 10000) := by
    unfold inBounds at hin; omega
  have he : enter s = .ok ((getAmbientLight s).2,
      { ambient := s.VEML_sensor.ambientFeed 0 % 65536,
        newIntegration := s.VEML_sensor.integrationTime,
        newGain := gainIndex s.VEML_sensor.sensitivityMode, maxed := false, steps := [] }) := by
    unfold enter
    simp only [getAmbientLight, emit, if_neg hnot]
  have hr : adjustSensitivity fuel s = updateSettings (getAmbientLight s).2
      { ambient := s.VEML_sensor.ambientFeed 0 % 65536,
        newIntegration := s.VEML_sensor.integrationTime,
        newGain := gainIndex s.VEML_sensor.sensitivityMode, maxed := false, steps := [] } := by
    unfold adjustSensitivity
    rw [he]
    simp only
    rw [searchLoop_done fuel _ _ (Or.inr hin)]
  exact ⟨_, _, hr.trans (updateSettings_eq _ hil hgl),
    rfl, rfl, rfl, rfl, rfl, rfl, rfl, rfl, rfl, hgl, hgm, hil⟩

/-- The lit room (gain 1x, 200 ms, reading 5000) satisfies the hypotheses of C2. -/
theorem adjustSensitivity_in_bounds_is_noop_witness :
    inBounds (litRoom.VEML_sensor.ambientFeed 0 % 65536)
      ∧ litRoom.VEML_sensor.sensitivityMode < 4 ∧ litRoom.VEML_sensor.integrationTime < 6
      ∧ ∃ s' l, adjustSensitivity 0 litRoom = .ok (s', l)
        ∧ s'.log = litRoom.log ++ [.getAmbientLight (litRoom.VEML_sensor.ambientFeed 0 % 65536)]
        ∧ s'.VEML_sensor.sensitivityMode = litRoom.VEML_sensor.sensitivityMode
        ∧ s'.VEML_sensor.integrationTime = litRoom.VEML_sensor.integrationTime
        ∧ s'.VEML_sensor.persistenceProtect = litRoom.VEML_sensor.persistenceProtect
        ∧ s'.VEML_sensor.powered = litRoom.VEML_sensor.powered
        ∧ l.maxed = false ∧ l.steps = []
        ∧ l.newGain = gainIndex litRoom.VEML_sensor.sensitivityMode
        ∧ l.newIntegration = litRoom.VEML_sensor.integrationTime
        ∧ gain_array[gainIndex litRoom.VEML_sensor.sensitivityMode]?
            = some s'.sensor_config.gain
        ∧ mapAt gains s'.sensor_config.gain = litRoom.VEML_sensor.sensitivityMode
        ∧ integration_array[litRoom.VEML_sensor.integrationTime]?
            = some s'.sensor_config.integration :=
  ⟨⟨by decide, by decide⟩, by decide, by decide,
    adjustSensitivity_in_bounds_is_noop 0 litRoom ⟨by decide, by decide⟩ (by decide) (by decide)⟩

/-! ## C3: termination and number of writes -/

@[simp] theorem settingWrites_append (log more : List Event) :
    settingWrites (log ++ more) = settingWrites log + settingWrites more := by
  simp [settingWrites]

theorem tooLowLoop_fuel_mono (fuel : Nat) : ∀ {s : Sensor} {l : Search} {r : Sensor × Search},
    tooLowLoop fuel s l = .ok r → tooLowLoop (fuel + 1) s l = .ok r := by
  induction fuel with
  | zero => intro s l r h; simp [tooLowLoop] at h
  | succ n ih =>
    intro s l r h
    unfold tooLowLoop at h ⊢
    split at h
    · rename_i hc; rw [if_pos hc]; exact h
    · rename_i hc
      rw [if_neg hc]
      split at h
      · cases h
      · rename_i s1 l1 hr
        simp only at h ⊢
        split at h
        · rename_i ha; rw [if_pos ha]; exact ih h
        · rename_i ha; rw [if_neg ha]; exact h

theorem tooHighLoop_fuel_mono (fuel : Nat) : ∀ {s : Sensor} {l : Search} {r : Sensor × Search},
    tooHighLoop fuel s l = .ok r → tooHighLoop (fuel + 1) s l = .ok r := by
  induction fuel with
  | zero => intro s l r h; simp [tooHighLoop] at h
  | succ n ih =>
    intro s l r h
    unfold tooHighLoop at h ⊢
    split at h
    · rename_i hc; rw [if_pos hc]; exact h
    · rename_i hc
      rw [if_neg hc]
      split at h
      · cases h
      · rename_i s1 l1 hr
        simp only at h ⊢
        split at h
        · rename_i ha; rw [if_pos ha]; exact ih h
        · rename_i ha; rw [if_neg ha]; exact h

theorem searchLoop_fuel_mono (fuel : Nat) : ∀ {s : Sensor} {l : Search} {r : Sensor × Search},
    searchLoop fuel s l = .ok r → searchLoop (fuel + 1) s l = .ok r := by
  induction fuel with
  | zero =>
    intro s l r h
    unfold searchLoop at h
    split at h
    · cases h
    · rename_i hc
      unfold searchLoop
      rw [if_neg hc]; exact h
  | succ n ih =>
    intro s l r h
    unfold searchLoop at h
    split at h
    · rename_i hc
      split at h
      · cases h
      · rename_i s1 l1 hrun
        unfold searchLoop
        rw [if_pos hc]
        have hrun' : (if l.ambient ≤ 100 then tooLowLoop (n + 1 + 1) s l
            else tooHighLoop (n + 1 + 1) s l) = .ok (s1, l1) := by
          split at hrun
          · rename_i hd; rw [if_pos hd]; exact tooLowLoop_fuel_mono _ hrun
          · rename_i hd; rw [if_neg hd]; exact tooHighLoop_fuel_mono _ hrun
        rw [hrun']
        exact ih h
    · rename_i hc
      unfold searchLoop
      rw [if_neg hc]; exact h

/-- A run that returns with some fuel returns the same with any larger fuel. -/
theorem adjustSensitivity_fuel_mono {fuel fuel' : Nat} {s : Sensor} {r : Sensor × Search}
    (hle : fuel ≤ fuel') (h : adjustSensitivity fuel s = .ok r) :
    adjustSensitivity fuel' s = .ok r := by
  induction hle with
  | refl => exact h
  | step _ ih =>
    unfold adjustSensitivity at ih ⊢
    split at ih
    · cases ih
    · rename_i s1 l1 he
      split at ih
      · cases ih
      · rename_i s2 l2 hs
        rw [searchLoop_fuel_mono _ hs]
        exact ih

@[simp] theorem shutdown_feed (s : Sensor) :
    (shutdown s).VEML_sensor.ambientFeed = s.VEML_sensor.ambientFeed := rfl

@[simp] theorem powerOn_feed (s : Sensor) :
    (powerOn s).VEML_sensor.ambientFeed = s.VEML_sensor.ambientFeed := rfl

@[simp] theorem delay_feed (ms : Nat) (s : Sensor) :
    (delay ms s).VEML_sensor.ambientFeed = s.VEML_sensor.ambientFeed := rfl

@[simp] theorem setSensitivityMode_feed (code : Nat) (s : Sensor) :
    (setSensitivityMode code s).2.VEML_sensor.ambientFeed = s.VEML_sensor.ambientFeed := rfl

@[simp] theorem setIntegrationTime_feed (code : Nat) (s : Sensor) :
    (setIntegrationTime code s).2.VEML_sensor.ambientFeed = s.VEML_sensor.ambientFeed := rfl

@[simp] theorem getAmbientLight_feed (s : Sensor) (k : Nat) :
    (getAmbientLight s).2.VEML_sensor.ambientFeed k = s.VEML_sensor.ambientFeed (k + 1) := rfl

@[simp] theorem getAmbientLight_value (s : Sensor) :
    (getAmbientLight s).1 = s.VEML_sensor.ambientFeed 0 % 65536 := rfl

/-- A too-dark setting change from a valid state that is not the top of the lattice:
it succeeds, writes once and moves one index up by one. -/
theorem raise_of_valid (s : Sensor) (l : Search) (hg : l.newGain ≤ 3)
    (hi : l.newIntegration ≤ 5) (hc : ¬ (l.newIntegration = 5 ∧ l.newGain = 3)) :
    ∃ s1 l1, raise s l = .ok (s1, l1)
      ∧ settingWrites s1.log = settingWrites s.log + 1
      ∧ s1.VEML_sensor.ambientFeed = s.VEML_sensor.ambientFeed
      ∧ l1.newGain ≤ 3 ∧ l1.newIntegration ≤ 5
      ∧ (3 - l1.newGain) + (5 - l1.newIntegration) + 1
          = (3 - l.newGain) + (5 - l.newIntegration) := by
  by_cases h3 : l.newGain < 3
  · have hlt : l.newGain + 1 < gain_array.length := by simp [gain_array]; omega
    refine ⟨(setSensitivityMode (mapAt gains (gain_array.get ⟨l.newGain + 1, hlt⟩)) s).2,
      { l with newGain := l.newGain + 1 }, ?_, ?_, ?_, ?_⟩
    · unfold raise
      rw [if_pos h3, index_ok_of_lt hlt]
    · simp [settingWrites, isSettingWrite]
    · simp
    · simp only; omega
  · have h5 : l.newIntegration < 5 := by omega
    have hlt : l.newIntegration + 1 < integration_array.length := by
      simp [integration_array]; omega
    refine ⟨(setIntegrationTime
        (mapAt integrations (integration_array.get ⟨l.newIntegration + 1, hlt⟩)) s).2,
      { l with newIntegration := l.newIntegration + 1 }, ?_, ?_, ?_, ?_⟩
    · unfold raise
      rw [if_neg h3, if_pos h5, index_ok_of_lt hlt]
    · simp [settingWrites, isSettingWrite]
    · simp
    · simp only; omega

/-- A too-bright setting change from a valid state that is not the bottom of the
lattice: it succeeds, writes once and moves one index down by one. -/
theorem lower_of_valid (s : Sensor) (l : Search) (hg : l.newGain ≤ 3)
    (hi : l.newIntegration ≤ 5) (hc : ¬ (l.newIntegration = 0 ∧ l.newGain = 0)) :
    ∃ s1 l1, lower s l = .ok (s1, l1)
      ∧ settingWrites s1.log = settingWrites s.log + 1
      ∧ s1.VEML_sensor.ambientFeed = s.VEML_sensor.ambientFeed
      ∧ l1.newGain ≤ 3 ∧ l1.newIntegration ≤ 5
      ∧ l1.newGain + l1.newIntegration + 1 = l.newGain + l.newIntegration := by
  by_cases h3 : l.newGain > 0
  · have hlt : l.newGain - 1 < gain_array.length := by simp [gain_array]; omega
    refine ⟨(setSensitivityMode (mapAt gains (gain_array.get ⟨l.newGain - 1, hlt⟩)) s).2,
      { l with newGain := l.newGain - 1 }, ?_, ?_, ?_, ?_⟩
    · unfold lower
      rw [if_pos h3, index_ok_of_lt hlt]
    · simp [settingWrites, isSettingWrite]
    · simp
    · simp only; omega
  · have h5 : l.newIntegration > 0 := by omega
    have hlt : l.newIntegration - 1 < integration_array.length := by
      simp [integration_array]; omega
    refine ⟨(setIntegrationTime
        (mapAt integrations (integration_array.get ⟨l.newIntegration - 1, hlt⟩)) s).2,
      { l with newIntegration := l.newIntegration - 1 }, ?_, ?_, ?_, ?_⟩
    · unfold lower
      rw [if_neg h3, if_pos h5, index_ok_of_lt hlt]
    · simp [settingWrites, isSettingWrite]
    · simp
    · simp only; omega

theorem resample_writes (b : Search) (s : Sensor) (l : Search) :
    settingWrites (resample b s l).1.log = settingWrites s.log := by
  simp [resample, settingWrites, isSettingWrite]

theorem resample_feed (b : Search) (s : Sensor) (l : Search) (k : Nat) :
    (resample b s l).1.VEML_sensor.ambientFeed k = s.VEML_sensor.ambientFeed (k + 1) := rfl

theorem resample_ambient (b : Search) (s : Sensor) (l : Search) :
    (resample b s l).2.ambient = s.VEML_sensor.ambientFeed 0 % 65536 := rfl

/-- A run of the too-dark loop from a valid state returns, whatever the readings, as
soon as the fuel exceeds the distance to the top of the lattice, and writes at most
that distance. A property that holds of the current reading and of every scripted
reading holds of the final reading and of the rest of the script. -/
theorem tooLowLoop_run (P : Nat → Prop) (n : Nat) : ∀ (fuel : Nat) (s : Sensor) (l : Search),
    l.newGain ≤ 3 → l.newIntegration ≤ 5 →
    (3 - l.newGain) + (5 - l.newIntegration) ≤ n → n < fuel →
    P l.ambient → (∀ k, P (s.VEML_sensor.ambientFeed k % 65536)) →
    ∃ s' l', tooLowLoop fuel s l = .ok (s', l')
      ∧ settingWrites s'.log ≤ settingWrites s.log + n
      ∧ l'.newGain ≤ 3 ∧ l'.newIntegration ≤ 5
      ∧ P l'.ambient ∧ (∀ k, P (s'.VEML_sensor.ambientFeed k % 65536))
      ∧ (l'.maxed = true ∨ 100 < l'.ambient) := by
  induction n with
  | zero =>
    intro fuel s l hg hi hn hf hP hfeed
    obtain ⟨f, rfl⟩ : ∃ f, fuel = f + 1 := ⟨fuel - 1, by omega⟩
    have hc : l.newIntegration = 5 ∧ l.newGain = 3 := by omega
    refine ⟨s, { l with maxed := true }, ?_, by omega, hg, hi, hP, hfeed, Or.inl rfl⟩
    unfold tooLowLoop
    rw [if_pos hc]
  | succ n ih =>
    intro fuel s l hg hi hn hf hP hfeed
    obtain ⟨f, rfl⟩ : ∃ f, fuel = f + 1 := ⟨fuel - 1, by omega⟩
    by_cases hc : l.newIntegration = 5 ∧ l.newGain = 3
    · refine ⟨s, { l with maxed := true }, ?_, by omega, hg, hi, hP, hfeed, Or.inl rfl⟩
      unfold tooLowLoop
      rw [if_pos hc]
    · obtain ⟨s1, l1, hr, hw, hfd, hg1, hi1, hm⟩ :=
        raise_of_valid (delay (25 * 2 ^ l.newIntegration) (shutdown s)) l hg hi hc
      have hfeed1 : ∀ k, P ((resample l s1 l1).1.VEML_sensor.ambientFeed k % 65536) := by
        intro k
        rw [resample_feed, hfd]
        exact hfeed (k + 1)
      have hP1 : P (resample l s1 l1).2.ambient := by
        rw [resample_ambient, hfd]
        exact hfeed 0
      have hw1 : settingWrites (resample l s1 l1).1.log = settingWrites s.log + 1 := by
        rw [resample_writes, hw]
        simp [settingWrites, isSettingWrite]
      by_cases ha : (resample l s1 l1).2.ambient ≤ 100
      · obtain ⟨s', l', hrun, hw', hg', hi', hP', hfeed', hex⟩ :=
          ih f (resample l s1 l1).1 (resample l s1 l1).2 hg1 hi1
            (by simp only [resample_newGain, resample_newIntegration]; omega) (by omega)
            hP1 hfeed1
        refine ⟨s', l', ?_, by omega, hg', hi', hP', hfeed', hex⟩
        unfold tooLowLoop
        rw [if_neg hc, hr]
        simp only
        rw [if_pos ha]
        exact hrun
      · refine ⟨(resample l s1 l1).1, (resample l s1 l1).2, ?_, by omega, hg1, hi1, hP1,
          hfeed1, Or.inr (by omega)⟩
        unfold tooLowLoop
        rw [if_neg hc, hr]
        simp only
        rw [if_neg ha]

/-- A run of the too-bright loop from a valid state returns, whatever the readings, as
soon as the fuel exceeds the distance to the bottom of the lattice, and writes at most
that distance. -/
theorem tooHighLoop_run (P : Nat → Prop) (n : Nat) : ∀ (fuel : Nat) (s : Sensor) (l : Search),
    l.newGain ≤ 3 → l.newIntegration ≤ 5 →
    l.newGain + l.newIntegration ≤ n → n < fuel →
    P l.ambient → (∀ k, P (s.VEML_sensor.ambientFeed k % 65536)) →
    ∃ s' l', tooHighLoop fuel s l = .ok (s', l')
      ∧ settingWrites s'.log ≤ settingWrites s.log + n
      ∧ l'.newGain ≤ 3 ∧ l'.newIntegration ≤ 5
      ∧ P l'.ambient ∧ (∀ k, P (s'.VEML_sensor.ambientFeed k % 65536))
      ∧ (l'.maxed = true ∨ l'.ambient ≤ 10000) := by
  induction n with
  | zero =>
    intro fuel s l hg hi hn hf hP hfeed
    obtain ⟨f, rfl⟩ : ∃ f, fuel = f + 1 := ⟨fuel - 1, by omega⟩
    have hc : l.newIntegration = 0 ∧ l.newGain = 0 := by omega
    refine ⟨s, { l with maxed := true }, ?_, by omega, hg, hi, hP, hfeed, Or.inl rfl⟩
    unfold tooHighLoop
    rw [if_pos hc]
  | succ n ih =>
    intro fuel s l hg hi hn hf hP hfeed
    obtain ⟨f, rfl⟩ : ∃ f, fuel = f + 1 := ⟨fuel - 1, by omega⟩
    by_cases hc : l.newIntegration = 0 ∧ l.newGain = 0
    · refine ⟨s, { l with maxed := true }, ?_, by omega, hg, hi, hP, hfeed, Or.inl rfl⟩
      unfold tooHighLoop
      rw [if_pos hc]
    · obtain ⟨s1, l1, hr, hw, hfd, hg1, hi1, hm⟩ :=
        lower_of_valid (delay (25 * 2 ^ l.newIntegration) (shutdown s)) l hg hi hc
      have hfeed1 : ∀ k, P ((resample l s1 l1).1.VEML_sensor.ambientFeed k % 65536) := by
        intro k
        rw [resample_feed, hfd]
        exact hfeed (k + 1)
      have hP1 : P (resample l s1 l1).2.ambient := by
        rw [resample_ambient, hfd]
        exact hfeed 0
      have hw1 : settingWrites (resample l s1 l1).1.log = settingWrites s.log + 1 := by
        rw [resample_writes, hw]
        simp [settingWrites, isSettingWrite]
      by_cases ha : (resample l s1 l1).2.ambient > 10000
      · obtain ⟨s', l', hrun, hw', hg', hi', hP', hfeed', hex⟩ :=
          ih f (resample l s1 l1).1 (resample l s1 l1).2 hg1 hi1
            (by simp only [resample_newGain, resample_newIntegration]; omega) (by omega)
            hP1 hfeed1
        refine ⟨s', l', ?_, by omega, hg', hi', hP', hfeed', hex⟩
        unfold tooHighLoop
        rw [if_neg hc, hr]
        simp only
        rw [if_pos ha]
        exact hrun
      · refine ⟨(resample l s1 l1).1, (resample l s1 l1).2, ?_, by omega, hg1, hi1, hP1,
          hfeed1, Or.inr (by omega)⟩
        unfold tooHighLoop
        rw [if_neg hc, hr]
        simp only
        rw [if_neg ha]

theorem gainIndex_le {mode : Nat} (h : mode < 4) : gainIndex mode ≤ 3 := by
  unfold gainIndex
  split <;> omega

/-- With readings that are never too dark, the outer loop is at most one run of the
too-bright loop. -/
theorem searchLoop_never_dark (n fuel : Nat) (s : Sensor) (l : Search)
    (hg : l.newGain ≤ 3) (hi : l.newIntegration ≤ 5)
    (hn : l.newGain + l.newIntegration ≤ n) (hf : n < fuel)
    (ha : 100 < l.ambient) (hfeed : ∀ k, 100 < s.VEML_sensor.ambientFeed k % 65536) :
    ∃ s' l', searchLoop fuel s l = .ok (s', l')
      ∧ settingWrites s'.log ≤ settingWrites s.log + n
      ∧ l'.newGain ≤ 3 ∧ l'.newIntegration ≤ 5 := by
  by_cases hd : l.maxed = true ∨ inBounds l.ambient
  · exact ⟨s, l, searchLoop_done fuel s l hd, by omega, hg, hi⟩
  · have hm : l.maxed = false := by
      cases h : l.maxed
      · rfl
      · exact absurd (Or.inl h) hd
    have hb : ¬ l.ambient ≤ 100 := by omega
    have hc : l.maxed = false ∧ (l.ambient ≤ 100 ∨ l.ambient > 10000) := by
      refine ⟨hm, ?_⟩
      unfold inBounds at hd
      by_contra hcon
      exact hd (Or.inr (by omega))
    obtain ⟨f, rfl⟩ : ∃ f, fuel = f + 1 := ⟨fuel - 1, by omega⟩
    obtain ⟨s1, l1, hrun, hw, hg1, hi1, hP1, _, hex⟩ :=
      tooHighLoop_run (fun a => 100 < a) n (f + 1) s l hg hi hn hf ha hfeed
    have hdone : l1.maxed = true ∨ inBounds l1.ambient := by
      rcases hex with h | h
      · exact Or.inl h
      · exact Or.inr ⟨hP1, h⟩
    refine ⟨s1, l1, ?_, hw, hg1, hi1⟩
    unfold searchLoop
    rw [if_pos hc, if_neg hb, hrun]
    exact searchLoop_done f s1 l1 hdone

/-- With readings that are never too bright, the outer loop is at most one run of the
too-dark loop. -/
theorem searchLoop_never_bright (n fuel : Nat) (s : Sensor) (l : Search)
    (hg : l.newGain ≤ 3) (hi : l.newIntegration ≤ 5)
    (hn : (3 - l.newGain) + (5 - l.newIntegration) ≤ n) (hf : n < fuel)
    (ha : l.ambient ≤ 10000) (hfeed : ∀ k, s.VEML_sensor.ambientFeed k % 65536 ≤ 10000) :
    ∃ s' l', searchLoop fuel s l = .ok (s', l')
      ∧ settingWrites s'.log ≤ settingWrites s.log + n
      ∧ l'.newGain ≤ 3 ∧ l'.newIntegration ≤ 5 := by
  by_cases hd : l.maxed = true ∨ inBounds l.ambient
  · exact ⟨s, l, searchLoop_done fuel s l hd, by omega, hg, hi⟩
  · have hm : l.maxed = false := by
      cases h : l.maxed
      · rfl
      · exact absurd (Or.inl h) hd
    have hb : l.ambient ≤ 100 := by
      unfold inBounds at hd
      by_contra hcon
      exact hd (Or.inr (by omega))
    have hc : l.maxed = false ∧ (l.ambient ≤ 100 ∨ l.ambient > 10000) := ⟨hm, Or.inl hb⟩
    obtain ⟨f, rfl⟩ : ∃ f, fuel = f + 1 := ⟨fuel - 1, by omega⟩
    obtain ⟨s1, l1, hrun, hw, hg1, hi1, hP1, _, hex⟩ :=
      tooLowLoop_run (fun a => a ≤ 10000) n (f + 1) s l hg hi hn hf ha hfeed
    have hdone : l1.maxed = true ∨ inBounds l1.ambient := by
      rcases hex with h | h
      · exact Or.inl h
      · exact Or.inr ⟨h, hP1⟩
    refine ⟨s1, l1, ?_, hw, hg1, hi1⟩
    unfold searchLoop
    rw [if_pos hc, if_pos hb, hrun]
    exact searchLoop_done f s1 l1 hdone

/-- The reset trial always returns: one write, two samples consumed since entry, the
integration index forced to 2. -/
theorem resetTrial_eq (s : Sensor) (l : Search) :
    ∃ s1 l1, resetTrial s l = .ok (s1, l1)
      ∧ settingWrites s1.log = settingWrites s.log + 1
      ∧ (∀ k, s1.VEML_sensor.ambientFeed k = s.VEML_sensor.ambientFeed (k + 1))
      ∧ l1.ambient = s.VEML_sensor.ambientFeed 0 % 65536
      ∧ l1.newIntegration = 2 ∧ l1.newGain = l.newGain ∧ l1.maxed = l.maxed
      ∧ l1.steps = l.steps :=
  ⟨_, _, rfl, by simp [settingWrites, isSettingWrite], fun _ => rfl, rfl, rfl, rfl, rfl, rfl⟩

/-- What `enter` leaves for the outer loop. It always returns, with at most one write,
the adjusted gain code as gain index, no step taken, and either nothing left to search
(`maxed` or in bounds, integration index as read) or the reset trial done: integration
index 2 and the second sample of the script as current reading. -/
theorem enter_eq (s : Sensor) :
    ∃ s1 l1, enter s = .ok (s1, l1)
      ∧ settingWrites s1.log ≤ settingWrites s.log + 1
      ∧ l1.newGain = gainIndex s.VEML_sensor.sensitivityMode ∧ l1.steps = []
      ∧ (((l1.maxed = true ∨ inBounds l1.ambient)
            ∧ l1.newIntegration = s.VEML_sensor.integrationTime)
          ∨ (l1.ambient = s.VEML_sensor.ambientFeed 1 % 65536 ∧ l1.newIntegration = 2
              ∧ l1.maxed = false
              ∧ ∀ k, s1.VEML_sensor.ambientFeed k = s.VEML_sensor.ambientFeed (k + 2))) := by
  by_cases hout : s.VEML_sensor.ambientFeed 0 % 65536 ≤ 100
      ∨ s.VEML_sensor.ambientFeed 0 % 65536 > 10000
  · by_cases hx : (s.VEML_sensor.ambientFeed 0 % 65536 > 10000
          ∧ s.VEML_sensor.integrationTime = 0 ∧ gainIndex s.VEML_sensor.sensitivityMode = 0)
        ∨ (s.VEML_sensor.ambientFeed 0 % 65536 ≤ 100
          ∧ s.VEML_sensor.integrationTime = 5 ∧ gainIndex s.VEML_sensor.sensitivityMode = 3)
    · refine ⟨(getAmbientLight s).2,
        { ambient := s.VEML_sensor.ambientFeed 0 % 65536,
          newIntegration := s.VEML_sensor.integrationTime,
          newGain := gainIndex s.VEML_sensor.sensitivityMode, maxed := true, steps := [] },
        ?_, ?_, rfl, rfl, Or.inl ⟨Or.inl rfl, rfl⟩⟩
      · unfold enter
        simp only [getAmbientLight, emit, if_pos hout, if_pos hx]
      · simp [settingWrites, isSettingWrite]
    · obtain ⟨s1, l1, hr, hw, hfd, ha, hi1, hg1, hm1, hs1⟩ := resetTrial_eq (getAmbientLight s).2
        { ambient := s.VEML_sensor.ambientFeed 0 % 65536,
          newIntegration := s.VEML_sensor.integrationTime,
          newGain := gainIndex s.VEML_sensor.sensitivityMode, maxed := false, steps := [] }
      refine ⟨s1, l1, ?_, ?_, hg1, hs1, Or.inr ⟨?_, hi1, hm1, ?_⟩⟩
      · unfold enter
        simp only [getAmbientLight, emit, if_pos hout, if_neg hx]
        exact hr
      · rw [hw]
        simp [settingWrites, isSettingWrite]
      · rw [ha]; rfl
      · intro k
        rw [hfd]; rfl
  · refine ⟨(getAmbientLight s).2,
      { ambient := s.VEML_sensor.ambientFeed 0 % 65536,
        newIntegration := s.VEML_sensor.integrationTime,
        newGain := gainIndex s.VEML_sensor.sensitivityMode, maxed := false, steps := [] },
      ?_, ?_, rfl, rfl, Or.inl ⟨Or.inr ?_, rfl⟩⟩
    · unfold enter
      simp only [getAmbientLight, emit, if_neg hout]
    · simp [settingWrites, isSettingWrite]
    · unfold inBounds
      simp only
      omega

theorem updateSettings_of_valid (s : Sensor) (l : Search) (hg : l.newGain ≤ 3)
    (hi : l.newIntegration ≤ 5) :
    ∃ s', updateSettings s l = .ok (s', l) ∧ s'.log = s.log := by
  have hg' : l.newGain < gain_array.length := by simp [gain_array]; omega
  have hi' : l.newIntegration < integration_array.length := by
    simp [integration_array]; omega
  exact ⟨_, updateSettings_eq s (List.getElem?_eq_getElem hi') (List.getElem?_eq_getElem hg'),
    rfl⟩

/-- From a valid applied state, with readings that do not change side after the entry
sample and fuel of at least 7, the entry code and the outer loop return, with at most 7
writes and a valid tracked state. -/
theorem enter_searchLoop_steady (fuel : Nat) (s : Sensor)
    (hg : s.VEML_sensor.sensitivityMode < 4) (hi : s.VEML_sensor.integrationTime < 6)
    (hsteady : SteadySide s.VEML_sensor.ambientFeed) (hfuel : 7 ≤ fuel) :
    ∃ s1 l1 s2 l2, enter s = .ok (s1, l1) ∧ searchLoop fuel s1 l1 = .ok (s2, l2)
      ∧ settingWrites s2.log ≤ settingWrites s.log + 7
      ∧ l2.newGain ≤ 3 ∧ l2.newIntegration ≤ 5 := by
  obtain ⟨s1, l1, he, hw1, hgeq, _, hcase⟩ := enter_eq s
  have hg1 : l1.newGain ≤ 3 := by rw [hgeq]; exact gainIndex_le hg
  have hi1 : l1.newIntegration ≤ 5 := by
    rcases hcase with ⟨_, h⟩ | ⟨_, h, _⟩ <;> omega
  have key : ∃ s2 l2, searchLoop fuel s1 l1 = .ok (s2, l2)
      ∧ settingWrites s2.log ≤ settingWrites s1.log + 6
      ∧ l2.newGain ≤ 3 ∧ l2.newIntegration ≤ 5 := by
    rcases hcase with ⟨hdone, _⟩ | ⟨ha, hi2, _, hfd⟩
    · exact ⟨s1, l1, searchLoop_done fuel s1 l1 hdone, by omega, hg1, hi1⟩
    · rcases hsteady with hs | hs
      · refine searchLoop_never_dark 6 fuel s1 l1 hg1 hi1 (by omega) (by omega) ?_ ?_
        · rw [ha]; exact hs 0
        · intro k; rw [hfd]; exact hs (k + 1)
      · refine searchLoop_never_bright 6 fuel s1 l1 hg1 hi1 (by omega) (by omega) ?_ ?_
        · rw [ha]; exact hs 0
        · intro k; rw [hfd]; exact hs (k + 1)
  obtain ⟨s2, l2, hs, hw2, hg2, hi2⟩ := key
  exact ⟨s1, l1, s2, l2, he, hs, by omega, hg2, hi2⟩

/-- From a valid applied state, with readings that do not change side after the entry
sample, `adjustSensitivity` returns with any fuel of at least 7. -/
theorem adjustSensitivity_returns_steady (fuel : Nat) (s : Sensor)
    (hg : s.VEML_sensor.sensitivityMode < 4) (hi : s.VEML_sensor.integrationTime < 6)
    (hsteady : SteadySide s.VEML_sensor.ambientFeed) (hfuel : 7 ≤ fuel) :
    ∃ s' l, adjustSensitivity fuel s = .ok (s', l) := by
  obtain ⟨s1, l1, s2, l2, he, hs, _, hg2, hi2⟩ :=
    enter_searchLoop_steady fuel s hg hi hsteady hfuel
  obtain ⟨s3, hu, _⟩ := updateSettings_of_valid s2 l2 hg2 hi2
  refine ⟨s3, l2, ?_⟩
  unfold adjustSensitivity
  rw [he]
  simp only
  rw [hs]
  exact hu

/-- C3 (amended). For every reachable starting state (gain code 0..3, integration code
0..5) and every script of readings that does not change side after the entry sample
(never too dark, or never too bright), `adjustSensitivity` returns with any fuel of at
least 7 and issues at most 7 gain or integration writes, so at most 24. -/
theorem adjustSensitivity_terminates_on_steady_side (fuel : Nat) (s : Sensor)
    (hg : s.VEML_sensor.sensitivityMode < 4) (hi : s.VEML_sensor.integrationTime < 6)
    (hsteady : SteadySide s.VEML_sensor.ambientFeed) (hfuel : 7 ≤ fuel) :
    ∃ s' l, adjustSensitivity fuel s = .ok (s', l)
      ∧ settingWrites s'.log ≤ settingWrites s.log + 7
      ∧ settingWrites s'.log ≤ settingWrites s.log + 24 := by
  obtain ⟨s1, l1, s2, l2, he, hs, hw, hg2, hi2⟩ :=
    enter_searchLoop_steady fuel s hg hi hsteady hfuel
  obtain ⟨s3, hu, hlog⟩ := updateSettings_of_valid s2 l2 hg2 hi2
  refine ⟨s3, l2, ?_, ?_, ?_⟩
  · unfold adjustSensitivity
    rw [he]
    simp only
    rw [hs]
    exact hu
  · rw [hlog]; exact hw
  · rw [hlog]; omega

/-- The dark room satisfies the hypotheses of C3 (amended). -/
theorem adjustSensitivity_terminates_on_steady_side_witness :
    darkRoom.VEML_sensor.sensitivityMode < 4 ∧ darkRoom.VEML_sensor.integrationTime < 6
      ∧ SteadySide darkRoom.VEML_sensor.ambientFeed ∧ 7 ≤ 7
      ∧ ∃ s' l, adjustSensitivity 7 darkRoom = .ok (s', l)
        ∧ settingWrites s'.log ≤ settingWrites darkRoom.log + 7
        ∧ settingWrites s'.log ≤ settingWrites darkRoom.log + 24 :=
  ⟨by decide, by decide, Or.inr (fun _ => Nat.le_of_ble_eq_true rfl), by decide,
    adjustSensitivity_terminates_on_steady_side 7 darkRoom (by decide) (by decide)
      (Or.inr (fun _ => Nat.le_of_ble_eq_true rfl)) (by decide)⟩

set_option maxRecDepth 100000 in
/-- C3 (as stated) fails. Under the flickering light, whose readings change side at
every sample, the call returns (with fuel 40) after 30 gain and integration writes, and
no fuel gives a return with at most 24. -/
theorem adjustSensitivity_flicker_exceeds_24_writes :
    flicker.VEML_sensor.sensitivityMode < 4 ∧ flicker.VEML_sensor.integrationTime < 6
      ∧ (∃ s' l, adjustSensitivity 40 flicker = .ok (s', l)
          ∧ settingWrites s'.log = settingWrites flicker.log + 30)
      ∧ ¬ ∃ fuel s' l, adjustSensitivity fuel flicker = .ok (s', l)
          ∧ settingWrites s'.log ≤ settingWrites flicker.log + 24 := by
  obtain ⟨s40, l40, h40, hw⟩ :
      ∃ s40 l40, adjustSensitivity 40 flicker = .ok (s40, l40) ∧ settingWrites s40.log = 30 :=
    ⟨_, _, rfl, by decide⟩
  have h0 : settingWrites flicker.log = 0 := by decide
  refine ⟨by decide, by decide, ⟨s40, l40, h40, by rw [hw, h0]⟩, ?_⟩
  rintro ⟨fuel, s', l, h, hb⟩
  have h1 := adjustSensitivity_fuel_mono (Nat.le_max_left fuel 40) h
  have h2 := adjustSensitivity_fuel_mono (Nat.le_max_right fuel 40) h40
  rw [h1] at h2
  injection h2 with h2
  injection h2 with h3 h4
  subst h3
  rw [hw] at hb
  omega

/-! ## C4: direction of the steps -/

theorem raise_feed {s s1 : Sensor} {l l1 : Search} (h : raise s l = .ok (s1, l1)) :
    s1.VEML_sensor.ambientFeed = s.VEML_sensor.ambientFeed := by
  rcases raise_ok h with ⟨_, ⟨c, rfl⟩, _⟩ | ⟨_, _, ⟨c, rfl⟩, _⟩ | ⟨_, _, rfl, _⟩ <;> rfl

theorem lower_feed {s s1 : Sensor} {l l1 : Search} (h : lower s l = .ok (s1, l1)) :
    s1.VEML_sensor.ambientFeed = s.VEML_sensor.ambientFeed := by
  rcases lower_ok h with ⟨_, ⟨c, rfl⟩, _⟩ | ⟨_, _, ⟨c, rfl⟩, _⟩ | ⟨_, _, rfl, _⟩ <;> rfl

/-- A too-dark setting change never lowers an index and keeps the list of steps. -/
theorem raise_indices {s s1 : Sensor} {l l1 : Search} (h : raise s l = .ok (s1, l1)) :
    l.newGain ≤ l1.newGain ∧ l.newIntegration ≤ l1.newIntegration ∧ l1.steps = l.steps := by
  rcases raise_ok h with ⟨_, _, rfl⟩ | ⟨_, _, _, rfl⟩ | ⟨_, _, _, rfl⟩ <;> simp

/-- A too-bright setting change never raises an index and keeps the list of steps. -/
theorem lower_indices {s s1 : Sensor} {l l1 : Search} (h : lower s l = .ok (s1, l1)) :
    l1.newGain ≤ l.newGain ∧ l1.newIntegration ≤ l.newIntegration ∧ l1.steps = l.steps := by
  rcases lower_ok h with ⟨_, _, rfl⟩ | ⟨_, _, _, rfl⟩ | ⟨_, _, _, rfl⟩ <;> simp

/-- A run of the too-dark loop only adds steps that lower no index; a property of the
current reading and of all scripted readings holds of the final reading and of the
rest of the script. -/
theorem tooLowLoop_steps (P : Nat → Prop) (fuel : Nat) : ∀ {s s' : Sensor} {l l' : Search},
    tooLowLoop fuel s l = .ok (s', l') →
    P l.ambient → (∀ k, P (s.VEML_sensor.ambientFeed k % 65536)) →
    P l'.ambient ∧ (∀ k, P (s'.VEML_sensor.ambientFeed k % 65536))
      ∧ ∃ more, l'.steps = l.steps ++ more ∧ ∀ t ∈ more, ¬ t.decreases := by
  induction fuel with
  | zero => intro s s' l l' h; simp [tooLowLoop] at h
  | succ n ih =>
    intro s s' l l' h hP hfeed
    unfold tooLowLoop at h
    split at h
    · injection h with h
      injection h with h1 h2
      subst h1 h2
      exact ⟨hP, hfeed, [], by simp, by simp⟩
    · split at h
      · cases h
      · rename_i s1 l1 hr
        have hfd := raise_feed hr
        have hidx := raise_indices hr
        simp only [shutdown_feed, delay_feed] at hfd
        have hfeed1 : ∀ k, P ((resample l s1 l1).1.VEML_sensor.ambientFeed k % 65536) := by
          intro k
          rw [resample_feed, hfd]
          exact hfeed (k + 1)
        have hP1 : P (resample l s1 l1).2.ambient := by
          rw [resample_ambient, hfd]
          exact hfeed 0
        obtain ⟨t0, hstep, ht0⟩ : ∃ t0 : Step,
            (resample l s1 l1).2.steps = l.steps ++ [t0] ∧ ¬ t0.decreases :=
          ⟨{ ambient := l.ambient, gain := l.newGain, integration := l.newIntegration,
             gainAfter := l1.newGain, integrationAfter := l1.newIntegration },
            by simp [resample, hidx.2.2], by simp only [Step.decreases]; omega⟩
        simp only at h
        split at h
        · obtain ⟨h1, h2, more, h3, h4⟩ := ih h hP1 hfeed1
          refine ⟨h1, h2, t0 :: more, ?_, ?_⟩
          · rw [h3, hstep]; simp
          · intro t ht
            rcases List.mem_cons.mp ht with rfl | ht
            · exact ht0
            · exact h4 t ht
        · injection h with h
          have e1 : s' = (resample l s1 l1).1 := by rw [h]
          have e2 : l' = (resample l s1 l1).2 := by rw [h]
          subst e1 e2
          refine ⟨hP1, hfeed1, [t0], hstep, ?_⟩
          intro t ht
          rcases List.mem_singleton.mp ht with rfl
          exact ht0

/-- A run of the too-bright loop only adds steps that raise no index. -/
theorem tooHighLoop_steps (P : Nat → Prop) (fuel : Nat) : ∀ {s s' : Sensor} {l l' : Search},
    tooHighLoop fuel s l = .ok (s', l') →
    P l.ambient → (∀ k, P (s.VEML_sensor.ambientFeed k % 65536)) →
    P l'.ambient ∧ (∀ k, P (s'.VEML_sensor.ambientFeed k % 65536))
      ∧ ∃ more, l'.steps = l.steps ++ more ∧ ∀ t ∈ more, ¬ t.increases := by
  induction fuel with
  | zero => intro s s' l l' h; simp [tooHighLoop] at h
  | succ n ih =>
    intro s s' l l' h hP hfeed
    unfold tooHighLoop at h
    split at h
    · injection h with h
      injection h with h1 h2
      subst h1 h2
      exact ⟨hP, hfeed, [], by simp, by simp⟩
    · split at h
      · cases h
      · rename_i s1 l1 hr
        have hfd := lower_feed hr
        have hidx := lower_indices hr
        simp only [shutdown_feed, delay_feed] at hfd
        have hfeed1 : ∀ k, P ((resample l s1 l1).1.VEML_sensor.ambientFeed k % 65536) := by
          intro k
          rw [resample_feed, hfd]
          exact hfeed (k + 1)
        have hP1 : P (resample l s1 l1).2.ambient := by
          rw [resample_ambient, hfd]
          exact hfeed 0
        obtain ⟨t0, hstep, ht0⟩ : ∃ t0 : Step,
            (resample l s1 l1).2.steps = l.steps ++ [t0] ∧ ¬ t0.increases :=
          ⟨{ ambient := l.ambient, gain := l.newGain, integration := l.newIntegration,
             gainAfter := l1.newGain, integrationAfter := l1.newIntegration },
            by simp [resample, hidx.2.2], by simp only [Step.increases]; omega⟩
        simp only at h
        split at h
        · obtain ⟨h1, h2, more, h3, h4⟩ := ih h hP1 hfeed1
          refine ⟨h1, h2, t0 :: more, ?_, ?_⟩
          · rw [h3, hstep]; simp
          · intro t ht
            rcases List.mem_cons.mp ht with rfl | ht
            · exact ht0
            · exact h4 t ht
        · injection h with h
          have e1 : s' = (resample l s1 l1).1 := by rw [h]
          have e2 : l' = (resample l s1 l1).2 := by rw [h]
          subst e1 e2
          refine ⟨hP1, hfeed1, [t0], hstep, ?_⟩
          intro t ht
          rcases List.mem_singleton.mp ht with rfl
          exact ht0

/-- With readings that are never too dark, every step the outer loop adds raises no
index. -/
theorem searchLoop_steps_never_dark (fuel : Nat) : ∀ {s s' : Sensor} {l l' : Search},
    searchLoop fuel s l = .ok (s', l') →
    100 < l.ambient → (∀ k, 100 < s.VEML_sensor.ambientFeed k % 65536) →
    ∃ more, l'.steps = l.steps ++ more ∧ ∀ t ∈ more, ¬ t.increases := by
  induction fuel with
  | zero =>
    intro s s' l l' h _ _
    unfold searchLoop at h
    split at h
    · cases h
    · injection h with h
      injection h with h1 h2
      subst h1 h2
      exact ⟨[], by simp, by simp⟩
  | succ n ih =>
    intro s s' l l' h ha hfeed
    unfold searchLoop at h
    split at h
    · split at h
      · cases h
      · rename_i s1 l1 hrun
        rw [if_neg (by omega)] at hrun
        obtain ⟨h1, h2, more1, h3, h4⟩ :=
          tooHighLoop_steps (fun a => 100 < a) _ hrun ha hfeed
        obtain ⟨more2, h5, h6⟩ := ih h h1 h2
        refine ⟨more1 ++ more2, ?_, ?_⟩
        · rw [h5, h3, List.append_assoc]
        · intro t ht
          rcases List.mem_append.mp ht with ht | ht
          · exact h4 t ht
          · exact h6 t ht
    · injection h with h
      injection h with h1 h2
      subst h1 h2
      exact ⟨[], by simp, by simp⟩

/-- With readings that are never too bright, every step the outer loop adds lowers no
index. -/
theorem searchLoop_steps_never_bright (fuel : Nat) : ∀ {s s' : Sensor} {l l' : Search},
    searchLoop fuel s l = .ok (s', l') →
    l.ambient ≤ 10000 → (∀ k, s.VEML_sensor.ambientFeed k % 65536 ≤ 10000) →
    ∃ more, l'.steps = l.steps ++ more ∧ ∀ t ∈ more, ¬ t.decreases := by
  induction fuel with
  | zero =>
    intro s s' l l' h _ _
    unfold searchLoop at h
    split at h
    · cases h
    · injection h with h
      injection h with h1 h2
      subst h1 h2
      exact ⟨[], by simp, by simp⟩
  | succ n ih =>
    intro s s' l l' h ha hfeed
    unfold searchLoop at h
    split at h
    · rename_i hc
      split at h
      · cases h
      · rename_i s1 l1 hrun
        rw [if_pos (by omega)] at hrun
        obtain ⟨h1, h2, more1, h3, h4⟩ :=
          tooLowLoop_steps (fun a => a ≤ 10000) _ hrun ha hfeed
        obtain ⟨more2, h5, h6⟩ := ih h h1 h2
        refine ⟨more1 ++ more2, ?_, ?_⟩
        · rw [h5, h3, List.append_assoc]
        · intro t ht
          rcases List.mem_append.mp ht with ht | ht
          · exact h4 t ht
          · exact h6 t ht
    · injection h with h
      injection h with h1 h2
      subst h1 h2
      exact ⟨[], by simp, by simp⟩

/-- C4 (amended). Within a single call of `adjustSensitivity`, for every script of
readings that does not change side after the entry sample (never too dark, or never too
bright), the steps of the step loop move the gain and integration indices in one
direction only: in every call that returns, from any starting state, no step that
decreases an index follows one that increased an index, and no step that increases an
index follows one that decreased an index; and from a valid applied state the call does
return, with any fuel of at least 7. -/
theorem adjustSensitivity_one_direction_on_steady_side (fuel : Nat) (s : Sensor)
    (hsteady : SteadySide s.VEML_sensor.ambientFeed) :
    (∀ s' l, adjustSensitivity fuel s = .ok (s', l) → OneDirection l.steps)
      ∧ (s.VEML_sensor.sensitivityMode < 4 → s.VEML_sensor.integrationTime < 6 → 7 ≤ fuel →
          ∃ s' l, adjustSensitivity fuel s = .ok (s', l)) := by
  refine ⟨?_, fun hg hi hfuel => adjustSensitivity_returns_steady fuel s hg hi hsteady hfuel⟩
  intro s' l h
  obtain ⟨s1, l1, he, _, _, hsteps, hcase⟩ := enter_eq s
  unfold adjustSensitivity at h
  rw [he] at h
  simp only at h
  split at h
  · cases h
  · rename_i s2 l2 hs
    have hl : l = l2 := ((updateSettings_ok h).1)
    subst hl
    rcases hcase with ⟨hdone, _⟩ | ⟨ha, _, _, hfd⟩
    · rw [searchLoop_done fuel s1 l1 hdone] at hs
      injection hs with hs
      injection hs with h1 h2
      subst h2
      rw [hsteps]
      exact List.Pairwise.nil
    · rcases hsteady with hst | hst
      · obtain ⟨more, h1, h2⟩ := searchLoop_steps_never_dark fuel hs
          (by rw [ha]; exact hst 0) (by intro k; rw [hfd]; exact hst (k + 1))
        rw [h1, hsteps, List.nil_append]
        refine List.pairwise_of_forall_mem_list ?_
        intro a ha' b hb'
        exact ⟨fun hx => h2 a ha' hx.1, fun hx => h2 b hb' hx.2⟩
      · obtain ⟨more, h1, h2⟩ := searchLoop_steps_never_bright fuel hs
          (by rw [ha]; exact hst 0) (by intro k; rw [hfd]; exact hst (k + 1))
        rw [h1, hsteps, List.nil_append]
        refine List.pairwise_of_forall_mem_list ?_
        intro a ha' b hb'
        exact ⟨fun hx => h2 b hb' hx.2, fun hx => h2 a ha' hx.1⟩

/-- The dark room satisfies the hypothesis of C4 (amended): the call returns after
five steps, all upwards. -/
theorem adjustSensitivity_one_direction_on_steady_side_witness :
    SteadySide darkRoom.VEML_sensor.ambientFeed
      ∧ (∃ s' l, adjustSensitivity 7 darkRoom = .ok (s', l) ∧ l.steps.length = 5)
      ∧ ((∀ s' l, adjustSensitivity 7 darkRoom = .ok (s', l) → OneDirection l.steps)
        ∧ (darkRoom.VEML_sensor.sensitivityMode < 4 →
            darkRoom.VEML_sensor.integrationTime < 6 → 7 ≤ 7 →
            ∃ s' l, adjustSensitivity 7 darkRoom = .ok (s', l))) :=
  ⟨Or.inr (fun _ => Nat.le_of_ble_eq_true rfl), ⟨_, _, rfl, rfl⟩,
    adjustSensitivity_one_direction_on_steady_side 7 darkRoom
      (Or.inr (fun _ => Nat.le_of_ble_eq_true rfl))⟩

/-- C4 (as stated) fails. When the light is switched on during the search the call
takes two steps: the first, on a too-dark reading, raises the gain index from 1 to 2;
the second, on a too-bright reading, lowers it from 2 to 1. -/
theorem adjustSensitivity_swing_oscillates :
    ∃ s' l, adjustSensitivity 3 swing = .ok (s', l)
      ∧ l.steps = [{ ambient := 50, gain := 1, integration := 2, gainAfter := 2,
                     integrationAfter := 2 },
                   { ambient := 20000, gain := 2, integration := 2, gainAfter := 1,
                     integrationAfter := 2 }]
      ∧ ¬ OneDirection l.steps :=
  ⟨_, _, rfl, by decide, by decide⟩

/-! ## C5: results of the setting writes -/

theorem same_shutdown {s t : Sensor} (h : SameUpToWrites s t) :
    SameUpToWrites (shutdown s) (shutdown t) := by
  unfold SameUpToWrites at *
  simp_all [VEML7700LightSensor.shutdown, emit, calls, Event.call]

theorem same_powerOn {s t : Sensor} (h : SameUpToWrites s t) :
    SameUpToWrites (powerOn s) (powerOn t) := by
  unfold SameUpToWrites at *
  simp_all [VEML7700LightSensor.powerOn, emit, calls, Event.call]

theorem same_delay {s t : Sensor} (ms : Nat) (h : SameUpToWrites s t) :
    SameUpToWrites (delay ms s) (delay ms t) := by
  unfold SameUpToWrites at *
  simp_all [VEML7700LightSensor.delay, emit, calls, Event.call]

theorem same_setSensitivityMode {s t : Sensor} (code : Nat)
    (h : SameUpToWrites s t) :
    SameUpToWrites (setSensitivityMode code s).2 (setSensitivityMode code t).2 := by
  unfold SameUpToWrites at *
  simp_all [VEML7700LightSensor.setSensitivityMode, emit, calls, Event.call]

theorem same_setIntegrationTime {s t : Sensor} (code : Nat)
    (h : SameUpToWrites s t) :
    SameUpToWrites (setIntegrationTime code s).2 (setIntegrationTime code t).2 := by
  unfold SameUpToWrites at *
  simp_all [VEML7700LightSensor.setIntegrationTime, emit, calls, Event.call]

theorem same_getAmbientLight {s t : Sensor} (h : SameUpToWrites s t) :
    (getAmbientLight s).1 = (getAmbientLight t).1
      ∧ SameUpToWrites (getAmbientLight s).2 (getAmbientLight t).2 := by
  unfold SameUpToWrites at *
  simp_all [VEML7700LightSensor.getAmbientLight, emit, calls, Event.call]

theorem same_refl_ok {s t : Sensor} (l : Search) (h : SameUpToWrites s t) :
    SameOutcome (.ok (s, l)) (.ok (t, l)) :=
  ⟨h, rfl⟩

theorem same_raise {s t : Sensor} (l : Search) (h : SameUpToWrites s t) :
    SameOutcome (raise s l) (raise t l) := by
  unfold raise
  by_cases hg : l.newGain < 3
  · rw [if_pos hg, if_pos hg]
    cases index gain_array (l.newGain + 1) with
    | error e => exact rfl
    | ok label => exact ⟨same_setSensitivityMode _ h, rfl⟩
  · rw [if_neg hg, if_neg hg]
    by_cases hi : l.newIntegration < 5
    · rw [if_pos hi, if_pos hi]
      cases index integration_array (l.newIntegration + 1) with
      | error e => exact rfl
      | ok label => exact ⟨same_setIntegrationTime _ h, rfl⟩
    · rw [if_neg hi, if_neg hi]
      exact ⟨h, rfl⟩

theorem same_lower {s t : Sensor} (l : Search) (h : SameUpToWrites s t) :
    SameOutcome (lower s l) (lower t l) := by
  unfold lower
  by_cases hg : l.newGain > 0
  · rw [if_pos hg, if_pos hg]
    cases index gain_array (l.newGain - 1) with
    | error e => exact rfl
    | ok label => exact ⟨same_setSensitivityMode _ h, rfl⟩
  · rw [if_neg hg, if_neg hg]
    by_cases hi : l.newIntegration > 0
    · rw [if_pos hi, if_pos hi]
      cases index integration_array (l.newIntegration - 1) with
      | error e => exact rfl
      | ok label => exact ⟨same_setIntegrationTime _ h, rfl⟩
    · rw [if_neg hi, if_neg hi]
      exact ⟨h, rfl⟩

theorem same_resample {s t : Sensor} (b l : Search) (h : SameUpToWrites s t) :
    SameUpToWrites (resample b s l).1 (resample b t l).1
      ∧ (resample b s l).2 = (resample b t l).2 := by
  have h1 := same_getAmbientLight
    (same_delay (25 * 2 ^ (l.newIntegration + 1)) (same_powerOn h))
  refine ⟨h1.2, ?_⟩
  simp only [resample]
  rw [h1.1]

/-- From two results of a setting change that end the same way: both fail alike, or
both return with the same local variables. -/
theorem same_outcome_cases {a b : Except Fault (Sensor × Search)} (h : SameOutcome a b) :
    (∃ e, a = .error e ∧ b = .error e)
      ∨ (∃ s t l, a = .ok (s, l) ∧ b = .ok (t, l) ∧ SameUpToWrites s t) := by
  rcases a with e | ⟨s, l⟩ <;> rcases b with f | ⟨t, m⟩
  · exact Or.inl ⟨e, rfl, by rw [show e = f from h]⟩
  · exact absurd h id
  · exact absurd h id
  · obtain ⟨h1, h2⟩ : SameUpToWrites s t ∧ l = m := h
    subst h2
    exact Or.inr ⟨s, t, l, rfl, rfl, h1⟩

theorem same_tooLowLoop (fuel : Nat) : ∀ {s t : Sensor} (l : Search),
    SameUpToWrites s t → SameOutcome (tooLowLoop fuel s l) (tooLowLoop fuel t l) := by
  induction fuel with
  | zero => intro s t l _; exact rfl
  | succ n ih =>
    intro s t l h
    unfold tooLowLoop
    by_cases hc : l.newIntegration = 5 ∧ l.newGain = 3
    · rw [if_pos hc, if_pos hc]
      exact ⟨h, rfl⟩
    · rw [if_neg hc, if_neg hc]
      rcases same_outcome_cases
          (same_raise l (same_delay (25 * 2 ^ l.newIntegration) (same_shutdown h))) with
        ⟨e, h1, h2⟩ | ⟨s1, t1, l1, h1, h2, h3⟩
      · rw [h1, h2]; exact rfl
      · rw [h1, h2]
        simp only
        obtain ⟨h4, h5⟩ := same_resample l l1 h3
        rw [← h5]
        by_cases ha : (resample l s1 l1).2.ambient ≤ 100
        · rw [if_pos ha, if_pos ha]
          exact ih _ h4
        · rw [if_neg ha, if_neg ha]
          exact ⟨h4, h5⟩

theorem same_tooHighLoop (fuel : Nat) : ∀ {s t : Sensor} (l : Search),
    SameUpToWrites s t → SameOutcome (tooHighLoop fuel s l) (tooHighLoop fuel t l) := by
  induction fuel with
  | zero => intro s t l _; exact rfl
  | succ n ih =>
    intro s t l h
    unfold tooHighLoop
    by_cases hc : l.newIntegration = 0 ∧ l.newGain = 0
    · rw [if_pos hc, if_pos hc]
      exact ⟨h, rfl⟩
    · rw [if_neg hc, if_neg hc]
      rcases same_outcome_cases
          (same_lower l (same_delay (25 * 2 ^ l.newIntegration) (same_shutdown h))) with
        ⟨e, h1, h2⟩ | ⟨s1, t1, l1, h1, h2, h3⟩
      · rw [h1, h2]; exact rfl
      · rw [h1, h2]
        simp only
        obtain ⟨h4, h5⟩ := same_resample l l1 h3
        rw [← h5]
        by_cases ha : (resample l s1 l1).2.ambient > 10000
        · rw [if_pos ha, if_pos ha]
          exact ih _ h4
        · rw [if_neg ha, if_neg ha]
          exact ⟨h4, h5⟩

theorem same_searchLoop (fuel : Nat) : ∀ {s t : Sensor} (l : Search),
    SameUpToWrites s t → SameOutcome (searchLoop fuel s l) (searchLoop fuel t l) := by
  induction fuel with
  | zero =>
    intro s t l h
    unfold searchLoop
    by_cases hc : l.maxed = false ∧ (l.ambient ≤ 100 ∨ l.ambient > 10000)
    · rw [if_pos hc, if_pos hc]; exact rfl
    · rw [if_neg hc, if_neg hc]; exact ⟨h, rfl⟩
  | succ n ih =>
    intro s t l h
    unfold searchLoop
    by_cases hc : l.maxed = false ∧ (l.ambient ≤ 100 ∨ l.ambient > 10000)
    · rw [if_pos hc, if_pos hc]
      have hrun : SameOutcome
          (if l.ambient ≤ 100 then tooLowLoop (n + 1) s l else tooHighLoop (n + 1) s l)
          (if l.ambient ≤ 100 then tooLowLoop (n + 1) t l else tooHighLoop (n + 1) t l) := by
        by_cases hd : l.ambient ≤ 100
        · rw [if_pos hd, if_pos hd]; exact same_tooLowLoop _ l h
        · rw [if_neg hd, if_neg hd]; exact same_tooHighLoop _ l h
      rcases same_outcome_cases hrun with ⟨e, h1, h2⟩ | ⟨s1, t1, l1, h1, h2, h3⟩
      · rw [h1, h2]; exact rfl
      · rw [h1, h2]
        exact ih l1 h3
    · rw [if_neg hc, if_neg hc]; exact ⟨h, rfl⟩

theorem same_resetTrial {s t : Sensor} (l : Search) (h : SameUpToWrites s t) :
    SameOutcome (resetTrial s l) (resetTrial t l) := by
  unfold resetTrial
  cases index integration_array 2 with
  | error e => exact rfl
  | ok label =>
    simp only
    have h1 := same_getAmbientLight (same_delay (25 * 2 ^ (2 + 1)) (same_powerOn
      (same_setIntegrationTime (mapAt integrations label)
        (same_delay (25 * 2 ^ l.newIntegration) (same_shutdown h)))))
    refine ⟨h1.2, ?_⟩
    rw [h1.1]

theorem same_enter {s t : Sensor} (h : SameUpToWrites s t)
    (hg : s.VEML_sensor.sensitivityMode = t.VEML_sensor.sensitivityMode)
    (hi : s.VEML_sensor.integrationTime = t.VEML_sensor.integrationTime) :
    SameOutcome (enter s) (enter t) := by
  have h1 := same_getAmbientLight h
  have hg' : (getAmbientLight s).2.VEML_sensor.sensitivityMode
      = (getAmbientLight t).2.VEML_sensor.sensitivityMode := hg
  have hi' : (getAmbientLight s).2.VEML_sensor.integrationTime
      = (getAmbientLight t).2.VEML_sensor.integrationTime := hi
  unfold enter
  simp only
  rw [← h1.1, ← hg', ← hi']
  split
  · split
    · exact ⟨h1.2, rfl⟩
    · exact same_resetTrial _ h1.2
  · exact ⟨h1.2, rfl⟩

theorem same_updateSettings {s t : Sensor} (l : Search) (h : SameUpToWrites s t) :
    SameOutcome (updateSettings s l) (updateSettings t l) := by
  unfold updateSettings
  cases index integration_array l.newIntegration with
  | error e => exact rfl
  | ok integration =>
    cases index gain_array l.newGain with
    | error e => exact rfl
    | ok gain =>
      refine ⟨?_, rfl⟩
      unfold SameUpToWrites at *
      simp_all

/-- C5 (amended). `adjustSensitivity` never looks at the result of a setGain or
setIntegration call: with the same registers and readings on entry, a pass over any
other script of write results ends the same way as the pass over the given one (the
same fault, or a return with the same tracked indices, the same steps, the same calls
logged in the same order, and the same `sensor_config`). A failed write therefore does
not abort the pass, no error is reported, and `sensor_config` is overwritten with the
labels of the final tracked indices exactly as when every write succeeds. -/
theorem adjustSensitivity_ignores_write_results (fuel : Nat) (s : Sensor)
    (acks : Nat → Bool) :
    SameOutcome (adjustSensitivity fuel s)
      (adjustSensitivity fuel { s with VEML_sensor := { s.VEML_sensor with acks := acks } }) := by
  have h0 : SameUpToWrites s { s with VEML_sensor := { s.VEML_sensor with acks := acks } } :=
    ⟨rfl, rfl, rfl, rfl, rfl, rfl, rfl, rfl, rfl⟩
  unfold adjustSensitivity
  rcases same_outcome_cases (same_enter h0 rfl rfl) with ⟨e, h1, h2⟩ | ⟨s1, t1, l1, h1, h2, h3⟩
  · rw [h1, h2]; exact rfl
  · rw [h1, h2]
    simp only
    rcases same_outcome_cases (same_searchLoop fuel l1 h3) with
      ⟨e, h4, h5⟩ | ⟨s2, t2, l2, h4, h5, h6⟩
    · rw [h4, h5]; exact rfl
    · rw [h4, h5]
      exact same_updateSettings l2 h6

/-- C5 (as stated) fails. On a bus where every write fails, the pass that starts in the
dark at gain 1/4x issues the reset-trial write, which fails, then two more gain writes,
and overwrites the gain in `sensor_config` ("1/4x" before, "2x" after). -/
theorem adjustSensitivity_deadBus_keeps_writing :
    ∃ s' l, adjustSensitivity 3 deadBus = .ok (s', l)
      ∧ s'.log = [.getAmbientLight 50, .shutdown, .delay 100, .setIntegrationTime 2 false,
          .powerOn, .delay 200, .getAmbientLight 50, .shutdown, .delay 100,
          .setSensitivityMode 0 false, .powerOn, .delay 200, .getAmbientLight 50, .shutdown,
          .delay 100, .setSensitivityMode 1 false, .powerOn, .delay 200,
          .getAmbientLight 5000]
      ∧ deadBus.sensor_config.gain = "1/4x" ∧ s'.sensor_config.gain = "2x"
      ∧ ¬ AbortsOnFailedWrite deadBus s' := by
  refine ⟨_, _, rfl, by decide, by decide, by decide, ?_⟩
  intro h
  have h1 := h [.getAmbientLight 50, .shutdown, .delay 100]
    [.powerOn, .delay 200, .getAmbientLight 50, .shutdown, .delay 100,
      .setSensitivityMode 0 false, .powerOn, .delay 200, .getAmbientLight 50, .shutdown,
      .delay 100, .setSensitivityMode 1 false, .powerOn, .delay 200, .getAmbientLight 5000]
    (.setIntegrationTime 2 false) (by decide) rfl
  exact absurd h1.1 (by decide)

/-! ## C6: when the lux value is compensated -/

theorem raise_invariant {I : Sensor → Prop} (hI : PortInvariant I) {s s1 : Sensor}
    {l l1 : Search} (h : raise s l = .ok (s1, l1)) (hs : I s) : I s1 := by
  rcases raise_ok h with ⟨_, ⟨c, rfl⟩, _⟩ | ⟨_, _, ⟨c, rfl⟩, _⟩ | ⟨_, _, rfl, _⟩
  · exact hI.setSensitivityMode _ _ hs
  · exact hI.setIntegrationTime _ _ hs
  · exact hs

theorem lower_invariant {I : Sensor → Prop} (hI : PortInvariant I) {s s1 : Sensor}
    {l l1 : Search} (h : lower s l = .ok (s1, l1)) (hs : I s) : I s1 := by
  rcases lower_ok h with ⟨_, ⟨c, rfl⟩, _⟩ | ⟨_, _, ⟨c, rfl⟩, _⟩ | ⟨_, _, rfl, _⟩
  · exact hI.setSensitivityMode _ _ hs
  · exact hI.setIntegrationTime _ _ hs
  · exact hs

theorem resample_invariant {I : Sensor → Prop} (hI : PortInvariant I) (b : Search)
    (s : Sensor) (l : Search) (hs : I s) : I (resample b s l).1 :=
  hI.getAmbientLight _ (hI.delay _ _ (hI.powerOn _ hs))

theorem tooLowLoop_invariant {I : Sensor → Prop} (hI : PortInvariant I) (fuel : Nat) :
    ∀ {s s' : Sensor} {l l' : Search}, tooLowLoop fuel s l = .ok (s', l') → I s → I s' := by
  induction fuel with
  | zero => intro s s' l l' h; simp [tooLowLoop] at h
  | succ n ih =>
    intro s s' l l' h hs
    unfold tooLowLoop at h
    split at h
    · injection h with h
      injection h with h1 h2
      subst h1
      exact hs
    · split at h
      · cases h
      · rename_i s1 l1 hr
        have h1 := resample_invariant hI l s1 l1
          (raise_invariant hI hr (hI.delay _ _ (hI.shutdown _ hs)))
        simp only at h
        split at h
        · exact ih h h1
        · injection h with h
          have e1 : s' = (resample l s1 l1).1 := by rw [h]
          subst e1
          exact h1

theorem tooHighLoop_invariant {I : Sensor → Prop} (hI : PortInvariant I) (fuel : Nat) :
    ∀ {s s' : Sensor} {l l' : Search}, tooHighLoop fuel s l = .ok (s', l') → I s → I s' := by
  induction fuel with
  | zero => intro s s' l l' h; simp [tooHighLoop] at h
  | succ n ih =>
    intro s s' l l' h hs
    unfold tooHighLoop at h
    split at h
    · injection h with h
      injection h with h1 h2
      subst h1
      exact hs
    · split at h
      · cases h
      · rename_i s1 l1 hr
        have h1 := resample_invariant hI l s1 l1
          (lower_invariant hI hr (hI.delay _ _ (hI.shutdown _ hs)))
        simp only at h
        split at h
        · exact ih h h1
        · injection h with h
          have e1 : s' = (resample l s1 l1).1 := by rw [h]
          subst e1
          exact h1

theorem searchLoop_invariant {I : Sensor → Prop} (hI : PortInvariant I) (fuel : Nat) :
    ∀ {s s' : Sensor} {l l' : Search}, searchLoop fuel s l = .ok (s', l') → I s → I s' := by
  induction fuel with
  | zero =>
    intro s s' l l' h hs
    unfold searchLoop at h
    split at h
    · cases h
    · injection h with h
      injection h with h1 h2
      subst h1
      exact hs
  | succ n ih =>
    intro s s' l l' h hs
    unfold searchLoop at h
    split at h
    · split at h
      · cases h
      · rename_i s1 l1 hrun
        refine ih h ?_
        split at hrun
        · exact tooLowLoop_invariant hI _ hrun hs
        · exact tooHighLoop_invariant hI _ hrun hs
    · injection h with h
      injection h with h1 h2
      subst h1
      exact hs

theorem enter_invariant {I : Sensor → Prop} (hI : PortInvariant I) {s s1 : Sensor}
    {l1 : Search} (h : enter s = .ok (s1, l1)) (hs : I s) : I s1 := by
  have h0 := hI.getAmbientLight s hs
  unfold enter at h
  simp only at h
  split at h
  · split at h
    · injection h with h
      injection h with h1 h2
      subst h1
      exact h0
    · unfold resetTrial at h
      split at h
      · cases h
      · rename_i label _
        injection h with h
        injection h with h1 h2
        subst h1
        exact hI.getAmbientLight _ (hI.delay _ _ (hI.powerOn _
          (hI.setIntegrationTime _ _ (hI.delay _ _ (hI.shutdown _ h0)))))
  · injection h with h
    injection h with h1 h2
    subst h1
    exact h0

/-- What `adjustSensitivity` does not touch: the lux and white values of the device, the
persistence register, the channels, the name, the store, and in `sensor_config`
everything but gain and integration. -/
theorem adjustSensitivity_frame {fuel : Nat} {s s' : Sensor} {l : Search}
    (h : adjustSensitivity fuel s = .ok (s', l)) :
    s'.VEML_sensor.lux = s.VEML_sensor.lux
      ∧ s'.VEML_sensor.whiteLevel = s.VEML_sensor.whiteLevel
      ∧ s'.VEML_sensor.persistenceProtect = s.VEML_sensor.persistenceProtect
      ∧ s'.values = s.values ∧ s'.name = s.name ∧ s'.storageOk = s.storageOk
      ∧ s'.sensor_config.autoAdjust = s.sensor_config.autoAdjust
      ∧ s'.sensor_config.persistence = s.sensor_config.persistence
      ∧ s'.sensor_config.luxCompensation = s.sensor_config.luxCompensation := by
  have hI : PortInvariant (fun x : Sensor =>
      x.VEML_sensor.lux = s.VEML_sensor.lux
        ∧ x.VEML_sensor.whiteLevel = s.VEML_sensor.whiteLevel
        ∧ x.VEML_sensor.persistenceProtect = s.VEML_sensor.persistenceProtect
        ∧ x.values = s.values ∧ x.name = s.name ∧ x.storageOk = s.storageOk
        ∧ x.sensor_config = s.sensor_config) :=
    ⟨fun _ h => h, fun _ h => h, fun _ _ h => h, fun _ _ h => h, fun _ _ h => h, fun _ h => h⟩
  unfold adjustSensitivity at h
  split at h
  · cases h
  · rename_i s1 l1 he
    split at h
    · cases h
    · rename_i s2 l2 hs
      have h2 := searchLoop_invariant hI fuel hs
        (enter_invariant hI he ⟨rfl, rfl, rfl, rfl, rfl, rfl, rfl⟩)
      obtain ⟨a1, a2, a3, a4, a5, a6, a7⟩ := h2
      obtain ⟨_, _, b1, _, _, b2, b3, b4, b5, b6, b7⟩ := updateSettings_ok h
      rw [b1]
      exact ⟨a1, a2, a3, by rw [b6, a4], by rw [b5, a5], by rw [b7, a6], by rw [b2, a7],
        by rw [b3, a7], by rw [b4, a7]⟩

/-- What the channel reads of `takeMeasurement` produce: true is returned, nothing of
`sensor_config` or the device values changes, and the lux channel holds the device lux,
compensated when the condition of line 41 holds. -/
theorem readChannels_ok {rnd : ℚ → ℚ} {s s' : Sensor} {ok : Bool}
    (h : readChannels rnd s = .ok (ok, s')) :
    ok = true ∧ s'.sensor_config = s.sensor_config
      ∧ s'.VEML_sensor.lux = s.VEML_sensor.lux
      ∧ s'.values[2]? = some
          (if compensationApplies s.sensor_config s.VEML_sensor.lux
            then compensate rnd s.VEML_sensor.lux else s.VEML_sensor.lux) := by
  unfold readChannels at h
  simp only at h
  split at h
  · cases h
  · rename_i v0 h0
    split at h
    · cases h
    · rename_i v1 h1
      split at h
      · cases h
      · rename_i v2 h2
        injection h with h
        injection h with e1 e2
        subst e1 e2
        refine ⟨rfl, rfl, rfl, ?_⟩
        unfold assignValue at h2
        split at h2
        · rename_i hlen
          injection h2 with h2
          subst h2
          exact List.getElem?_set_self hlen
        · cases h2

theorem compensationApplies_iff (c : SensorConfig) (lux : ℚ) :
    compensationApplies c lux = true ↔
      (c.luxCompensation = true ∧ (lux > 1000 ∨ c.gain = "1/8x" ∨ c.gain = "1/4x")) := by
  simp [compensationApplies, or_assoc]

/-- What `takeMeasurement` returns: the lux channel holds the device lux, compensated
when the condition of line 41 holds of the `sensor_config` in force after the optional
adjustment. -/
theorem takeMeasurement_ok {rnd : ℚ → ℚ} {fuel : Nat} {s s' : Sensor} {ok : Bool}
    (h : takeMeasurement rnd fuel s = .ok (ok, s')) :
    ok = true ∧ s'.VEML_sensor.lux = s.VEML_sensor.lux
      ∧ s'.sensor_config.luxCompensation = s.sensor_config.luxCompensation
      ∧ (s.sensor_config.autoAdjust = false → s'.sensor_config = s.sensor_config)
      ∧ s'.values[2]? = some
          (if compensationApplies s'.sensor_config s.VEML_sensor.lux
            then compensate rnd s.VEML_sensor.lux else s.VEML_sensor.lux) := by
  unfold takeMeasurement at h
  split at h
  · rename_i hauto
    split at h
    · cases h
    · rename_i s1 l1 ha
      obtain ⟨h1, h2, h3, h4⟩ := readChannels_ok h
      have hf := adjustSensitivity_frame ha
      refine ⟨h1, by rw [h3, hf.1], by rw [h2]; exact hf.2.2.2.2.2.2.2.2, ?_, ?_⟩
      · intro hoff
        rw [hoff] at hauto
        cases hauto
      · rw [h4, h2, hf.1]
  · obtain ⟨h1, h2, h3, h4⟩ := readChannels_ok h
    exact ⟨h1, h3, by rw [h2], fun _ => h2, by rw [h4, h2]⟩

/-- With three channels allocated the channel reads return. -/
theorem readChannels_returns (rnd : ℚ → ℚ) (s : Sensor) (hlen : 3 ≤ s.values.length) :
    ∃ s', readChannels rnd s = .ok (true, s') := by
  have h0 : 0 < s.values.length := by omega
  have h1 : 1 < s.values.length := by omega
  have h2 : 2 < s.values.length := by omega
  simp [readChannels, assignValue, getAmbientLight, emit, h0, h1, h2]

/-- With three channels allocated `takeMeasurement` returns true: for any fuel when
autoAdjust is off; when it is on, from a valid applied state, with readings that do not
change side after the entry sample and fuel of at least 7. -/
theorem takeMeasurement_returns (rnd : ℚ → ℚ) (fuel : Nat) (s : Sensor)
    (hlen : 3 ≤ s.values.length)
    (hrun : s.sensor_config.autoAdjust = false
      ∨ (s.VEML_sensor.sensitivityMode < 4 ∧ s.VEML_sensor.integrationTime < 6
          ∧ SteadySide s.VEML_sensor.ambientFeed ∧ 7 ≤ fuel)) :
    ∃ s', takeMeasurement rnd fuel s = .ok (true, s') := by
  cases ha : s.sensor_config.autoAdjust
  · unfold takeMeasurement
    simp only [ha]
    exact readChannels_returns rnd s hlen
  · rcases hrun with hoff | ⟨hg, hi, hsteady, hfuel⟩
    · rw [ha] at hoff; cases hoff
    · obtain ⟨s1, l1, h1⟩ := adjustSensitivity_returns_steady fuel s hg hi hsteady hfuel
      have hv : 3 ≤ s1.values.length := by
        rw [(adjustSensitivity_frame h1).2.2.2.1]; exact hlen
      obtain ⟨s2, h2⟩ := readChannels_returns rnd s1 hv
      refine ⟨s2, ?_⟩
      unfold takeMeasurement
      simp only [ha, h1]
      exact h2

/-- C6. For every device lux value and every `sensor_config`, when `takeMeasurement`
returns, the lux channel holds the corrected value exactly when luxCompensation is
enabled and (lux > 1000 or gain is "1/8x" or gain is "1/4x"), and the device lux
unchanged otherwise. The gain is that of `sensor_config` when line 41 runs: the gain on
entry when autoAdjust is off, the gain stored by the adjustment when it is on. In
particular, with compensation enabled, (lux 1500, gain 1x) is corrected, (lux 500,
gain 1x) is not, (lux 500, gain 1/8x) is, and nothing is corrected for gain 1x or 2x at
lux <= 1000. And `takeMeasurement` does return true once the three channels are
allocated: always when autoAdjust is off, and when it is on from a valid applied state
with readings that do not change side and fuel of at least 7. -/
theorem takeMeasurement_compensates_exactly_when (rnd : ℚ → ℚ) (fuel : Nat) (s : Sensor) :
    (∀ ok s', takeMeasurement rnd fuel s = .ok (ok, s') →
      s'.sensor_config.luxCompensation = s.sensor_config.luxCompensation
      ∧ (s.sensor_config.autoAdjust = false → s'.sensor_config.gain = s.sensor_config.gain)
      ∧ ((s'.sensor_config.luxCompensation = true
            ∧ (s.VEML_sensor.lux > 1000 ∨ s'.sensor_config.gain = "1/8x"
                ∨ s'.sensor_config.gain = "1/4x")) →
          s'.values[2]? = some (compensate rnd s.VEML_sensor.lux))
      ∧ (¬ (s'.sensor_config.luxCompensation = true
            ∧ (s.VEML_sensor.lux > 1000 ∨ s'.sensor_config.gain = "1/8x"
                ∨ s'.sensor_config.gain = "1/4x")) →
          s'.values[2]? = some s.VEML_sensor.lux)
      ∧ (s'.sensor_config.luxCompensation = true → s'.sensor_config.gain = "1x" →
          s.VEML_sensor.lux = 1500 → s'.values[2]? = some (compensate rnd 1500))
      ∧ (s'.sensor_config.luxCompensation = true → s'.sensor_config.gain = "1x" →
          s.VEML_sensor.lux = 500 → s'.values[2]? = some 500)
      ∧ (s'.sensor_config.luxCompensation = true → s'.sensor_config.gain = "1/8x" →
          s.VEML_sensor.lux = 500 → s'.values[2]? = some (compensate rnd 500))
      ∧ (s'.sensor_config.luxCompensation = true →
          (s'.sensor_config.gain = "1x" ∨ s'.sensor_config.gain = "2x") →
          s.VEML_sensor.lux ≤ 1000 → s'.values[2]? = some s.VEML_sensor.lux))
    ∧ (3 ≤ s.values.length →
        (s.sensor_config.autoAdjust = false
          ∨ (s.VEML_sensor.sensitivityMode < 4 ∧ s.VEML_sensor.integrationTime < 6
              ∧ SteadySide s.VEML_sensor.ambientFeed ∧ 7 ≤ fuel)) →
        ∃ s', takeMeasurement rnd fuel s = .ok (true, s')) := by
  refine ⟨?_, takeMeasurement_returns rnd fuel s⟩
  intro ok s' h
  obtain ⟨_, _, h3, h4, h5⟩ := takeMeasurement_ok h
  have hyes : (s'.sensor_config.luxCompensation = true
      ∧ (s.VEML_sensor.lux > 1000 ∨ s'.sensor_config.gain = "1/8x"
          ∨ s'.sensor_config.gain = "1/4x")) →
      s'.values[2]? = some (compensate rnd s.VEML_sensor.lux) := by
    intro hc
    rw [h5, if_pos ((compensationApplies_iff _ _).mpr hc)]
  have hno : ¬ (s'.sensor_config.luxCompensation = true
      ∧ (s.VEML_sensor.lux > 1000 ∨ s'.sensor_config.gain = "1/8x"
          ∨ s'.sensor_config.gain = "1/4x")) →
      s'.values[2]? = some s.VEML_sensor.lux := by
    intro hc
    rw [h5, if_neg (fun hx => hc ((compensationApplies_iff _ _).mp hx))]
  refine ⟨h3, fun hoff => by rw [h4 hoff], hyes, hno, ?_, ?_, ?_, ?_⟩
  · intro hc _ hl
    rw [← hl]
    exact hyes ⟨hc, Or.inl (by rw [hl]; norm_num)⟩
  · intro _ hg hl
    rw [← hl]
    refine hno ?_
    rintro ⟨_, hx | hx | hx⟩
    · rw [hl] at hx; norm_num at hx
    · rw [hg] at hx; exact absurd hx (by decide)
    · rw [hg] at hx; exact absurd hx (by decide)
  · intro hc hg hl
    rw [← hl]
    exact hyes ⟨hc, Or.inr (Or.inl hg)⟩
  · intro _ hg hl
    refine hno ?_
    rintro ⟨_, hx | hx | hx⟩
    · exact absurd hx (not_lt.mpr hl)
    · rcases hg with hg | hg <;> rw [hg] at hx <;> exact absurd hx (by decide)
    · rcases hg with hg | hg <;> rw [hg] at hx <;> exact absurd hx (by decide)

/-- On the clear day (1500 lx, gain 1x, compensation on, autoAdjust off)
`takeMeasurement` returns and the lux channel holds the corrected value, which is not
the device lux. -/
theorem takeMeasurement_compensates_exactly_when_witness :
    3 ≤ clearDay.values.length ∧ clearDay.sensor_config.autoAdjust = false
      ∧ (∃ s', takeMeasurement id 0 clearDay = .ok (true, s')
          ∧ s'.values[2]? = some (compensate id 1500) ∧ compensate id 1500 ≠ 1500)
      ∧ ∀ ok s', takeMeasurement id 0 clearDay = .ok (ok, s') →
          s'.sensor_config.luxCompensation = true → s'.sensor_config.gain = "1x" →
          clearDay.VEML_sensor.lux = 1500 → s'.values[2]? = some (compensate id 1500) :=
  ⟨by decide, rfl,
    ((takeMeasurement_compensates_exactly_when id 0 clearDay).2 (by decide) (Or.inl rfl)).elim
      fun s' h => ⟨s', h,
        ((takeMeasurement_compensates_exactly_when id 0 clearDay).1 true s' h).2.2.1
          ⟨by
            rw [((takeMeasurement_compensates_exactly_when id 0 clearDay).1 true s' h).1]
            rfl, Or.inl (by norm_num [clearDay])⟩,
        by norm_num [compensate]⟩,
    fun ok s' h => ((takeMeasurement_compensates_exactly_when id 0 clearDay).1 ok s' h).2.2.2.2.1⟩

/-! ## C7: the quartic -/

/-- A rounding with relative error at most 2^-53 moves a value known to lie in an
interval by at most the 2^-53 part of the largest magnitude in the interval. -/
theorem rnd_between {rnd : ℚ → ℚ} (hr : ∀ q, |rnd q - q| ≤ |q| / 2 ^ 53) {q lo hi M : ℚ}
    (h1 : lo ≤ q) (h2 : q ≤ hi) (hM1 : -M ≤ lo) (hM2 : hi ≤ M) :
    lo - M / 2 ^ 53 ≤ rnd q ∧ rnd q ≤ hi + M / 2 ^ 53 := by
  have hq : |q| ≤ M := abs_le.mpr ⟨by linarith, by linarith⟩
  have h := (hr q).trans (div_le_div_of_nonneg_right hq (by positivity))
  rw [abs_le] at h
  constructor <;> linarith [h.1, h.2]

/-- With roundings of relative error at most 2^-53 the correction of 100 lx is within
1e-13 of the exact quartic. -/
theorem compensate_100_close {rnd : ℚ → ℚ} (hr : ∀ q, |rnd q - q| ≤ |q| / 2 ^ 53) :
    |compensate rnd 100 - quartic 100| ≤ 1e-13 := by
  have hq : quartic 100 = 101.035547735 := by norm_num [quartic]
  have a4 := rnd_between hr (le_refl (6.0135e-13 : ℚ)) (le_refl _)
    (show -(1e-12 : ℚ) ≤ _ by norm_num) (show _ ≤ (1e-12 : ℚ) by norm_num)
  have a3 := rnd_between hr (le_refl (9.3924e-9 : ℚ)) (le_refl _)
    (show -(1e-8 : ℚ) ≤ _ by norm_num) (show _ ≤ (1e-8 : ℚ) by norm_num)
  have a2 := rnd_between hr (le_refl (8.1488e-5 : ℚ)) (le_refl _)
    (show -(1e-4 : ℚ) ≤ _ by norm_num) (show _ ≤ (1e-4 : ℚ) by norm_num)
  have a1 := rnd_between hr (le_refl (1.0023 : ℚ)) (le_refl _)
    (show -(2 : ℚ) ≤ _ by norm_num) (show _ ≤ (2 : ℚ) by norm_num)
  have t1 := rnd_between hr
    (show (6.0135e-11 - 1e-25 : ℚ) ≤ rnd 6.0135e-13 * 100 by linarith [a4.1])
    (show rnd 6.0135e-13 * 100 ≤ (6.0135e-11 + 1e-25 : ℚ) by linarith [a4.2])
    (show -(1e-10 : ℚ) ≤ _ by norm_num) (show _ ≤ (1e-10 : ℚ) by norm_num)
  have t2 := rnd_between hr
    (show (-9.332265e-9 - 1e-23 : ℚ) ≤ rnd (rnd 6.0135e-13 * 100) - rnd 9.3924e-9 by
      linarith [t1.1, a3.2])
    (show rnd (rnd 6.0135e-13 * 100) - rnd 9.3924e-9 ≤ (-9.332265e-9 + 1e-23 : ℚ) by
      linarith [t1.2, a3.1])
    (show -(1e-8 : ℚ) ≤ _ by norm_num) (show _ ≤ (1e-8 : ℚ) by norm_num)
  have t3 := rnd_between hr
    (show (-9.332265e-7 - 1e-20 : ℚ)
        ≤ rnd (rnd (rnd 6.0135e-13 * 100) - rnd 9.3924e-9) * 100 by linarith [t2.1])
    (show rnd (rnd (rnd 6.0135e-13 * 100) - rnd 9.3924e-9) * 100
        ≤ (-9.332265e-7 + 1e-20 : ℚ) by linarith [t2.2])
    (show -(1e-6 : ℚ) ≤ _ by norm_num) (show _ ≤ (1e-6 : ℚ) by norm_num)
  have t4 := rnd_between hr
    (show (8.05547735e-5 - 1e-19 : ℚ)
        ≤ rnd (rnd (rnd (rnd 6.0135e-13 * 100) - rnd 9.3924e-9) * 100) + rnd 8.1488e-5 by
      linarith [t3.1, a2.1])
    (show rnd (rnd (rnd (rnd 6.0135e-13 * 100) - rnd 9.3924e-9) * 100) + rnd 8.1488e-5
        ≤ (8.05547735e-5 + 1e-19 : ℚ) by linarith [t3.2, a2.2])
    (show -(1e-4 : ℚ) ≤ _ by norm_num) (show _ ≤ (1e-4 : ℚ) by norm_num)
  have t5 := rnd_between hr
    (show (8.05547735e-3 - 1e-16 : ℚ)
        ≤ rnd (rnd (rnd (rnd (rnd 6.0135e-13 * 100) - rnd 9.3924e-9) * 100)
            + rnd 8.1488e-5) * 100 by linarith [t4.1])
    (show rnd (rnd (rnd (rnd (rnd 6.0135e-13 * 100) - rnd 9.3924e-9) * 100)
            + rnd 8.1488e-5) * 100 ≤ (8.05547735e-3 + 1e-16 : ℚ) by linarith [t4.2])
    (show -(1e-2 : ℚ) ≤ _ by norm_num) (show _ ≤ (1e-2 : ℚ) by norm_num)
  have t6 := rnd_between hr
    (show (1.01035547735 - 4e-16 : ℚ)
        ≤ rnd (rnd (rnd (rnd (rnd (rnd 6.0135e-13 * 100) - rnd 9.3924e-9) * 100)
            + rnd 8.1488e-5) * 100) + rnd 1.0023 by linarith [t5.1, a1.1])
    (show rnd (rnd (rnd (rnd (rnd (rnd 6.0135e-13 * 100) - rnd 9.3924e-9) * 100)
            + rnd 8.1488e-5) * 100) + rnd 1.0023 ≤ (1.01035547735 + 4e-16 : ℚ) by
      linarith [t5.2, a1.2])
    (show -(2 : ℚ) ≤ _ by norm_num) (show _ ≤ (2 : ℚ) by norm_num)
  have t7 := rnd_between hr
    (show (101.035547735 - 7e-14 : ℚ)
        ≤ rnd (rnd (rnd (rnd (rnd (rnd (rnd 6.0135e-13 * 100) - rnd 9.3924e-9) * 100)
            + rnd 8.1488e-5) * 100) + rnd 1.0023) * 100 by linarith [t6.1])
    (show rnd (rnd (rnd (rnd (rnd (rnd (rnd 6.0135e-13 * 100) - rnd 9.3924e-9) * 100)
            + rnd 8.1488e-5) * 100) + rnd 1.0023) * 100 ≤ (101.035547735 + 7e-14 : ℚ) by
      linarith [t6.2])
    (show -(200 : ℚ) ≤ _ by norm_num) (show _ ≤ (200 : ℚ) by norm_num)
  rw [hq, abs_le]
  unfold compensate
  constructor <;> linarith [t7.1, t7.2]

/-- C7. Whenever compensation is applied to a device lux value x, the lux channel
written by `takeMeasurement` is the Horner-form quartic of line 42 evaluated in the
arithmetic of the platform; in exact (rational) arithmetic, that is when the rounding
is the identity, it equals
(((6.0135e-13*x - 9.3924e-9)*x + 8.1488e-5)*x + 1.0023)*x; and for x = 100, with any
rounding of relative error at most 2^-53 (IEEE double), it is within 1e-9 of
(((6.0135e-13*100 - 9.3924e-9)*100 + 8.1488e-5)*100 + 1.0023)*100. And `takeMeasurement`
does return true once the three channels are allocated: always when autoAdjust is off,
and when it is on from a valid applied state with readings that do not change side and
fuel of at least 7. -/
theorem takeMeasurement_writes_quartic (rnd : ℚ → ℚ) (fuel : Nat) (s : Sensor) :
    (∀ ok s', takeMeasurement rnd fuel s = .ok (ok, s') →
      (s'.sensor_config.luxCompensation = true
        ∧ (s.VEML_sensor.lux > 1000 ∨ s'.sensor_config.gain = "1/8x"
            ∨ s'.sensor_config.gain = "1/4x")) →
      s'.values[2]? = some (compensate rnd s.VEML_sensor.lux)
        ∧ ((∀ q, rnd q = q) →
            s'.values[2]? = some
              ((((6.0135e-13 * s.VEML_sensor.lux - 9.3924e-9) * s.VEML_sensor.lux + 8.1488e-5)
                * s.VEML_sensor.lux + 1.0023) * s.VEML_sensor.lux))
        ∧ ((∀ q, |rnd q - q| ≤ |q| / 2 ^ 53) → s.VEML_sensor.lux = 100 →
            ∃ y : ℚ, s'.values[2]? = some y
              ∧ |y - (((6.0135e-13 * 100 - 9.3924e-9) * 100 + 8.1488e-5) * 100 + 1.0023) * 100|
                  ≤ 1e-9))
    ∧ (3 ≤ s.values.length →
        (s.sensor_config.autoAdjust = false
          ∨ (s.VEML_sensor.sensitivityMode < 4 ∧ s.VEML_sensor.integrationTime < 6
              ∧ SteadySide s.VEML_sensor.ambientFeed ∧ 7 ≤ fuel)) →
        ∃ s', takeMeasurement rnd fuel s = .ok (true, s')) := by
  refine ⟨?_, takeMeasurement_returns rnd fuel s⟩
  intro ok s' h happ
  obtain ⟨_, _, _, _, h5⟩ := takeMeasurement_ok h
  have hval : s'.values[2]? = some (compensate rnd s.VEML_sensor.lux) := by
    rw [h5, if_pos ((compensationApplies_iff _ _).mpr happ)]
  refine ⟨hval, ?_, ?_⟩
  · intro hexact
    rw [hval]
    simp only [compensate, hexact]
  · intro hr hx
    refine ⟨_, hval, ?_⟩
    rw [hx]
    have := compensate_100_close hr
    unfold quartic at this
    exact this.trans (by norm_num)

/-- In the dim room (100 lx, gain 1/8x, compensation on, autoAdjust off), in exact
arithmetic, `takeMeasurement` returns and the lux channel holds 101.035547735. -/
theorem takeMeasurement_writes_quartic_witness :
    3 ≤ dimRoom.values.length ∧ dimRoom.sensor_config.autoAdjust = false
      ∧ dimRoom.VEML_sensor.lux = 100
      ∧ ∃ s', takeMeasurement id 0 dimRoom = .ok (true, s')
          ∧ s'.sensor_config.luxCompensation = true ∧ s'.sensor_config.gain = "1/8x"
          ∧ s'.values[2]? = some (101.035547735 : ℚ)
          ∧ ∃ y : ℚ, s'.values[2]? = some y
              ∧ |y - (((6.0135e-13 * 100 - 9.3924e-9) * 100 + 8.1488e-5) * 100 + 1.0023) * 100|
                  ≤ 1e-9 :=
  ⟨by decide, rfl, rfl,
    ((takeMeasurement_writes_quartic id 0 dimRoom).2 (by decide) (Or.inl rfl)).elim
      fun s' h =>
        have hcfg : s'.sensor_config = dimRoom.sensor_config := (takeMeasurement_ok h).2.2.2.1 rfl
        have happ : s'.sensor_config.luxCompensation = true
            ∧ (dimRoom.VEML_sensor.lux > 1000 ∨ s'.sensor_config.gain = "1/8x"
                ∨ s'.sensor_config.gain = "1/4x") := by
          rw [hcfg]; exact ⟨rfl, Or.inr (Or.inl rfl)⟩
        have hq := (takeMeasurement_writes_quartic id 0 dimRoom).1 true s' h happ
        ⟨s', h, by rw [hcfg]; rfl, by rw [hcfg]; rfl,
          by rw [hq.2.1 (fun _ => rfl)]; norm_num [dimRoom],
          hq.2.2 (fun q => by simp only [id, sub_self, abs_zero]; positivity) rfl⟩⟩

/-! ## C8 and C9: already at an extreme -/

/-- C8. Starting with the device at gain 2x and integration 800 ms and an entry reading
<= 100, `adjustSensitivity` returns for any fuel with `maxed` set: the log gains nothing
but the entry sample (no power cycle, no setting write), no step is taken, the device
registers are as they were, and the state returned and stored is gain index 3 ("2x"),
integration index 5 ("800ms"). -/
theorem adjustSensitivity_maxed_at_top (fuel : Nat) (s : Sensor)
    (hg : s.VEML_sensor.sensitivityMode = VEML7700_SENSITIVITY_x2)
    (hi : s.VEML_sensor.integrationTime = VEML7700_INTEGRATION_800ms)
    (hdark : s.VEML_sensor.ambientFeed 0 % 65536 ≤ 100) :
    ∃ s' l, adjustSensitivity fuel s = .ok (s', l)
      ∧ l.maxed = true ∧ l.steps = []
      ∧ s'.log = s.log ++ [.getAmbientLight (s.VEML_sensor.ambientFeed 0 % 65536)]
      ∧ s'.VEML_sensor.sensitivityMode = VEML7700_SENSITIVITY_x2
      ∧ s'.VEML_sensor.integrationTime = VEML7700_INTEGRATION_800ms
      ∧ s'.VEML_sensor.powered = s.VEML_sensor.powered
      ∧ l.newGain = 3 ∧ l.newIntegration = 5
      ∧ s'.sensor_config.gain = "2x" ∧ s'.sensor_config.integration = "800ms" := by
  have he : enter s = .ok ((getAmbientLight s).2,
      { ambient := s.VEML_sensor.ambientFeed 0 % 65536, newIntegration := 5,
        newGain := 3, maxed := true, steps := [] }) := by
    unfold enter
    simp [getAmbientLight, emit, hg, hi, hdark, gainIndex, VEML7700_SENSITIVITY_x2,
      VEML7700_INTEGRATION_800ms]
  have hr : adjustSensitivity fuel s = updateSettings (getAmbientLight s).2
      { ambient := s.VEML_sensor.ambientFeed 0 % 65536, newIntegration := 5,
        newGain := 3, maxed := true, steps := [] } := by
    unfold adjustSensitivity
    rw [he]
    simp only
    rw [searchLoop_done fuel _ _ (Or.inl rfl)]
  exact ⟨_, _, hr.trans (updateSettings_eq _ (by rfl) (by rfl)),
    rfl, rfl, rfl, hg, hi, rfl, rfl, rfl, rfl, rfl⟩

/-- The sensor at gain 2x and 800 ms in the dark satisfies the hypotheses of C8. -/
theorem adjustSensitivity_maxed_at_top_witness :
    darkAtTop.VEML_sensor.sensitivityMode = VEML7700_SENSITIVITY_x2
      ∧ darkAtTop.VEML_sensor.integrationTime = VEML7700_INTEGRATION_800ms
      ∧ darkAtTop.VEML_sensor.ambientFeed 0 % 65536 ≤ 100
      ∧ ∃ s' l, adjustSensitivity 0 darkAtTop = .ok (s', l)
        ∧ l.maxed = true ∧ l.steps = []
        ∧ s'.log = darkAtTop.log
            ++ [.getAmbientLight (darkAtTop.VEML_sensor.ambientFeed 0 % 65536)]
        ∧ s'.VEML_sensor.sensitivityMode = VEML7700_SENSITIVITY_x2
        ∧ s'.VEML_sensor.integrationTime = VEML7700_INTEGRATION_800ms
        ∧ s'.VEML_sensor.powered = darkAtTop.VEML_sensor.powered
        ∧ l.newGain = 3 ∧ l.newIntegration = 5
        ∧ s'.sensor_config.gain = "2x" ∧ s'.sensor_config.integration = "800ms" :=
  ⟨rfl, rfl, by decide,
    adjustSensitivity_maxed_at_top 0 darkAtTop rfl rfl (by decide)⟩

/-- C9. Starting with the device at gain 1/8x and integration 25 ms and an entry reading
> 10000, `adjustSensitivity` returns for any fuel with `maxed` set: the log gains
nothing but the entry sample (no power cycle, no setting write), no step is taken, the
device registers are as they were, and the state returned and stored is gain index 0
("1/8x"), integration index 0 ("25ms"). -/
theorem adjustSensitivity_maxed_at_bottom (fuel : Nat) (s : Sensor)
    (hg : s.VEML_sensor.sensitivityMode = VEML7700_SENSITIVITY_x1_8)
    (hi : s.VEML_sensor.integrationTime = VEML7700_INTEGRATION_25ms)
    (hbright : 10000 < s.VEML_sensor.ambientFeed 0 % 65536) :
    ∃ s' l, adjustSensitivity fuel s = .ok (s', l)
      ∧ l.maxed = true ∧ l.steps = []
      ∧ s'.log = s.log ++ [.getAmbientLight (s.VEML_sensor.ambientFeed 0 % 65536)]
      ∧ s'.VEML_sensor.sensitivityMode = VEML7700_SENSITIVITY_x1_8
      ∧ s'.VEML_sensor.integrationTime = VEML7700_INTEGRATION_25ms
      ∧ s'.VEML_sensor.powered = s.VEML_sensor.powered
      ∧ l.newGain = 0 ∧ l.newIntegration = 0
      ∧ s'.sensor_config.gain = "1/8x" ∧ s'.sensor_config.integration = "25ms" := by
  have hnd : ¬ s.VEML_sensor.ambientFeed 0 % 65536 ≤ 100 := by omega
  have he : enter s = .ok ((getAmbientLight s).2,
      { ambient := s.VEML_sensor.ambientFeed 0 % 65536, newIntegration := 0,
        newGain := 0, maxed := true, steps := [] }) := by
    unfold enter
    simp [getAmbientLight, emit, hg, hi, hbright, gainIndex, VEML7700_SENSITIVITY_x1_8,
      VEML7700_INTEGRATION_25ms]
  have hr : adjustSensitivity fuel s = updateSettings (getAmbientLight s).2
      { ambient := s.VEML_sensor.ambientFeed 0 % 65536, newIntegration := 0,
        newGain := 0, maxed := true, steps := [] } := by
    unfold adjustSensitivity
    rw [he]
    simp only
    rw [searchLoop_done fuel _ _ (Or.inl rfl)]
  exact ⟨_, _, hr.trans (updateSettings_eq _ (by rfl) (by rfl)),
    rfl, rfl, rfl, hg, hi, rfl, rfl, rfl, rfl, rfl⟩

/-- The sensor at gain 1/8x and 25 ms in full light satisfies the hypotheses of C9. -/
theorem adjustSensitivity_maxed_at_bottom_witness :
    brightAtBottom.VEML_sensor.sensitivityMode = VEML7700_SENSITIVITY_x1_8
      ∧ brightAtBottom.VEML_sensor.integrationTime = VEML7700_INTEGRATION_25ms
      ∧ 10000 < brightAtBottom.VEML_sensor.ambientFeed 0 % 65536
      ∧ ∃ s' l, adjustSensitivity 0 brightAtBottom = .ok (s', l)
        ∧ l.maxed = true ∧ l.steps = []
        ∧ s'.log = brightAtBottom.log
            ++ [.getAmbientLight (brightAtBottom.VEML_sensor.ambientFeed 0 % 65536)]
        ∧ s'.VEML_sensor.sensitivityMode = VEML7700_SENSITIVITY_x1_8
        ∧ s'.VEML_sensor.integrationTime = VEML7700_INTEGRATION_25ms
        ∧ s'.VEML_sensor.powered = brightAtBottom.VEML_sensor.powered
        ∧ l.newGain = 0 ∧ l.newIntegration = 0
        ∧ s'.sensor_config.gain = "1/8x" ∧ s'.sensor_config.integration = "25ms" :=
  ⟨rfl, rfl, by decide,
    adjustSensitivity_maxed_at_bottom 0 brightAtBottom rfl rfl (by decide)⟩

/-! ## C10: configuration round trip -/

theorem JsonDocument.read_assign (doc : JsonDocument) (p q : List JsonKey) (v : JsonValue) :
    (doc.assign p v).read q = if q = p then some v else doc.read q := by
  induction doc with
  | nil =>
    by_cases h : q = p
    · subst h
      simp [JsonDocument.assign, JsonDocument.read, List.lookup]
    · have hb : (q == p) = false := by simpa using h
      simp [JsonDocument.assign, JsonDocument.read, List.lookup, h, hb]
  | cons e rest ih =>
    unfold JsonDocument.read at ih ⊢
    obtain ⟨k, w⟩ := e
    by_cases he : k = p
    · subst he
      by_cases h : q = k
      · subst h
        simp [JsonDocument.assign, List.lookup]
      · have hb : (q == k) = false := by simpa using h
        simp [JsonDocument.assign, List.lookup, h, hb]
    · by_cases hqk : q = k
      · subst hqk
        simp [JsonDocument.assign, List.lookup, he]
      · have hb : (q == k) = false := by simpa using hqk
        simp [JsonDocument.assign, List.lookup, he, hb, ih]

/-- What `setConfig` reads back from the document built by `getConfig`. -/
theorem configDocument_reads (s : Sensor) :
    (configDocument s).read [.member "Name"] = some (.string s.name)
      ∧ (configDocument s).read [.member "autoAdjust"] = some (.bool s.sensor_config.autoAdjust)
      ∧ (configDocument s).read [.member "luxCompensation"]
          = some (.bool s.sensor_config.luxCompensation)
      ∧ (configDocument s).read [.member "Gain", .member "current"]
          = some (.string s.sensor_config.gain)
      ∧ (configDocument s).read [.member "Integration", .member "current"]
          = some (.string s.sensor_config.integration)
      ∧ (configDocument s).read [.member "Persistence", .member "current"]
          = some (.string s.sensor_config.persistence) := by
  refine ⟨?_, ?_, ?_, ?_, ?_, ?_⟩ <;> simp [configDocument, JsonDocument.read_assign]

/-- The name and `sensor_config` after `setConfig` has loaded a document that parsed. -/
theorem setConfig_json (doc : JsonDocument) (save : Bool) (recv : Sensor) :
    (setConfig (.json doc) save recv).2.name = asString (doc.read [.member "Name"])
      ∧ (setConfig (.json doc) save recv).2.sensor_config
          = (if asBool (doc.read [.member "autoAdjust"]) then
              { recv.sensor_config with
                autoAdjust := true
                luxCompensation := asBool (doc.read [.member "luxCompensation"]) }
            else
              { autoAdjust := false
                gain := asString (doc.read [.member "Gain", .member "current"])
                integration := asString (doc.read [.member "Integration", .member "current"])
                persistence := asString (doc.read [.member "Persistence", .member "current"])
                luxCompensation := asBool (doc.read [.member "luxCompensation"]) }) := by
  generalize hn : asString (doc.read [.member "Name"]) = n
  generalize ha : asBool (doc.read [.member "autoAdjust"]) = a
  generalize hl : asBool (doc.read [.member "luxCompensation"]) = lc
  generalize hg : asString (doc.read [.member "Gain", .member "current"]) = g
  generalize hi : asString (doc.read [.member "Integration", .member "current"]) = i
  generalize hp : asString (doc.read [.member "Persistence", .member "current"]) = p
  unfold setConfig
  simp only [hn, ha, hl]
  cases a
  · simp only [applySettings, hg, hi, hp, setSensitivityMode, setIntegrationTime,
      setPersistenceProtect, saveConfig, emit]
    cases recv.VEML_sensor.acks 0 <;> cases recv.VEML_sensor.acks 1
      <;> cases recv.VEML_sensor.acks 2 <;> cases save <;> cases recv.storageOk
      <;> simp
  · simp only [applySettings, saveConfig, emit]
    cases save <;> cases recv.storageOk <;> simp

/-- With every write succeeding and the store accepting the save, `setConfig` returns
true on any document that parsed. -/
theorem setConfig_json_returns (doc : JsonDocument) (save : Bool) (recv : Sensor)
    (hacks : ∀ k, recv.VEML_sensor.acks k = true)
    (hstore : save = true → recv.storageOk = true) :
    (setConfig (.json doc) save recv).1 = true := by
  generalize hn : asString (doc.read [.member "Name"]) = n
  generalize ha : asBool (doc.read [.member "autoAdjust"]) = a
  generalize hl : asBool (doc.read [.member "luxCompensation"]) = lc
  generalize hg : asString (doc.read [.member "Gain", .member "current"]) = g
  generalize hi : asString (doc.read [.member "Integration", .member "current"]) = i
  generalize hp : asString (doc.read [.member "Persistence", .member "current"]) = p
  unfold setConfig
  simp only [hn, ha, hl]
  cases a
  · simp only [applySettings, hg, hi, hp, setSensitivityMode, setIntegrationTime,
      setPersistenceProtect, saveConfig, emit]
    cases hs : save
    · simp [hacks]
    · simp [hacks, hstore hs]
  · simp only [applySettings, saveConfig, emit]
    cases hs : save
    · simp
    · simp [hstore hs]

/-- The sensor object after `setConfig` has loaded the document of `getConfig src`:
name, autoAdjust and luxCompensation are those of `src`; gain, integration and
persistence are those of `src` when its autoAdjust is off and are left as they were
when it is on. -/
theorem setConfig_getConfig_eq (src recv : Sensor) (save : Bool) :
    (setConfig (getConfig src) save recv).2.name = src.name
      ∧ (setConfig (getConfig src) save recv).2.sensor_config
          = (if src.sensor_config.autoAdjust then
              { recv.sensor_config with
                autoAdjust := true, luxCompensation := src.sensor_config.luxCompensation }
            else src.sensor_config) := by
  obtain ⟨h1, h2, h3, h4, h5, h6⟩ := configDocument_reads src
  have h := setConfig_json (configDocument src) save recv
  rw [h1, h2, h3, h4, h5, h6] at h
  simp only [asString, asBool] at h
  unfold getConfig
  refine ⟨h.1, ?_⟩
  rw [h.2]
  cases ha : src.sensor_config.autoAdjust
  · rw [if_neg (by simp), if_neg (by simp), ← ha]
  · rfl

/-- When every write succeeds and the store accepts the save, `setConfig` returns true
on the document of `getConfig`. -/
theorem setConfig_getConfig_returns (src recv : Sensor) (save : Bool)
    (hacks : ∀ k, recv.VEML_sensor.acks k = true)
    (hstore : save = true → recv.storageOk = true) :
    (setConfig (getConfig src) save recv).1 = true :=
  setConfig_json_returns (configDocument src) save recv hacks hstore

/-- With every hardware write succeeding, the result of `setConfig` on any document
that parsed is decided by the save alone: true when no save is asked for or the store
accepts it, false when the store refuses it. -/
theorem setConfig_json_result (doc : JsonDocument) (save : Bool) (recv : Sensor)
    (hacks : ∀ k, recv.VEML_sensor.acks k = true) :
    (setConfig (.json doc) save recv).1 = (!save || recv.storageOk) := by
  generalize hn : asString (doc.read [.member "Name"]) = n
  generalize ha : asBool (doc.read [.member "autoAdjust"]) = a
  generalize hl : asBool (doc.read [.member "luxCompensation"]) = lc
  generalize hg : asString (doc.read [.member "Gain", .member "current"]) = g
  generalize hi : asString (doc.read [.member "Integration", .member "current"]) = i
  generalize hp : asString (doc.read [.member "Persistence", .member "current"]) = p
  unfold setConfig
  simp only [hn, ha, hl]
  cases a
  · simp only [applySettings, hg, hi, hp, setSensitivityMode, setIntegrationTime,
      setPersistenceProtect, saveConfig, emit]
    cases save <;> cases recv.storageOk <;> simp [hacks]
  · simp only [applySettings, saveConfig, emit]
    cases save <;> cases recv.storageOk <;> simp

/-- C10 (amended). Configuration round trip: for every sensor_config c with autoAdjust
off and every prior state of the receiving sensor, loading with `setConfig` the
document that `getConfig` produced for c leaves a sensor_config equal to c field for
field, label strings included, and the name of the source. When autoAdjust is on in c,
`setConfig` loads only the name, autoAdjust and luxCompensation: gain, integration and
persistence keep the values the receiving sensor had. This holds whatever the hardware
writes and the store report. With all hardware writes succeeding the value returned by
`setConfig` is true when no save is asked for or the store accepts the save, and false
when the store refuses it. -/
theorem setConfig_getConfig_round_trip (src recv : Sensor) (save : Bool) :
    (setConfig (getConfig src) save recv).2.name = src.name
      ∧ (setConfig (getConfig src) save recv).2.sensor_config.autoAdjust
          = src.sensor_config.autoAdjust
      ∧ (setConfig (getConfig src) save recv).2.sensor_config.luxCompensation
          = src.sensor_config.luxCompensation
      ∧ (src.sensor_config.autoAdjust = false →
          (setConfig (getConfig src) save recv).2.sensor_config = src.sensor_config)
      ∧ (src.sensor_config.autoAdjust = true →
          (setConfig (getConfig src) save recv).2.sensor_config.gain = recv.sensor_config.gain
            ∧ (setConfig (getConfig src) save recv).2.sensor_config.integration
                = recv.sensor_config.integration
            ∧ (setConfig (getConfig src) save recv).2.sensor_config.persistence
                = recv.sensor_config.persistence)
      ∧ ((∀ k, recv.VEML_sensor.acks k = true) →
          (setConfig (getConfig src) save recv).1 = (!save || recv.storageOk)) := by
  obtain ⟨hn, hc⟩ := setConfig_getConfig_eq src recv save
  refine ⟨hn, ?_, ?_, ?_, ?_, setConfig_json_result (configDocument src) save recv⟩
  · rw [hc]; cases ha : src.sensor_config.autoAdjust <;> simp [ha]
  · rw [hc]; cases ha : src.sensor_config.autoAdjust <;> simp
  · intro ha; rw [hc, ha]; simp
  · intro ha; rw [hc, ha]; simp

/-- The configuration of the hand-tuned sensor (autoAdjust off), saved and loaded into
a freshly constructed sensor, is restored field for field and `setConfig` returns true;
loaded into a sensor whose store refuses the save it is restored all the same and
`setConfig` returns false. The configuration of the auto-tuned sensor (autoAdjust on)
leaves the gain, integration and persistence of the receiving sensor in place. -/
theorem setConfig_getConfig_round_trip_witness :
    handTuned.sensor_config.autoAdjust = false
      ∧ (∀ k, litRoom.VEML_sensor.acks k = true)
      ∧ (setConfig (getConfig handTuned) true litRoom).2.name = handTuned.name
      ∧ (setConfig (getConfig handTuned) true litRoom).2.sensor_config
          = handTuned.sensor_config
      ∧ (setConfig (getConfig handTuned) true litRoom).1 = true
      ∧ (∀ k, fullStore.VEML_sensor.acks k = true)
      ∧ (setConfig (getConfig handTuned) true fullStore).2.sensor_config
          = handTuned.sensor_config
      ∧ (setConfig (getConfig handTuned) true fullStore).1 = false
      ∧ autoTuned.sensor_config.autoAdjust = true
      ∧ (setConfig (getConfig autoTuned) false litRoom).2.sensor_config.gain
          = litRoom.sensor_config.gain
      ∧ (setConfig (getConfig autoTuned) false litRoom).2.sensor_config.integration
          = litRoom.sensor_config.integration
      ∧ (setConfig (getConfig autoTuned) false litRoom).2.sensor_config.persistence
          = litRoom.sensor_config.persistence :=
  ⟨rfl, fun _ => rfl,
    (setConfig_getConfig_round_trip handTuned litRoom true).1,
    (setConfig_getConfig_round_trip handTuned litRoom true).2.2.2.1 rfl,
    ((setConfig_getConfig_round_trip handTuned litRoom true).2.2.2.2.2
      (fun _ => rfl)).trans rfl,
    fun _ => rfl,
    (setConfig_getConfig_round_trip handTuned fullStore true).2.2.2.1 rfl,
    ((setConfig_getConfig_round_trip handTuned fullStore true).2.2.2.2.2
      (fun _ => rfl)).trans rfl,
    rfl,
    (setConfig_getConfig_round_trip autoTuned litRoom false).2.2.2.2.1 rfl⟩

/-- C10 (as stated) fails. The configuration of a sensor with autoAdjust on, gain "2x",
integration "800ms", persistence "8", loaded into a freshly constructed sensor with
every write succeeding: `setConfig` returns true and the receiving sensor_config has
gain "1/4x", integration "100ms" and persistence "1", not those of the source. -/
theorem setConfig_getConfig_auto_adjust_not_restored :
    (setConfig (getConfig autoTuned) false litRoom).1 = true
      ∧ (setConfig (getConfig autoTuned) false litRoom).2.sensor_config
          = { autoAdjust := true, gain := "1/4x", integration := "100ms", persistence := "1",
              luxCompensation := false }
      ∧ (setConfig (getConfig autoTuned) false litRoom).2.sensor_config
          ≠ autoTuned.sensor_config := by
  have h := (setConfig_getConfig_eq autoTuned litRoom false).2
  have hr := setConfig_getConfig_returns autoTuned litRoom false (fun _ => rfl)
    (fun hs => by cases hs)
  refine ⟨hr, ?_, ?_⟩
  · rw [h]; rfl
  · rw [h]; decide

/-! ## C12: the label tables -/

/-- C12. The gains table has every label of `gain_array` as a key, mapped to the
sensitivity code that the label names, and the integrations table has the labels of
`integration_array` at indices 0, 1, 2, 4, 5 as keys, mapped to the integration code
that the label names. At index 3 the claim fails on the code: the table was written
with the key "200", so "200ms" is not a key, and the subscript
`integrations[integration_array[3]]` yields a value-initialised code, 25 ms, not
200 ms. -/
theorem integrations_table_lacks_200ms :
    gain_array = ["1/8x", "1/4x", "1x", "2x"]
      ∧ gains.lookup "1/8x" = some VEML7700_SENSITIVITY_x1_8
      ∧ gains.lookup "1/4x" = some VEML7700_SENSITIVITY_x1_4
      ∧ gains.lookup "1x" = some VEML7700_SENSITIVITY_x1
      ∧ gains.lookup "2x" = some VEML7700_SENSITIVITY_x2
      ∧ integration_array = ["25ms", "50ms", "100ms", "200ms", "400ms", "800ms"]
      ∧ integrations.lookup "25ms" = some VEML7700_INTEGRATION_25ms
      ∧ integrations.lookup "50ms" = some VEML7700_INTEGRATION_50ms
      ∧ integrations.lookup "100ms" = some VEML7700_INTEGRATION_100ms
      ∧ integrations.lookup "400ms" = some VEML7700_INTEGRATION_400ms
      ∧ integrations.lookup "800ms" = some VEML7700_INTEGRATION_800ms
      ∧ integration_array[3]? = some "200ms"
      ∧ integrations.lookup "200ms" = none
      ∧ integrations.lookup "200" = some VEML7700_INTEGRATION_200ms
      ∧ mapAt integrations "200ms" = VEML7700_INTEGRATION_25ms
      ∧ mapAt integrations "200ms" ≠ VEML7700_INTEGRATION_200ms := by
  refine ⟨rfl, ?_, ?_, ?_, ?_, rfl, ?_, ?_, ?_, ?_, ?_, ?_, ?_, ?_, ?_, ?_⟩ <;> decide

/-! ## C13: measuring with autoAdjust off -/

/-- What the channel reads of `takeMeasurement` do to the sensor object besides the
channels: one ambient sample is logged, nothing else. -/
theorem readChannels_effect {rnd : ℚ → ℚ} {s s' : Sensor} {ok : Bool}
    (h : readChannels rnd s = .ok (ok, s')) :
    s'.log = s.log ++ [.getAmbientLight (s.VEML_sensor.ambientFeed 0 % 65536)]
      ∧ s'.sensor_config = s.sensor_config ∧ s'.name = s.name
      ∧ s'.VEML_sensor.sensitivityMode = s.VEML_sensor.sensitivityMode
      ∧ s'.VEML_sensor.integrationTime = s.VEML_sensor.integrationTime
      ∧ s'.VEML_sensor.persistenceProtect = s.VEML_sensor.persistenceProtect
      ∧ s'.VEML_sensor.powered = s.VEML_sensor.powered := by
  unfold readChannels at h
  simp only at h
  split at h
  · cases h
  · split at h
    · cases h
    · split at h
      · cases h
      · injection h with h
        injection h with e1 e2
        subst e2
        exact ⟨rfl, rfl, rfl, rfl, rfl, rfl, rfl⟩

/-- C13. When autoAdjust is false, `takeMeasurement` never invokes the range search: it
is the channel reads alone, whatever the fuel. For every device state and readings,
when it returns the log has gained one ambient sample and nothing else (no shutdown,
power-on, delay, gain or integration write), the device registers and power state are
as they were, and every field of `sensor_config` is unchanged; and it does return true
once the three channels are allocated. -/
theorem takeMeasurement_without_autoAdjust (rnd : ℚ → ℚ) (fuel : Nat) (s : Sensor)
    (hoff : s.sensor_config.autoAdjust = false) :
    takeMeasurement rnd fuel s = readChannels rnd s
      ∧ (∀ ok s', takeMeasurement rnd fuel s = .ok (ok, s') →
          s'.log = s.log ++ [.getAmbientLight (s.VEML_sensor.ambientFeed 0 % 65536)]
            ∧ settingWrites s'.log = settingWrites s.log
            ∧ s'.sensor_config = s.sensor_config
            ∧ s'.VEML_sensor.sensitivityMode = s.VEML_sensor.sensitivityMode
            ∧ s'.VEML_sensor.integrationTime = s.VEML_sensor.integrationTime
            ∧ s'.VEML_sensor.persistenceProtect = s.VEML_sensor.persistenceProtect
            ∧ s'.VEML_sensor.powered = s.VEML_sensor.powered)
      ∧ (3 ≤ s.values.length → ∃ s', takeMeasurement rnd fuel s = .ok (true, s')) := by
  have heq : takeMeasurement rnd fuel s = readChannels rnd s := by
    unfold takeMeasurement
    simp only [hoff]
    rfl
  refine ⟨heq, ?_, fun hlen => takeMeasurement_returns rnd fuel s hlen (Or.inl hoff)⟩
  intro ok s' h
  rw [heq] at h
  obtain ⟨h1, h2, _, h4, h5, h6, h7⟩ := readChannels_effect h
  refine ⟨h1, ?_, h2, h4, h5, h6, h7⟩
  rw [h1]
  simp [settingWrites, isSettingWrite]

/-- The hand-set sensor in the glare has autoAdjust off: a measurement returns, logs the
one sample 60000, far out of bounds, and leaves the configuration as it was. -/
theorem takeMeasurement_without_autoAdjust_witness :
    handSetInGlare.sensor_config.autoAdjust = false
      ∧ (∃ s', takeMeasurement id 0 handSetInGlare = .ok (true, s')
          ∧ s'.log = [.getAmbientLight 60000]
          ∧ s'.sensor_config = handSetInGlare.sensor_config)
      ∧ takeMeasurement id 0 handSetInGlare = readChannels id handSetInGlare :=
  ⟨rfl,
    ((takeMeasurement_without_autoAdjust id 0 handSetInGlare rfl).2.2 (by decide)).elim
      fun s' h =>
        ⟨s', h, ((takeMeasurement_without_autoAdjust id 0 handSetInGlare rfl).2.1 true s' h).1,
          ((takeMeasurement_without_autoAdjust id 0 handSetInGlare rfl).2.1 true s' h).2.2.1⟩,
    (takeMeasurement_without_autoAdjust id 0 handSetInGlare rfl).1⟩

/-! ## C16: a configuration that does not parse -/

/-- C16. When the configuration string fails to parse, `setConfig` returns false and
the sensor object is exactly what it was: no field of `sensor_config` and not the name
has changed, the log has gained no hardware write and no save; on a freshly constructed
sensor the compiled-in defaults (autoAdjust off, gain "1/4x", integration "100ms",
persistence "1", luxCompensation on) remain in force. -/
theorem setConfig_malformed_changes_nothing (save : Bool) (s : Sensor) :
    setConfig .malformed save s = (false, s)
      ∧ (setConfig .malformed save s).2.sensor_config = s.sensor_config
      ∧ (setConfig .malformed save s).2.name = s.name
      ∧ (setConfig .malformed save s).2.log = s.log
      ∧ ∀ (mode integration : Nat) (feed : Nat → Nat) (acks : Nat → Bool),
          (setConfig .malformed save (bench mode integration feed acks)).2.sensor_config
            = { autoAdjust := false, gain := "1/4x", integration := "100ms",
                persistence := "1", luxCompensation := true } :=
  ⟨rfl, rfl, rfl, rfl, fun _ _ _ _ => rfl⟩

/-! ## C17: the options offered by getConfig -/

@[simp] theorem JsonDocument.read_nil (p : List JsonKey) :
    JsonDocument.read [] p = none := rfl

/-- C17. The document produced by `getConfig` offers the four gain labels and the six
integration labels in order, and nothing after them. For persistence the claim fails on
the code: entry 2 is assigned twice ("2", then "4") and entry 1 never, so the options
offered are "1", nothing, "4", "8", and "2" is not among them. -/
theorem getConfig_persistence_options_lack_2 (s : Sensor) :
    getConfig s = .json (configDocument s)
      ∧ offered (configDocument s) "Gain" 5
          = [some (.string "1/8x"), some (.string "1/4x"), some (.string "1x"),
             some (.string "2x"), none]
      ∧ offered (configDocument s) "Integration" 7
          = [some (.string "25ms"), some (.string "50ms"), some (.string "100ms"),
             some (.string "200ms"), some (.string "400ms"), some (.string "800ms"), none]
      ∧ offered (configDocument s) "Persistence" 5
          = [some (.string "1"), none, some (.string "4"), some (.string "8"), none]
      ∧ some (JsonValue.string "2") ∉ offered (configDocument s) "Persistence" 5 := by
  have hp : offered (configDocument s) "Persistence" 5
      = [some (.string "1"), none, some (.string "4"), some (.string "8"), none] := by
    simp [offered, List.range, List.range.loop, configDocument, JsonDocument.read_assign]
  refine ⟨rfl, ?_, ?_, hp, ?_⟩
  · simp [offered, List.range, List.range.loop, configDocument, JsonDocument.read_assign]
  · simp [offered, List.range, List.range.loop, configDocument, JsonDocument.read_assign]
  · rw [hp]; decide

/-! ## C19: one run of an inner loop -/

/-- A too-dark setting change from a valid state below the top: it succeeds, writes
once, moves the sum of the indices up by exactly one and lowers neither index. -/
theorem raise_counts (s : Sensor) (l : Search) (hg : l.newGain ≤ 3)
    (hi : l.newIntegration ≤ 5) (hc : ¬ (l.newIntegration = 5 ∧ l.newGain = 3)) :
    ∃ s1 l1, raise s l = .ok (s1, l1)
      ∧ settingWrites s1.log = settingWrites s.log + 1
      ∧ l1.newGain ≤ 3 ∧ l1.newIntegration ≤ 5
      ∧ l1.newGain + l1.newIntegration = l.newGain + l.newIntegration + 1 := by
  obtain ⟨s1, l1, h, hw, _, hg1, hi1, hm⟩ := raise_of_valid s l hg hi hc
  exact ⟨s1, l1, h, hw, hg1, hi1, by omega⟩

/-- A too-bright setting change from a valid state above the bottom: it succeeds,
writes once and moves the sum of the indices down by exactly one. -/
theorem lower_counts (s : Sensor) (l : Search) (hg : l.newGain ≤ 3)
    (hi : l.newIntegration ≤ 5) (hc : ¬ (l.newIntegration = 0 ∧ l.newGain = 0)) :
    ∃ s1 l1, lower s l = .ok (s1, l1)
      ∧ settingWrites s1.log = settingWrites s.log + 1
      ∧ l1.newGain ≤ 3 ∧ l1.newIntegration ≤ 5
      ∧ l1.newGain + l1.newIntegration + 1 = l.newGain + l.newIntegration := by
  obtain ⟨s1, l1, h, hw, _, hg1, hi1, hm⟩ := lower_of_valid s l hg hi hc
  exact ⟨s1, l1, h, hw, hg1, hi1, hm⟩

/-- A run of the too-dark loop from a valid state returns as soon as the fuel exceeds
the distance to the top of the lattice, and the number of its writes is the amount by
which the sum of the indices has grown. -/
theorem tooLowLoop_counts (n : Nat) : ∀ (fuel : Nat) (s : Sensor) (l : Search),
    l.newGain ≤ 3 → l.newIntegration ≤ 5 →
    (3 - l.newGain) + (5 - l.newIntegration) ≤ n → n < fuel →
    ∃ s' l', tooLowLoop fuel s l = .ok (s', l')
      ∧ l'.newGain ≤ 3 ∧ l'.newIntegration ≤ 5
      ∧ settingWrites s'.log + (l.newGain + l.newIntegration)
          = settingWrites s.log + (l'.newGain + l'.newIntegration) := by
  induction n with
  | zero =>
    intro fuel s l hg hi hn hf
    obtain ⟨f, rfl⟩ : ∃ f, fuel = f + 1 := ⟨fuel - 1, by omega⟩
    have hc : l.newIntegration = 5 ∧ l.newGain = 3 := by omega
    refine ⟨s, { l with maxed := true }, ?_, hg, hi, rfl⟩
    unfold tooLowLoop
    rw [if_pos hc]
  | succ n ih =>
    intro fuel s l hg hi hn hf
    obtain ⟨f, rfl⟩ : ∃ f, fuel = f + 1 := ⟨fuel - 1, by omega⟩
    by_cases hc : l.newIntegration = 5 ∧ l.newGain = 3
    · refine ⟨s, { l with maxed := true }, ?_, hg, hi, rfl⟩
      unfold tooLowLoop
      rw [if_pos hc]
    · obtain ⟨s1, l1, hr, hw, hg1, hi1, hm⟩ :=
        raise_counts (delay (25 * 2 ^ l.newIntegration) (shutdown s)) l hg hi hc
      have hw1 : settingWrites (resample l s1 l1).1.log = settingWrites s.log + 1 := by
        rw [resample_writes, hw]
        simp [settingWrites, isSettingWrite]
      by_cases ha : (resample l s1 l1).2.ambient ≤ 100
      · obtain ⟨s', l', hrun, hg', hi', hw'⟩ :=
          ih f (resample l s1 l1).1 (resample l s1 l1).2 hg1 hi1
            (by simp only [resample_newGain, resample_newIntegration]; omega) (by omega)
        simp only [resample_newGain, resample_newIntegration] at hw'
        refine ⟨s', l', ?_, hg', hi', by omega⟩
        unfold tooLowLoop
        rw [if_neg hc, hr]
        simp only
        rw [if_pos ha]
        exact hrun
      · refine ⟨(resample l s1 l1).1, (resample l s1 l1).2, ?_, hg1, hi1, ?_⟩
        · unfold tooLowLoop
          rw [if_neg hc, hr]
          simp only
          rw [if_neg ha]
        · simp only [resample_newGain, resample_newIntegration]
          omega

/-- A run of the too-bright loop from a valid state returns as soon as the fuel exceeds
the distance to the bottom of the lattice, and the number of its writes is the amount
by which the sum of the indices has shrunk. -/
theorem tooHighLoop_counts (n : Nat) : ∀ (fuel : Nat) (s : Sensor) (l : Search),
    l.newGain ≤ 3 → l.newIntegration ≤ 5 →
    l.newGain + l.newIntegration ≤ n → n < fuel →
    ∃ s' l', tooHighLoop fuel s l = .ok (s', l')
      ∧ l'.newGain ≤ 3 ∧ l'.newIntegration ≤ 5
      ∧ settingWrites s'.log + (l'.newGain + l'.newIntegration)
          = settingWrites s.log + (l.newGain + l.newIntegration) := by
  induction n with
  | zero =>
    intro fuel s l hg hi hn hf
    obtain ⟨f, rfl⟩ : ∃ f, fuel = f + 1 := ⟨fuel - 1, by omega⟩
    have hc : l.newIntegration = 0 ∧ l.newGain = 0 := by omega
    refine ⟨s, { l with maxed := true }, ?_, hg, hi, rfl⟩
    unfold tooHighLoop
    rw [if_pos hc]
  | succ n ih =>
    intro fuel s l hg hi hn hf
    obtain ⟨f, rfl⟩ : ∃ f, fuel = f + 1 := ⟨fuel - 1, by omega⟩
    by_cases hc : l.newIntegration = 0 ∧ l.newGain = 0
    · refine ⟨s, { l with maxed := true }, ?_, hg, hi, rfl⟩
      unfold tooHighLoop
      rw [if_pos hc]
    · obtain ⟨s1, l1, hr, hw, hg1, hi1, hm⟩ :=
        lower_counts (delay (25 * 2 ^ l.newIntegration) (shutdown s)) l hg hi hc
      have hw1 : settingWrites (resample l s1 l1).1.log = settingWrites s.log + 1 := by
        rw [resample_writes, hw]
        simp [settingWrites, isSettingWrite]
      by_cases ha : (resample l s1 l1).2.ambient > 10000
      · obtain ⟨s', l', hrun, hg', hi', hw'⟩ :=
          ih f (resample l s1 l1).1 (resample l s1 l1).2 hg1 hi1
            (by simp only [resample_newGain, resample_newIntegration]; omega) (by omega)
        simp only [resample_newGain, resample_newIntegration] at hw'
        refine ⟨s', l', ?_, hg', hi', by omega⟩
        unfold tooHighLoop
        rw [if_neg hc, hr]
        simp only
        rw [if_pos ha]
        exact hrun
      · refine ⟨(resample l s1 l1).1, (resample l s1 l1).2, ?_, hg1, hi1, ?_⟩
        · unfold tooHighLoop
          rw [if_neg hc, hr]
          simp only
          rw [if_neg ha]
        · simp only [resample_newGain, resample_newIntegration]
          omega

/-- C19. Each single run of an inner loop of `adjustSensitivity` terminates for every
script of readings. A run of the too-dark loop entered at valid indices (g, i) returns
with any fuel above (3 - g) + (5 - i); the number of its setting writes is the amount by
which g + i has grown, so at most (3 - g) + (5 - i). A run of the too-bright loop
returns with any fuel above g + i; the number of its setting writes is the amount by
which g + i has shrunk, so at most g + i. No single run exceeds 8 writes. -/
theorem inner_loop_run_terminates (fuel : Nat) (s : Sensor) (l : Search)
    (hg : l.newGain ≤ 3) (hi : l.newIntegration ≤ 5) :
    ((3 - l.newGain) + (5 - l.newIntegration) < fuel →
        ∃ s' l', tooLowLoop fuel s l = .ok (s', l')
          ∧ settingWrites s'.log + (l.newGain + l.newIntegration)
              = settingWrites s.log + (l'.newGain + l'.newIntegration)
          ∧ settingWrites s'.log
              ≤ settingWrites s.log + ((3 - l.newGain) + (5 - l.newIntegration))
          ∧ settingWrites s'.log ≤ settingWrites s.log + 8)
      ∧ (l.newGain + l.newIntegration < fuel →
        ∃ s' l', tooHighLoop fuel s l = .ok (s', l')
          ∧ settingWrites s'.log + (l'.newGain + l'.newIntegration)
              = settingWrites s.log + (l.newGain + l.newIntegration)
          ∧ settingWrites s'.log ≤ settingWrites s.log + (l.newGain + l.newIntegration)
          ∧ settingWrites s'.log ≤ settingWrites s.log + 8) := by
  constructor
  · intro hf
    obtain ⟨s', l', h, hg', hi', hw⟩ :=
      tooLowLoop_counts _ fuel s l hg hi (le_refl _) hf
    exact ⟨s', l', h, hw, by omega, by omega⟩
  · intro hf
    obtain ⟨s', l', h, hg', hi', hw⟩ :=
      tooHighLoop_counts _ fuel s l hg hi (le_refl _) hf
    exact ⟨s', l', h, hw, by omega, by omega⟩

/-- In the dark room after the reset trial the indices are (1, 2): a too-dark run
returns with fuel 6 and a too-bright run with fuel 4. -/
theorem inner_loop_run_terminates_witness :
    afterReset.newGain ≤ 3 ∧ afterReset.newIntegration ≤ 5
      ∧ (∃ s' l', tooLowLoop 6 darkRoom afterReset = .ok (s', l')
          ∧ settingWrites s'.log ≤ settingWrites darkRoom.log + 8)
      ∧ (∃ s' l', tooHighLoop 4 darkRoom afterReset = .ok (s', l')
          ∧ settingWrites s'.log ≤ settingWrites darkRoom.log + 8) :=
  ⟨by decide, by decide,
    ((inner_loop_run_terminates 6 darkRoom afterReset (by decide) (by decide)).1
        (by decide)).elim fun s' h => h.elim fun l' h => ⟨s', l', h.1, h.2.2.2⟩,
    ((inner_loop_run_terminates 4 darkRoom afterReset (by decide) (by decide)).2
        (by decide)).elim fun s' h => h.elim fun l' h => ⟨s', l', h.1, h.2.2.2⟩⟩

/-! ## C20: sensitivity code and gain index -/

/-- C20. The adjustment of lines 58-63 (add 2 below 2, subtract 2 otherwise) turns the
sensitivity code of the device library (x1 = 0, x2 = 1, x1/8 = 2, x1/4 = 3) into the
ordered gain index (1/8x, 1/4x, 1x, 2x at 0, 1, 2, 3): for every valid code m the label
`gain_array[gainIndex m]` is a key of `gains` and maps back to m, the index is within
the array, and applying the adjustment twice gives m back. -/
theorem gainIndex_converts_code (m : Nat) (h : m < 4) :
    (∃ label, gain_array[gainIndex m]? = some label ∧ gains.lookup label = some m
        ∧ mapAt gains label = m)
      ∧ gainIndex m < 4 ∧ gainIndex (gainIndex m) = m
      ∧ gainIndex VEML7700_SENSITIVITY_x1_8 = 0 ∧ gainIndex VEML7700_SENSITIVITY_x1_4 = 1
      ∧ gainIndex VEML7700_SENSITIVITY_x1 = 2 ∧ gainIndex VEML7700_SENSITIVITY_x2 = 3 := by
  refine ⟨?_, ?_, ?_, rfl, rfl, rfl, rfl⟩
  · interval_cases m
    · exact ⟨"1x", by decide, by decide, by decide⟩
    · exact ⟨"2x", by decide, by decide, by decide⟩
    · exact ⟨"1/8x", by decide, by decide, by decide⟩
    · exact ⟨"1/4x", by decide, by decide, by decide⟩
  · interval_cases m <;> decide
  · interval_cases m <;> decide

/-- The code of gain 1/8x is a valid code: it converts to index 0, whose label "1/8x"
maps back to it. -/
theorem gainIndex_converts_code_witness :
    VEML7700_SENSITIVITY_x1_8 < 4
      ∧ ((∃ label, gain_array[gainIndex VEML7700_SENSITIVITY_x1_8]? = some label
            ∧ gains.lookup label = some VEML7700_SENSITIVITY_x1_8
            ∧ mapAt gains label = VEML7700_SENSITIVITY_x1_8)
        ∧ gainIndex VEML7700_SENSITIVITY_x1_8 < 4
        ∧ gainIndex (gainIndex VEML7700_SENSITIVITY_x1_8) = VEML7700_SENSITIVITY_x1_8
        ∧ gainIndex VEML7700_SENSITIVITY_x1_8 = 0 ∧ gainIndex VEML7700_SENSITIVITY_x1_4 = 1
        ∧ gainIndex VEML7700_SENSITIVITY_x1 = 2 ∧ gainIndex VEML7700_SENSITIVITY_x2 = 3) :=
  ⟨by decide, gainIndex_converts_code VEML7700_SENSITIVITY_x1_8 (by decide)⟩

/-! ## The power cycles of a call and the safety of its subscripts -/

theorem cycleEvents_append (cs ds : List Cycle) :
    cycleEvents (cs ++ ds) = cycleEvents cs ++ cycleEvents ds := by
  induction cs with
  | nil => rfl
  | cons c cs ih => simp [cycleEvents, ih]

theorem Traced.nil : Traced [] [] :=
  ⟨rfl, by simp⟩

theorem Traced.append {cs ds : List Cycle} {ts us : List Step} (h1 : Traced cs ts)
    (h2 : Traced ds us) : Traced (cs ++ ds) (ts ++ us) := by
  refine ⟨by rw [List.map_append, List.map_append, h1.1, h2.1], ?_⟩
  intro c hc
  rcases List.mem_append.mp hc with hc | hc
  · exact h1.2 c hc
  · exact h2.2 c hc

/-- One iteration of the too-dark loop past the maxed check, from a valid state that is
not the top of the lattice: it is one power cycle with one setting write, and a step
that adjusts gain before integration. -/
theorem raise_cycle {s s1 : Sensor} {l l1 : Search}
    (h : raise (delay (25 * 2 ^ l.newIntegration) (shutdown s)) l = .ok (s1, l1))
    (hg : l.newGain ≤ 3) (hi : l.newIntegration ≤ 5)
    (hc : ¬ (l.newIntegration = 5 ∧ l.newGain = 3)) :
    l1.newGain ≤ 3 ∧ l1.newIntegration ≤ 5
      ∧ ∃ (c : Cycle) (t : Step),
          (resample l s1 l1).1.log = s.log ++ c.events
            ∧ (resample l s1 l1).2.steps = l.steps ++ [t]
            ∧ Traced [c] [t]
            ∧ t.ambient = l.ambient ∧ t.raisesGainFirst ∧ t.inRange := by
  rcases raise_ok h with ⟨h3, ⟨code, rfl⟩, rfl⟩ | ⟨h3, h5, ⟨code, rfl⟩, rfl⟩ | ⟨h3, h5, _, _⟩
  · refine ⟨by simp only; omega, hi, ?_⟩
    refine ⟨{ before := l.newIntegration
              write := .setSensitivityMode code
                ((delay (25 * 2 ^ l.newIntegration) (shutdown s)).VEML_sensor.acks 0)
              after := l.newIntegration
              sample := (resample l (setSensitivityMode code
                (delay (25 * 2 ^ l.newIntegration) (shutdown s))).2
                { l with newGain := l.newGain + 1 }).2.ambient },
            { ambient := l.ambient, gain := l.newGain, integration := l.newIntegration,
              gainAfter := l.newGain + 1, integrationAfter := l.newIntegration },
            ?_, rfl, ⟨rfl, by simp [isSettingWrite]⟩, rfl, Or.inl ⟨h3, rfl, rfl⟩, ?_⟩
    · simp [resample, Cycle.events, pow_succ]
      ring
    · simp only [Step.inRange]; omega
  · refine ⟨hg, by simp only; omega, ?_⟩
    refine ⟨{ before := l.newIntegration
              write := .setIntegrationTime code
                ((delay (25 * 2 ^ l.newIntegration) (shutdown s)).VEML_sensor.acks 0)
              after := l.newIntegration + 1
              sample := (resample l (setIntegrationTime code
                (delay (25 * 2 ^ l.newIntegration) (shutdown s))).2
                { l with newIntegration := l.newIntegration + 1 }).2.ambient },
            { ambient := l.ambient, gain := l.newGain, integration := l.newIntegration,
              gainAfter := l.newGain, integrationAfter := l.newIntegration + 1 },
            ?_, rfl, ⟨rfl, by simp [isSettingWrite]⟩, rfl,
            Or.inr ⟨(show l.newGain = 3 by omega), h5, (show l.newGain = 3 by omega), rfl⟩, ?_⟩
    · simp [resample, Cycle.events, pow_succ]
      ring
    · simp only [Step.inRange]; omega
  · omega

/-- One iteration of the too-bright loop past the maxed check, from a valid state that
is not the bottom of the lattice: it is one power cycle with one setting write, and a
step that adjusts gain before integration. -/
theorem lower_cycle {s s1 : Sensor} {l l1 : Search}
    (h : lower (delay (25 * 2 ^ l.newIntegration) (shutdown s)) l = .ok (s1, l1))
    (hg : l.newGain ≤ 3) (hi : l.newIntegration ≤ 5)
    (hc : ¬ (l.newIntegration = 0 ∧ l.newGain = 0)) :
    l1.newGain ≤ 3 ∧ l1.newIntegration ≤ 5
      ∧ ∃ (c : Cycle) (t : Step),
          (resample l s1 l1).1.log = s.log ++ c.events
            ∧ (resample l s1 l1).2.steps = l.steps ++ [t]
            ∧ Traced [c] [t]
            ∧ t.ambient = l.ambient ∧ t.lowersGainFirst ∧ t.inRange := by
  rcases lower_ok h with ⟨h3, ⟨code, rfl⟩, rfl⟩ | ⟨h3, h5, ⟨code, rfl⟩, rfl⟩ | ⟨h3, h5, _, _⟩
  · refine ⟨by simp only; omega, hi, ?_⟩
    refine ⟨{ before := l.newIntegration
              write := .setSensitivityMode code
                ((delay (25 * 2 ^ l.newIntegration) (shutdown s)).VEML_sensor.acks 0)
              after := l.newIntegration
              sample := (resample l (setSensitivityMode code
                (delay (25 * 2 ^ l.newIntegration) (shutdown s))).2
                { l with newGain := l.newGain - 1 }).2.ambient },
            { ambient := l.ambient, gain := l.newGain, integration := l.newIntegration,
              gainAfter := l.newGain - 1, integrationAfter := l.newIntegration },
            ?_, rfl, ⟨rfl, by simp [isSettingWrite]⟩, rfl,
            Or.inl ⟨h3, (show l.newGain - 1 + 1 = l.newGain by omega), rfl⟩, ?_⟩
    · simp [resample, Cycle.events, pow_succ]
      ring
    · simp only [Step.inRange]; omega
  · refine ⟨hg, by simp only; omega, ?_⟩
    refine ⟨{ before := l.newIntegration
              write := .setIntegrationTime code
                ((delay (25 * 2 ^ l.newIntegration) (shutdown s)).VEML_sensor.acks 0)
              after := l.newIntegration - 1
              sample := (resample l (setIntegrationTime code
                (delay (25 * 2 ^ l.newIntegration) (shutdown s))).2
                { l with newIntegration := l.newIntegration - 1 }).2.ambient },
            { ambient := l.ambient, gain := l.newGain, integration := l.newIntegration,
              gainAfter := l.newGain, integrationAfter := l.newIntegration - 1 },
            ?_, rfl, ⟨rfl, by simp [isSettingWrite]⟩, rfl,
            Or.inr ⟨(show l.newGain = 0 by omega), h5, (show l.newGain = 0 by omega),
              (show l.newIntegration - 1 + 1 = l.newIntegration by omega)⟩, ?_⟩
    · simp [resample, Cycle.events, pow_succ]
      ring
    · simp only [Step.inRange]; omega
  · omega

/-- A run of the too-dark loop that returns, entered in a valid state on a too-dark
reading: the indices stay valid, the log grows by whole power cycles, one per step, and
every step is taken on a too-dark reading and raises gain before integration. -/
theorem tooLowLoop_trace (fuel : Nat) : ∀ {s s' : Sensor} {l l' : Search},
    tooLowLoop fuel s l = .ok (s', l') →
    l.newGain ≤ 3 → l.newIntegration ≤ 5 → l.ambient ≤ 100 →
    l'.newGain ≤ 3 ∧ l'.newIntegration ≤ 5
      ∧ ∃ (cs : List Cycle) (ts : List Step),
          s'.log = s.log ++ cycleEvents cs ∧ l'.steps = l.steps ++ ts ∧ Traced cs ts
            ∧ StepsOf Step.gainFirst ts := by
  induction fuel with
  | zero => intro s s' l l' h; simp [tooLowLoop] at h
  | succ n ih =>
    intro s s' l l' h hg hi hdark
    unfold tooLowLoop at h
    split at h
    · injection h with h
      injection h with h1 h2
      subst h1 h2
      exact ⟨hg, hi, [], [], by simp [cycleEvents], by simp, Traced.nil, by simp [StepsOf]⟩
    · rename_i hc
      split at h
      · cases h
      · rename_i s1 l1 hr
        obtain ⟨hg1, hi1, c, t, hlog, hsteps, htr, hamb, hup, hin⟩ := raise_cycle hr hg hi hc
        have ht : Step.gainFirst t ∧ t.inRange := ⟨Or.inl ⟨by rw [hamb]; exact hdark, hup⟩, hin⟩
        simp only at h
        split at h
        · rename_i hagain
          obtain ⟨hg', hi', cs, ts, hlog', hsteps', htr', hall⟩ := ih h hg1 hi1 hagain
          refine ⟨hg', hi', c :: cs, t :: ts, ?_, ?_, Traced.append htr htr', ?_⟩
          · rw [hlog', hlog]; simp [cycleEvents]
          · rw [hsteps', hsteps]; simp
          · intro u hu
            rcases List.mem_cons.mp hu with rfl | hu
            · exact ht
            · exact hall u hu
        · injection h with h
          have e1 : s' = (resample l s1 l1).1 := by rw [h]
          have e2 : l' = (resample l s1 l1).2 := by rw [h]
          subst e1 e2
          refine ⟨hg1, hi1, [c], [t], ?_, hsteps, htr, ?_⟩
          · rw [hlog]; simp [cycleEvents]
          · intro u hu
            rcases List.mem_singleton.mp hu with rfl
            exact ht

/-- A run of the too-bright loop that returns, entered in a valid state on a too-bright
reading: the indices stay valid, the log grows by whole power cycles, one per step, and
every step is taken on a too-bright reading and lowers gain before integration. -/
theorem tooHighLoop_trace (fuel : Nat) : ∀ {s s' : Sensor} {l l' : Search},
    tooHighLoop fuel s l = .ok (s', l') →
    l.newGain ≤ 3 → l.newIntegration ≤ 5 → 10000 < l.ambient →
    l'.newGain ≤ 3 ∧ l'.newIntegration ≤ 5
      ∧ ∃ (cs : List Cycle) (ts : List Step),
          s'.log = s.log ++ cycleEvents cs ∧ l'.steps = l.steps ++ ts ∧ Traced cs ts
            ∧ StepsOf Step.gainFirst ts := by
  induction fuel with
  | zero => intro s s' l l' h; simp [tooHighLoop] at h
  | succ n ih =>
    intro s s' l l' h hg hi hbright
    unfold tooHighLoop at h
    split at h
    · injection h with h
      injection h with h1 h2
      subst h1 h2
      exact ⟨hg, hi, [], [], by simp [cycleEvents], by simp, Traced.nil, by simp [StepsOf]⟩
    · rename_i hc
      split at h
      · cases h
      · rename_i s1 l1 hr
        obtain ⟨hg1, hi1, c, t, hlog, hsteps, htr, hamb, hdown, hin⟩ :=
          lower_cycle hr hg hi hc
        have ht : Step.gainFirst t ∧ t.inRange :=
          ⟨Or.inr ⟨by rw [hamb]; exact hbright, hdown⟩, hin⟩
        simp only at h
        split at h
        · rename_i hagain
          obtain ⟨hg', hi', cs, ts, hlog', hsteps', htr', hall⟩ := ih h hg1 hi1 hagain
          refine ⟨hg', hi', c :: cs, t :: ts, ?_, ?_, Traced.append htr htr', ?_⟩
          · rw [hlog', hlog]; simp [cycleEvents]
          · rw [hsteps', hsteps]; simp
          · intro u hu
            rcases List.mem_cons.mp hu with rfl | hu
            · exact ht
            · exact hall u hu
        · injection h with h
          have e1 : s' = (resample l s1 l1).1 := by rw [h]
          have e2 : l' = (resample l s1 l1).2 := by rw [h]
          subst e1 e2
          refine ⟨hg1, hi1, [c], [t], ?_, hsteps, htr, ?_⟩
          · rw [hlog]; simp [cycleEvents]
          · intro u hu
            rcases List.mem_singleton.mp hu with rfl
            exact ht

/-- The outer loop, when it returns from a valid state: the indices stay valid, the log
grows by whole power cycles, one per step, and every step adjusts gain before
integration in the direction its reading asks for. -/
theorem searchLoop_trace (fuel : Nat) : ∀ {s s' : Sensor} {l l' : Search},
    searchLoop fuel s l = .ok (s', l') → l.newGain ≤ 3 → l.newIntegration ≤ 5 →
    l'.newGain ≤ 3 ∧ l'.newIntegration ≤ 5
      ∧ ∃ (cs : List Cycle) (ts : List Step),
          s'.log = s.log ++ cycleEvents cs ∧ l'.steps = l.steps ++ ts ∧ Traced cs ts
            ∧ StepsOf Step.gainFirst ts := by
  induction fuel with
  | zero =>
    intro s s' l l' h hg hi
    unfold searchLoop at h
    split at h
    · cases h
    · injection h with h
      injection h with h1 h2
      subst h1 h2
      exact ⟨hg, hi, [], [], by simp [cycleEvents], by simp, Traced.nil, by simp [StepsOf]⟩
  | succ n ih =>
    intro s s' l l' h hg hi
    unfold searchLoop at h
    split at h
    · rename_i hc
      split at h
      · cases h
      · rename_i s1 l1 hrun
        have hone : l1.newGain ≤ 3 ∧ l1.newIntegration ≤ 5
            ∧ ∃ (cs : List Cycle) (ts : List Step),
                s1.log = s.log ++ cycleEvents cs ∧ l1.steps = l.steps ++ ts ∧ Traced cs ts
                  ∧ StepsOf Step.gainFirst ts := by
          split at hrun
          · rename_i hd
            exact tooLowLoop_trace _ hrun hg hi hd
          · rename_i hd
            exact tooHighLoop_trace _ hrun hg hi (by omega)
        obtain ⟨hg1, hi1, cs, ts, hlog, hsteps, htr, hall⟩ := hone
        obtain ⟨hg', hi', ds, us, hlog', hsteps', htr', hall'⟩ := ih h hg1 hi1
        refine ⟨hg', hi', cs ++ ds, ts ++ us, ?_, ?_, Traced.append htr htr', ?_⟩
        · rw [hlog', hlog, cycleEvents_append, List.append_assoc]
        · rw [hsteps', hsteps, List.append_assoc]
        · intro u hu
          rcases List.mem_append.mp hu with hu | hu
          · exact hall u hu
          · exact hall' u hu
    · injection h with h
      injection h with h1 h2
      subst h1 h2
      exact ⟨hg, hi, [], [], by simp [cycleEvents], by simp, Traced.nil, by simp [StepsOf]⟩

/-- The reset trial is one power cycle: the write sets the integration code of 100 ms
and the second wait is 200 ms. -/
theorem resetTrial_log (s : Sensor) (l : Search) :
    ∃ s1 l1, resetTrial s l = .ok (s1, l1)
      ∧ s1.log = s.log ++ Cycle.events
          { before := l.newIntegration
            write := .setIntegrationTime VEML7700_INTEGRATION_100ms (s.VEML_sensor.acks 0)
            after := 2, sample := s.VEML_sensor.ambientFeed 0 % 65536 }
      ∧ l1.newIntegration = 2 :=
  ⟨_, _, rfl, by
    have h2 : mapAt integrations integration_array[2] = VEML7700_INTEGRATION_100ms := by
      decide
    simp [Cycle.events, h2]
    rfl, rfl⟩

/-- The log of `enter`: the entry sample, followed by nothing or by the power cycle of
the reset trial, whose write sets the integration code of 100 ms and whose second wait
is 200 ms. -/
theorem enter_log {s s1 : Sensor} {l1 : Search} (h : enter s = .ok (s1, l1)) :
    l1.newGain = gainIndex s.VEML_sensor.sensitivityMode ∧ l1.steps = []
      ∧ ((s1.log = s.log ++ [.getAmbientLight (s.VEML_sensor.ambientFeed 0 % 65536)]
            ∧ l1.newIntegration = s.VEML_sensor.integrationTime
            ∧ (l1.maxed = true ∨ inBounds l1.ambient))
          ∨ (s1.log = s.log ++ .getAmbientLight (s.VEML_sensor.ambientFeed 0 % 65536)
                  :: Cycle.events
                      { before := s.VEML_sensor.integrationTime
                        write := .setIntegrationTime VEML7700_INTEGRATION_100ms
                          (s.VEML_sensor.acks 0)
                        after := 2, sample := s.VEML_sensor.ambientFeed 1 % 65536 }
                ∧ l1.newIntegration = 2)) := by
  unfold enter at h
  simp only at h
  split at h
  · split at h
    · injection h with h
      injection h with h1 h2
      subst h1 h2
      exact ⟨rfl, rfl, Or.inl ⟨rfl, rfl, Or.inl rfl⟩⟩
    · have hsame := resetTrial_ok h
      obtain ⟨s2, l2, hr, hlog, _⟩ := resetTrial_log (getAmbientLight s).2
        { ambient := (getAmbientLight s).1,
          newIntegration := (getAmbientLight s).2.VEML_sensor.integrationTime,
          newGain := gainIndex (getAmbientLight s).2.VEML_sensor.sensitivityMode,
          maxed := false, steps := [] }
      rw [hr] at h
      injection h with h
      injection h with h1 h2
      subst h1
      refine ⟨hsame.2.2.2.1, hsame.2.2.2.2, Or.inr ⟨?_, hsame.2.2.1⟩⟩
      rw [hlog, getAmbientLight_log, List.append_assoc]
      rfl
  · rename_i hin
    injection h with h
    injection h with h1 h2
    subst h1 h2
    refine ⟨rfl, rfl, Or.inl ⟨rfl, rfl, Or.inr ?_⟩⟩
    unfold inBounds
    simp only
    omega

theorem index_ok_lt {array : List String} {i : Nat} {label : String}
    (h : index array i = .ok label) : i < array.length ∧ array[i]? = some label := by
  unfold index at h
  split at h
  · rename_i x hx
    injection h with h
    subst h
    exact ⟨(List.getElem?_eq_some_iff.mp hx).1, hx⟩
  · cases h

/-- A call of `adjustSensitivity` that returns, from a sensitivity code whose gain
index is valid: the final indices are valid, the log is the entry sample followed by
whole power cycles (the reset trial, if any, then one per step), and every step adjusts
gain before integration in the direction its reading asks for. -/
theorem adjustSensitivity_trace {fuel : Nat} {s s' : Sensor} {l : Search}
    (h : adjustSensitivity fuel s = .ok (s', l))
    (hg : gainIndex s.VEML_sensor.sensitivityMode ≤ 3) :
    l.newGain ≤ 3 ∧ l.newIntegration ≤ 5
      ∧ ∃ (reset cs : List Cycle),
          s'.log = s.log ++ .getAmbientLight (s.VEML_sensor.ambientFeed 0 % 65536)
              :: cycleEvents (reset ++ cs)
            ∧ (reset = []
                ∨ reset = [{ before := s.VEML_sensor.integrationTime
                             write := .setIntegrationTime VEML7700_INTEGRATION_100ms
                               (s.VEML_sensor.acks 0)
                             after := 2, sample := s.VEML_sensor.ambientFeed 1 % 65536 }])
            ∧ Traced cs l.steps ∧ StepsOf Step.gainFirst l.steps := by
  unfold adjustSensitivity at h
  split at h
  · cases h
  · rename_i s1 l1 he
    split at h
    · cases h
    · rename_i s2 l2 hs
      obtain ⟨hl, hlog, _, hii, _⟩ := updateSettings_ok h
      subst hl
      have hi5 : l.newIntegration ≤ 5 := by
        have := (index_ok_lt hii).1
        simp [integration_array] at this
        omega
      obtain ⟨hg1, hsteps, hcase⟩ := enter_log he
      rcases hcase with ⟨hlog1, _, hdone⟩ | ⟨hlog1, hi2⟩
      · rw [searchLoop_done fuel s1 l1 hdone] at hs
        injection hs with hs
        injection hs with e1 e2
        subst e1 e2
        refine ⟨by rw [hg1]; exact hg, hi5, [], [], ?_, Or.inl rfl, ?_, ?_⟩
        · rw [hlog, hlog1]; rfl
        · rw [hsteps]; exact Traced.nil
        · rw [hsteps]; simp [StepsOf]
      · obtain ⟨hg2, _, cs, ts, hlog2, hsteps2, htr, hall⟩ :=
          searchLoop_trace fuel hs (by rw [hg1]; exact hg) (by omega)
        rw [hsteps, List.nil_append] at hsteps2
        refine ⟨hg2, hi5, _, cs, ?_, Or.inr rfl, by rw [hsteps2]; exact htr,
          by rw [hsteps2]; exact hall⟩
        rw [hlog, hlog2, hlog1]
        simp [cycleEvents]

/-- From a valid state a run of the too-dark loop never makes an out-of-range
subscript. -/
theorem tooLowLoop_safe (fuel : Nat) : ∀ (s : Sensor) (l : Search),
    l.newGain ≤ 3 → l.newIntegration ≤ 5 → tooLowLoop fuel s l ≠ .error .outOfBounds := by
  induction fuel with
  | zero => intro s l _ _ h; simp [tooLowLoop] at h
  | succ n ih =>
    intro s l hg hi
    unfold tooLowLoop
    by_cases hc : l.newIntegration = 5 ∧ l.newGain = 3
    · rw [if_pos hc]; intro h; cases h
    · rw [if_neg hc]
      obtain ⟨s1, l1, hr, _, _, hg1, hi1, _⟩ :=
        raise_of_valid (delay (25 * 2 ^ l.newIntegration) (shutdown s)) l hg hi hc
      rw [hr]
      simp only
      split
      · exact ih _ _ hg1 hi1
      · intro h; cases h

/-- From a valid state a run of the too-bright loop never makes an out-of-range
subscript. -/
theorem tooHighLoop_safe (fuel : Nat) : ∀ (s : Sensor) (l : Search),
    l.newGain ≤ 3 → l.newIntegration ≤ 5 → tooHighLoop fuel s l ≠ .error .outOfBounds := by
  induction fuel with
  | zero => intro s l _ _ h; simp [tooHighLoop] at h
  | succ n ih =>
    intro s l hg hi
    unfold tooHighLoop
    by_cases hc : l.newIntegration = 0 ∧ l.newGain = 0
    · rw [if_pos hc]; intro h; cases h
    · rw [if_neg hc]
      obtain ⟨s1, l1, hr, _, _, hg1, hi1, _⟩ :=
        lower_of_valid (delay (25 * 2 ^ l.newIntegration) (shutdown s)) l hg hi hc
      rw [hr]
      simp only
      split
      · exact ih _ _ hg1 hi1
      · intro h; cases h

/-- From a valid state the outer loop never makes an out-of-range subscript. -/
theorem searchLoop_safe (fuel : Nat) : ∀ (s : Sensor) (l : Search),
    l.newGain ≤ 3 → l.newIntegration ≤ 5 → searchLoop fuel s l ≠ .error .outOfBounds := by
  induction fuel with
  | zero =>
    intro s l _ _ h
    unfold searchLoop at h
    split at h <;> cases h
  | succ n ih =>
    intro s l hg hi
    unfold searchLoop
    by_cases hc : l.maxed = false ∧ (l.ambient ≤ 100 ∨ l.ambient > 10000)
    · rw [if_pos hc]
      by_cases hd : l.ambient ≤ 100
      · rw [if_pos hd]
        have hsafe := tooLowLoop_safe (n + 1) s l hg hi
        cases hrun : tooLowLoop (n + 1) s l with
        | error e =>
          simp only
          intro h
          injection h with h
          subst h
          exact hsafe hrun
        | ok r =>
          obtain ⟨s1, l1⟩ := r
          simp only
          obtain ⟨hg1, hi1, _⟩ := tooLowLoop_trace _ hrun hg hi hd
          exact ih s1 l1 hg1 hi1
      · rw [if_neg hd]
        have hsafe := tooHighLoop_safe (n + 1) s l hg hi
        cases hrun : tooHighLoop (n + 1) s l with
        | error e =>
          simp only
          intro h
          injection h with h
          subst h
          exact hsafe hrun
        | ok r =>
          obtain ⟨s1, l1⟩ := r
          simp only
          obtain ⟨hg1, hi1, _⟩ := tooHighLoop_trace _ hrun hg hi (by omega)
          exact ih s1 l1 hg1 hi1
    · rw [if_neg hc]; intro h; cases h

/-- From a valid applied state `adjustSensitivity` never makes an out-of-range
subscript, whatever the fuel and the readings. -/
theorem adjustSensitivity_safe (fuel : Nat) (s : Sensor)
    (hg : s.VEML_sensor.sensitivityMode < 4) (hi : s.VEML_sensor.integrationTime < 6) :
    adjustSensitivity fuel s ≠ .error .outOfBounds := by
  obtain ⟨s1, l1, he, _, hgeq, _, hcase⟩ := enter_eq s
  have hg1 : l1.newGain ≤ 3 := by rw [hgeq]; exact gainIndex_le hg
  have hi1 : l1.newIntegration ≤ 5 := by
    rcases hcase with ⟨_, h⟩ | ⟨_, h, _⟩ <;> omega
  unfold adjustSensitivity
  rw [he]
  simp only
  have hsafe := searchLoop_safe fuel s1 l1 hg1 hi1
  cases hs : searchLoop fuel s1 l1 with
  | error e =>
    simp only
    intro h
    injection h with h
    subst h
    exact hsafe hs
  | ok r =>
    obtain ⟨s2, l2⟩ := r
    simp only
    obtain ⟨hg2, hi2, _⟩ := searchLoop_trace fuel hs hg1 hi1
    obtain ⟨s3, hu, _⟩ := updateSettings_of_valid s2 l2 hg2 hi2
    rw [hu]
    intro h
    cases h

/-! ## C14: the power cycles -/

/-- C14. In a call of `adjustSensitivity` that returns (device sensitivity code 0..3),
the log after the entry sample is a sequence of whole power cycles and nothing else: the
reset trial, when it is made, and then one cycle per step of the loops, in order. Every
cycle is shutdown, delay of 25*2^p ms, one setting write, power-on, delay of 2*25*2^q
ms, one ambient sample, with p and q the integration indices before and after the
change of the matching step, and no other gain or integration write. The reset trial
has p the integration code the device had on entry, writes the code of 100 ms
(integration index 2) and so waits 200 ms before its sample. -/
theorem adjustSensitivity_power_cycles (fuel : Nat) (s s' : Sensor) (l : Search)
    (hg : s.VEML_sensor.sensitivityMode < 4)
    (h : adjustSensitivity fuel s = .ok (s', l)) :
    ∃ (reset cs : List Cycle),
      s'.log = s.log ++ .getAmbientLight (s.VEML_sensor.ambientFeed 0 % 65536)
          :: cycleEvents (reset ++ cs)
        ∧ (reset = []
            ∨ (reset = [{ before := s.VEML_sensor.integrationTime
                          write := .setIntegrationTime VEML7700_INTEGRATION_100ms
                            (s.VEML_sensor.acks 0)
                          after := 2, sample := s.VEML_sensor.ambientFeed 1 % 65536 }]
                ∧ cycleEvents reset =
                    [.shutdown, .delay (25 * 2 ^ s.VEML_sensor.integrationTime),
                     .setIntegrationTime 2 (s.VEML_sensor.acks 0), .powerOn, .delay 200,
                     .getAmbientLight (s.VEML_sensor.ambientFeed 1 % 65536)]))
        ∧ cs.map (fun c => (c.before, c.after))
            = l.steps.map (fun t => (t.integration, t.integrationAfter))
        ∧ ∀ c ∈ reset ++ cs,
            c.events = [.shutdown, .delay (25 * 2 ^ c.before), c.write, .powerOn,
                        .delay (2 * (25 * 2 ^ c.after)), .getAmbientLight c.sample]
              ∧ isSettingWrite c.write = true ∧ settingWrites c.events = 1 := by
  obtain ⟨_, _, reset, cs, hlog, hreset, htr, _⟩ :=
    adjustSensitivity_trace h (gainIndex_le hg)
  have hone : ∀ c : Cycle, isSettingWrite c.write = true → settingWrites c.events = 1 := by
    intro c hc
    obtain ⟨p, w, q, v⟩ := c
    cases w <;> simp_all [settingWrites, Cycle.events, List.countP_cons, isSettingWrite]
  refine ⟨reset, cs, hlog, ?_, htr.1, ?_⟩
  · rcases hreset with hr | hr
    · exact Or.inl hr
    · refine Or.inr ⟨hr, ?_⟩
      rw [hr]
      rfl
  · intro c hc
    have hw : isSettingWrite c.write = true := by
      rcases List.mem_append.mp hc with hc | hc
      · rcases hreset with hr | hr
        · rw [hr] at hc; cases hc
        · rw [hr] at hc
          rw [List.mem_singleton.mp hc]
          rfl
      · exact htr.2 c hc
    exact ⟨rfl, hw, hone c hw⟩

/-- When the light is switched on during the search the call makes three power cycles:
the reset trial, a step up in gain and a step down in gain. -/
theorem adjustSensitivity_power_cycles_witness :
    swing.VEML_sensor.sensitivityMode < 4
      ∧ ∃ s' l, adjustSensitivity 4 swing = .ok (s', l)
        ∧ s'.log = [.getAmbientLight 50,
            .shutdown, .delay 100, .setIntegrationTime 2 true, .powerOn, .delay 200,
            .getAmbientLight 50,
            .shutdown, .delay 100, .setSensitivityMode 0 true, .powerOn, .delay 200,
            .getAmbientLight 20000,
            .shutdown, .delay 100, .setSensitivityMode 3 true, .powerOn, .delay 200,
            .getAmbientLight 5000]
        ∧ ∃ (reset cs : List Cycle),
          s'.log = swing.log ++ .getAmbientLight (swing.VEML_sensor.ambientFeed 0 % 65536)
              :: cycleEvents (reset ++ cs)
            ∧ (reset = []
                ∨ (reset = [{ before := swing.VEML_sensor.integrationTime
                              write := .setIntegrationTime VEML7700_INTEGRATION_100ms
                                (swing.VEML_sensor.acks 0)
                              after := 2, sample := swing.VEML_sensor.ambientFeed 1 % 65536 }]
                    ∧ cycleEvents reset =
                        [.shutdown, .delay (25 * 2 ^ swing.VEML_sensor.integrationTime),
                         .setIntegrationTime 2 (swing.VEML_sensor.acks 0), .powerOn,
                         .delay 200,
                         .getAmbientLight (swing.VEML_sensor.ambientFeed 1 % 65536)]))
            ∧ cs.map (fun c => (c.before, c.after))
                = l.steps.map (fun t => (t.integration, t.integrationAfter))
            ∧ ∀ c ∈ reset ++ cs,
                c.events = [.shutdown, .delay (25 * 2 ^ c.before), c.write, .powerOn,
                            .delay (2 * (25 * 2 ^ c.after)), .getAmbientLight c.sample]
                  ∧ isSettingWrite c.write = true ∧ settingWrites c.events = 1 :=
  ⟨by decide, _, _, rfl, by decide,
    adjustSensitivity_power_cycles 4 swing _ _ (by decide) rfl⟩

/-! ## C15: gain before integration -/

/-- The setting change of a too-dark step, case by case: below gain index 3 only the
gain index moves, by one; at gain index 3 (or above) and below integration index 5 only
the integration index moves, by one; otherwise nothing changes. -/
theorem raise_gain_first (s : Sensor) (l : Search) :
    (l.newGain < 3 →
        ∃ s1, raise s l = .ok (s1, { l with newGain := l.newGain + 1 }))
      ∧ (¬ l.newGain < 3 → l.newIntegration < 5 →
        ∃ s1, raise s l = .ok (s1, { l with newIntegration := l.newIntegration + 1 }))
      ∧ (¬ l.newGain < 3 → ¬ l.newIntegration < 5 → raise s l = .ok (s, l)) := by
  refine ⟨?_, ?_, ?_⟩
  · intro hg
    have hlt : l.newGain + 1 < gain_array.length := by simp [gain_array]; omega
    unfold raise
    rw [if_pos hg, index_ok_of_lt hlt]
    exact ⟨_, rfl⟩
  · intro hg hi
    have hlt : l.newIntegration + 1 < integration_array.length := by
      simp [integration_array]; omega
    unfold raise
    rw [if_neg hg, if_pos hi, index_ok_of_lt hlt]
    exact ⟨_, rfl⟩
  · intro hg hi
    unfold raise
    rw [if_neg hg, if_neg hi]

/-- The setting change of a too-bright step, case by case, from a gain index of at
most 3 and an integration index of at most 5. -/
theorem lower_gain_first (s : Sensor) (l : Search) (hg3 : l.newGain ≤ 3)
    (hi5 : l.newIntegration ≤ 5) :
    (0 < l.newGain →
        ∃ s1, lower s l = .ok (s1, { l with newGain := l.newGain - 1 }))
      ∧ (l.newGain = 0 → 0 < l.newIntegration →
        ∃ s1, lower s l = .ok (s1, { l with newIntegration := l.newIntegration - 1 }))
      ∧ (l.newGain = 0 → l.newIntegration = 0 → lower s l = .ok (s, l)) := by
  refine ⟨?_, ?_, ?_⟩
  · intro hg
    have hlt : l.newGain - 1 < gain_array.length := by simp [gain_array]; omega
    unfold lower
    rw [if_pos hg, index_ok_of_lt hlt]
    exact ⟨_, rfl⟩
  · intro hg hi
    have hlt : l.newIntegration - 1 < integration_array.length := by
      simp [integration_array]; omega
    unfold lower
    rw [if_neg (by omega), if_pos hi, index_ok_of_lt hlt]
    exact ⟨_, rfl⟩
  · intro hg hi
    unfold lower
    rw [if_neg (by omega), if_neg (by omega)]

/-- C15. Gain is adjusted before integration. In a call of `adjustSensitivity` that
returns (device sensitivity code 0..3), every step of the loops was taken on a reading
that is too dark (<= 100) or too bright (> 10000). A too-dark step at a gain index
below 3 raises the gain index by one and keeps the integration index; only at gain
index 3 does it raise the integration index, by one, and that index was below 5. A
too-bright step at a gain index above 0 lowers the gain index by one and keeps the
integration index; only at gain index 0 does it lower the integration index, by one, and
that index was above 0. So every step changes exactly one index by exactly one. The
same holds of the setting change itself (`raise` and `lower`), whether or not the call
returns. -/
theorem adjustSensitivity_steps_gain_first (fuel : Nat) (s s' : Sensor) (l : Search)
    (hg : s.VEML_sensor.sensitivityMode < 4)
    (h : adjustSensitivity fuel s = .ok (s', l)) :
    (∀ t ∈ l.steps,
        (t.ambient ≤ 100 ∨ 10000 < t.ambient)
          ∧ (t.ambient ≤ 100 →
              (t.gain < 3 → t.gainAfter = t.gain + 1 ∧ t.integrationAfter = t.integration)
                ∧ (¬ t.gain < 3 → t.gain = 3 ∧ t.integration < 5 ∧ t.gainAfter = 3
                    ∧ t.integrationAfter = t.integration + 1))
          ∧ (10000 < t.ambient →
              (0 < t.gain → t.gainAfter + 1 = t.gain ∧ t.integrationAfter = t.integration)
                ∧ (t.gain = 0 → 0 < t.integration ∧ t.gainAfter = 0
                    ∧ t.integrationAfter + 1 = t.integration))
          ∧ ((t.integrationAfter = t.integration
                ∧ (t.gainAfter = t.gain + 1 ∨ t.gainAfter + 1 = t.gain))
              ∨ (t.gainAfter = t.gain
                ∧ (t.integrationAfter = t.integration + 1
                    ∨ t.integrationAfter + 1 = t.integration))))
      ∧ ∀ (p : Sensor) (k : Search), k.newGain ≤ 3 → k.newIntegration ≤ 5 →
          (k.newGain < 3 →
              ∃ p1, raise p k = .ok (p1, { k with newGain := k.newGain + 1 }))
            ∧ (k.newGain = 3 → k.newIntegration < 5 →
              ∃ p1, raise p k = .ok (p1, { k with newIntegration := k.newIntegration + 1 }))
            ∧ (0 < k.newGain →
              ∃ p1, lower p k = .ok (p1, { k with newGain := k.newGain - 1 }))
            ∧ (k.newGain = 0 → 0 < k.newIntegration →
              ∃ p1, lower p k = .ok (p1, { k with newIntegration := k.newIntegration - 1 })) := by
  obtain ⟨_, _, _, _, _, _, _, hsteps⟩ := adjustSensitivity_trace h (gainIndex_le hg)
  refine ⟨?_, ?_⟩
  · intro t ht
    obtain ⟨hside, hrange⟩ := hsteps t ht
    unfold Step.inRange at hrange
    unfold Step.gainFirst Step.raisesGainFirst Step.lowersGainFirst at hside
    refine ⟨?_, ?_, ?_, ?_⟩
    · rcases hside with ⟨hd, _⟩ | ⟨hb, _⟩
      · exact Or.inl hd
      · exact Or.inr hb
    · intro hd
      rcases hside with ⟨_, hr⟩ | ⟨hb, _⟩
      · rcases hr with ⟨h1, h2, h3⟩ | ⟨h1, h2, h3, h4⟩
        · exact ⟨fun _ => ⟨h2, h3⟩, fun hn => absurd h1 hn⟩
        · exact ⟨fun hlt => by omega, fun _ => ⟨h1, h2, h3, h4⟩⟩
      · omega
    · intro hb
      rcases hside with ⟨hd, _⟩ | ⟨_, hr⟩
      · omega
      · rcases hr with ⟨h1, h2, h3⟩ | ⟨h1, h2, h3, h4⟩
        · exact ⟨fun _ => ⟨h2, h3⟩, fun h0 => by omega⟩
        · exact ⟨fun hpos => by omega, fun _ => ⟨h2, h3, h4⟩⟩
    · rcases hside with ⟨_, hr⟩ | ⟨_, hr⟩
      · rcases hr with ⟨_, h2, h3⟩ | ⟨h1, _, h3, h4⟩
        · exact Or.inl ⟨h3, Or.inl h2⟩
        · exact Or.inr ⟨by omega, Or.inl h4⟩
      · rcases hr with ⟨_, h2, h3⟩ | ⟨h1, _, h3, h4⟩
        · exact Or.inl ⟨h3, Or.inr h2⟩
        · exact Or.inr ⟨by omega, Or.inr h4⟩
  · intro p k hk3 hk5
    obtain ⟨hr1, hr2, _⟩ := raise_gain_first p k
    obtain ⟨hl1, hl2, _⟩ := lower_gain_first p k hk3 hk5
    exact ⟨hr1, fun h3 => hr2 (by omega), hl1, hl2⟩

/-- In the dark room the call takes five steps: two in gain (index 1 to 3) and then,
at gain index 3, three in integration (index 2 to 5). -/
theorem adjustSensitivity_steps_gain_first_witness :
    darkRoom.VEML_sensor.sensitivityMode < 4
      ∧ ∃ s' l, adjustSensitivity 8 darkRoom = .ok (s', l)
        ∧ l.steps =
            [{ ambient := 50, gain := 1, integration := 2, gainAfter := 2, integrationAfter := 2 },
             { ambient := 50, gain := 2, integration := 2, gainAfter := 3, integrationAfter := 2 },
             { ambient := 50, gain := 3, integration := 2, gainAfter := 3, integrationAfter := 3 },
             { ambient := 50, gain := 3, integration := 3, gainAfter := 3, integrationAfter := 4 },
             { ambient := 50, gain := 3, integration := 4, gainAfter := 3, integrationAfter := 5 }]
        ∧ ∀ t ∈ l.steps,
            (t.integrationAfter = t.integration
                ∧ (t.gainAfter = t.gain + 1 ∨ t.gainAfter + 1 = t.gain))
              ∨ (t.gainAfter = t.gain
                ∧ (t.integrationAfter = t.integration + 1
                    ∨ t.integrationAfter + 1 = t.integration)) :=
  ⟨by decide, _, _, rfl, by decide,
    fun t ht =>
      ((adjustSensitivity_steps_gain_first 8 darkRoom _ _ (by decide) rfl).1 t ht).2.2.2⟩

/-! ## C18: index safety -/

/-- C18. Index safety. From a device that reports a sensitivity code in 0..3 and an
integration code in 0..5, for every script of readings and of write results and every
fuel, `adjustSensitivity` never makes a subscript outside `gain_array` or
`integration_array` (the model faults on the first such subscript, in a step or in the
final update of `sensor_config`, and it never does). When the call returns, the tracked
gain index is below 4 and the tracked integration index below 6, so were the indices
before and after every step, and the labels stored in `sensor_config` are the entries of
the two arrays at the final indices. -/
theorem adjustSensitivity_index_safety (fuel : Nat) (s : Sensor)
    (hg : s.VEML_sensor.sensitivityMode < 4) (hi : s.VEML_sensor.integrationTime < 6) :
    adjustSensitivity fuel s ≠ .error .outOfBounds
      ∧ ∀ s' l, adjustSensitivity fuel s = .ok (s', l) →
          l.newGain < gain_array.length ∧ l.newIntegration < integration_array.length
            ∧ (∀ t ∈ l.steps, t.gain < 4 ∧ t.gainAfter < 4 ∧ t.integration < 6
                ∧ t.integrationAfter < 6)
            ∧ gain_array[l.newGain]? = some s'.sensor_config.gain
            ∧ integration_array[l.newIntegration]? = some s'.sensor_config.integration := by
  refine ⟨adjustSensitivity_safe fuel s hg hi, ?_⟩
  intro s' l h
  obtain ⟨h3, h5, _, _, _, _, _, hsteps⟩ := adjustSensitivity_trace h (gainIndex_le hg)
  have hcfg : index integration_array l.newIntegration = .ok s'.sensor_config.integration
      ∧ index gain_array l.newGain = .ok s'.sensor_config.gain := by
    unfold adjustSensitivity at h
    split at h
    · cases h
    · split at h
      · cases h
      · obtain ⟨hl, _, _, hii, hgg, _⟩ := updateSettings_ok h
        subst hl
        exact ⟨hii, hgg⟩
  refine ⟨by simp [gain_array]; omega, by simp [integration_array]; omega, ?_,
    (index_ok_lt hcfg.2).2, (index_ok_lt hcfg.1).2⟩
  intro t ht
  exact (hsteps t ht).2

/-- Under the flickering light the call returns after thirty steps, and under any fuel
it never makes a subscript out of range. -/
theorem adjustSensitivity_index_safety_witness :
    flicker.VEML_sensor.sensitivityMode < 4 ∧ flicker.VEML_sensor.integrationTime < 6
      ∧ (∃ r, adjustSensitivity 40 flicker = .ok r)
      ∧ adjustSensitivity 40 flicker ≠ .error .outOfBounds
      ∧ ∀ s' l, adjustSensitivity 40 flicker = .ok (s', l) →
          l.newGain < gain_array.length ∧ l.newIntegration < integration_array.length
            ∧ (∀ t ∈ l.steps, t.gain < 4 ∧ t.gainAfter < 4 ∧ t.integration < 6
                ∧ t.integrationAfter < 6)
            ∧ gain_array[l.newGain]? = some s'.sensor_config.gain
            ∧ integration_array[l.newIntegration]? = some s'.sensor_config.integration :=
  ⟨by decide, by decide, ⟨_, rfl⟩,
    adjustSensitivity_index_safety 40 flicker (by decide) (by decide)⟩

/-! ## C11: the labels stored after a call -/

/-- C11 fails on the code at dusk. The device is at gain 2x (code 1) and 100 ms
(code 2), the readings are 50, 50 and then 5000 and every write succeeds. The call
returns after the reset trial and one step to integration index 3. That step writes
`integrations["200ms"]`, a key the table does not have, so the device is set to code 0
(25 ms) while `sensor_config.integration` becomes "200ms": the stored label does not
denote the integration time applied to the device. The gain label does denote the
applied gain. -/
theorem adjustSensitivity_stores_200ms_while_25ms_applied :
    ∃ s' l, adjustSensitivity 3 dusk = .ok (s', l)
      ∧ s'.log = [.getAmbientLight 50,
          .shutdown, .delay 100, .setIntegrationTime 2 true, .powerOn, .delay 200,
          .getAmbientLight 50,
          .shutdown, .delay 100, .setIntegrationTime 0 true, .powerOn, .delay 400,
          .getAmbientLight 5000]
      ∧ (∀ e ∈ s'.log, isFailedWrite e = false)
      ∧ l.newIntegration = 3
      ∧ s'.sensor_config.integration = "200ms"
      ∧ s'.VEML_sensor.integrationTime = VEML7700_INTEGRATION_25ms
      ∧ integration_array[s'.VEML_sensor.integrationTime]? = some "25ms"
      ∧ integration_array[s'.VEML_sensor.integrationTime]?
          ≠ some s'.sensor_config.integration
      ∧ mapAt integrations s'.sensor_config.integration ≠ VEML7700_INTEGRATION_200ms
      ∧ s'.sensor_config.gain = "2x"
      ∧ gain_array[gainIndex s'.VEML_sensor.sensitivityMode]? = some s'.sensor_config.gain :=
  ⟨_, _, rfl, by decide, by decide, by decide, by decide, by decide, by decide, by decide,
    by decide, by decide, by decide⟩

end VEML7700LightSensor
